import Mathlib

/-!
# HfTreeCreatorOmegacSt: candidate reconstruction and truth matching

A shallow embedding of `PWGHF/TableProducer/treeCreatorOmegacSt.cxx`.

* Floating-point columns and quantities are rationals; rounding is not modelled.
* Index columns of the input tables are resolved: a tracked cascade carries its
  track, bachelor and V0 daughter tracks.
* Everything the task calls in other libraries (the two-prong fitter, the
  propagator, `RecoDecay`, the CCDB) is a field of `Ext`; the task's control
  flow is written over those fields.
* The two output tables, the three candidate counters and the CCDB requests are
  append-only sinks: every function returns what it appended (`Out`) next to the
  new values of the task's data members (`TaskState`).
* `LOG(fatal)` ends the process: the run stops with `fatal = true`.
* Histograms other than the three candidate counters (and, in `processMc`,
  `hDecayLengthScaledMc`), log lines, the calls into Zorro other than its CCDB
  initialisation, and the out-parameters of `getMatchedMCRec` that are never
  read back (`sign`, `nPiToMu...`, `nKaToPi...`, `idxBhadMothers`) are left out.
-/

namespace HfTreeCreatorOmegacSt

/-! ## Constants taken from the included headers -/

/-- PDG code of the Omega_c^0 (`o2::constants::physics::Pdg::kOmegaC0`). -/
def kOmegaC0 : Int := 4332
/-- PDG code of the Xi_c^0 (`o2::constants::physics::Pdg::kXiC0`). -/
def kXiC0 : Int := 4132
/-- PDG code of the Omega^- (`TPDGCode.h`). -/
def kOmegaMinus : Int := 3334
/-- PDG code of the Xi^- (`TPDGCode.h`). -/
def kXiMinus : Int := 3312
/-- PDG code of the Lambda^0 (`TPDGCode.h`). -/
def kLambda0 : Int := 3122
/-- PDG code of the proton (`TPDGCode.h`). -/
def kProton : Int := 2212
/-- PDG code of the pi^+ (`TPDGCode.h`). -/
def kPiPlus : Int := 211
/-- PDG code of the pi^- (`TPDGCode.h`). -/
def kPiMinus : Int := -211
/-- PDG code of the K^+ (`TPDGCode.h`). -/
def kKPlus : Int := 321
/-- PDG code of the K^- (`TPDGCode.h`). -/
def kKMinus : Int := -321

/-- Mass of the Omega^- in GeV (`o2::constants::physics::MassOmegaMinus`). -/
def MassOmegaMinus : ℚ := 167245 / 100000
/-- Mass of the Xi^- in GeV (`o2::constants::physics::MassXiMinus`). -/
def MassXiMinus : ℚ := 132171 / 100000
/-- Mass of the Omega_c^0 in GeV (`o2::constants::physics::MassOmegaC0`). -/
def MassOmegaC0 : ℚ := 26952 / 10000
/-- Mass of the Xi_c^0 in GeV (`o2::constants::physics::MassXiC0`). -/
def MassXiC0 : ℚ := 247044 / 100000
/-- Mass of the Lambda^0 in GeV (`o2::constants::physics::MassLambda0`). -/
def MassLambda0 : ℚ := 1115683 / 1000000
/-- Mass of the proton in GeV (`o2::constants::physics::MassProton`). -/
def MassProton : ℚ := 93827208816 / 100000000000
/-- Mass of the pi^+ in GeV (`o2::constants::physics::MassPiPlus`). -/
def MassPiPlus : ℚ := 13957039 / 100000000
/-- Mass of the pi^- in GeV (`o2::constants::physics::MassPiMinus`). -/
def MassPiMinus : ℚ := 13957039 / 100000000
/-- Mass of the K^+ in GeV (`o2::constants::physics::MassKPlus`). -/
def MassKPlus : ℚ := 493677 / 1000000

/-- The enumerator `hf_cand_casc_lf::DecayType2Prong::OmegaczeroToOmegaPi`; the
enumeration is declared in a header of the data model. -/
def OmegaczeroToOmegaPi : Int := 1
/-- The enumerator `hf_cand_casc_lf::DecayType2Prong::OmegaczeroToOmegaK`. -/
def OmegaczeroToOmegaK : Int := 2

/-- The member constant `itsNClsMin`. -/
def itsNClsMin : Int := 4
/-- The member constant `tpcNclsFindableFraction`. -/
def tpcNclsFindableFraction : ℚ := 8 / 10
/-- The member constant `tpcChi2NclMax`. -/
def tpcChi2NclMax : ℚ := 4
/-- The member constant `itsChi2NclMax`. -/
def itsChi2NclMax : ℚ := 36

/-! ## Data model -/

/-- A point or a momentum, `std::array<_, 3>`. -/
abbrev Vec3 := ℚ × ℚ × ℚ

/-- Track parametrisation with covariance, `o2::track::TrackParCov`. -/
structure TrackParCov where
  x : ℚ
  alpha : ℚ
  par : List ℚ
  cov : List ℚ
deriving DecidableEq

/-- Impact parameter, `o2::dataformats::DCA`. -/
structure DCA where
  y : ℚ
  z : ℚ
  sigmaY2 : ℚ
  sigmaZ2 : ℚ
deriving DecidableEq

/-- A row of `aod::McParticles` (its collision's position resolved). -/
structure McParticle where
  globalIndex : Int
  pdgCode : Int
  mothersIds : List Int
  daughtersIds : List Int
  px : ℚ
  py : ℚ
  pz : ℚ
  vx : ℚ
  vy : ℚ
  vz : ℚ
  p : ℚ
  pt : ℚ
  mcCollisionPos : Vec3
deriving DecidableEq

/-- A row of `TracksExt` / `TracksExtMc`. `parCov` is what `getTrackParCov`
builds from the track's columns; `mcParticleId` is the label of `TracksExtMc`,
negative when the track has none. -/
structure Track where
  globalIndex : Int
  sign : Int
  hasTPC : Bool
  tpcNClsFindable : Int
  tpcNClsFound : Int
  tpcNClsCrossedRows : Int
  itsNCls : Int
  tpcChi2NCl : ℚ
  itsChi2NCl : ℚ
  tpcNSigmaPi : ℚ
  tofNSigmaPi : ℚ
  tpcNSigmaKa : ℚ
  tofNSigmaKa : ℚ
  tpcNSigmaPr : ℚ
  tofNSigmaPr : ℚ
  itsClusterMap : Nat
  parCov : TrackParCov
  mcParticleId : Int
deriving DecidableEq

/-- A row of `aod::V0s` with its two daughter tracks. -/
structure V0 where
  posTrack : Track
  negTrack : Track
deriving DecidableEq

/-- A row of `aod::Cascades` with its bachelor and its V0. -/
structure Cascade where
  bachelor : Track
  v0 : V0
deriving DecidableEq

/-- A row of `aod::AssignedTrackedCascades`. -/
structure TrackedCascade where
  collisionId : Int
  track : Track
  cascade : Cascade
  topologyChi2 : ℚ
  matchingChi2 : ℚ
deriving DecidableEq

/-- A row of `aod::TrackAssoc`. -/
structure TrackAssoc where
  collisionId : Int
  track : Track
deriving DecidableEq

/-- A row of `aod::BCsWithTimestamps`. -/
structure BC where
  runNumber : Int
  timestamp : Nat
  globalBC : Nat
deriving DecidableEq

/-- A row of `soa::Join<aod::Collisions, aod::EvSels>`. -/
structure Collision where
  globalIndex : Int
  bc : BC
  posX : ℚ
  posY : ℚ
  posZ : ℚ
  sel8 : Bool
deriving DecidableEq

/-- What the task reads from an `o2::parameters::GRPObject`. -/
structure GRPObject where
  nominalL3Field : Int
deriving DecidableEq

/-- What the task reads from an `o2::parameters::GRPMagField`. -/
structure GRPMagField where
  l3Current : ℚ
deriving DecidableEq

/-- The object last handed to `Propagator::initFieldFromGRP`. -/
inductive FieldInit where
  | unset
  | fromGRPObject (o : GRPObject)
  | fromGRPMagField (o : GRPMagField)
deriving DecidableEq

/-- What the task reads from `df2` after a successful `process`. -/
structure FitResult where
  pcaCandidate : Vec3
  trackParamAtPCA0 : TrackParCov
  trackParamAtPCA1 : TrackParCov
  parentTrackParCov : TrackParCov
  chi2AtPCACandidate : ℚ
deriving DecidableEq

/-- The three ways a call of `df2.process` ends: a non-zero number of
candidates, zero candidates, or a `std::runtime_error`. -/
inductive FitOutcome where
  | ok (r : FitResult)
  | noCandidate
  | runtimeError
deriving DecidableEq

/-- The configurables of the task. -/
structure Config where
  materialCorrectionType : Int
  propToDCA : Bool
  useAbsDCA : Bool
  skimmedProcessing : Bool
  maxR : ℚ
  maxDZIni : ℚ
  minParamChange : ℚ
  minRelChi2Change : ℚ
  minNoClsTrackedCascade : Int
  minNoClsTrackedPionOrKaon : Int
  useSel8Trigger : Bool
  massWindowTrackedOmega : ℚ
  massWindowXiExclTrackedOmega : ℚ
  massWindowTrackedXi : ℚ
  massWindowLambda : ℚ
  massWindowXiC : ℚ
  massWindowOmegaC : ℚ
  maxMatchingChi2TrackedCascade : ℚ
  recalculateMasses : Bool
  maxNSigmaBachelor : ℚ
  maxNSigmaV0Pr : ℚ
  maxNSigmaV0Pi : ℚ
  maxNSigmaPion : ℚ
  maxNSigmaKaon : ℚ
  bzOnly : Bool
deriving DecidableEq

/-- The configurables at their declared default values. -/
def Config.default : Config :=
  { materialCorrectionType := 2
    propToDCA := true
    useAbsDCA := true
    skimmedProcessing := false
    maxR := 200
    maxDZIni := 4
    minParamChange := 1 / 1000
    minRelChi2Change := 9 / 10
    minNoClsTrackedCascade := 70
    minNoClsTrackedPionOrKaon := 70
    useSel8Trigger := true
    massWindowTrackedOmega := 5 / 100
    massWindowXiExclTrackedOmega := 5 / 1000
    massWindowTrackedXi := 0
    massWindowLambda := 5 / 100
    massWindowXiC := 1 / 10
    massWindowOmegaC := 1 / 10
    maxMatchingChi2TrackedCascade := 2000
    recalculateMasses := true
    maxNSigmaBachelor := 5
    maxNSigmaV0Pr := 5
    maxNSigmaV0Pi := 5
    maxNSigmaPion := 5
    maxNSigmaKaon := 5
    bzOnly := true }

/-- The functions and services of other libraries that the task calls.
`process bz a b` is `df2.process(a, b)` with the fitter's field set to `bz`;
the two propagation functions return the propagated track and the impact
parameter they write; `m p0 p1 m0 m1` is `RecoDecay::m` of two momenta under
two masses; `getMatchedMCRec particles daughters pdgMother pdgDaughters
depthMax flags` carries the template flags as a list. -/
structure Ext where
  process : ℚ → TrackParCov → TrackParCov → FitOutcome
  propagateToDCA : Vec3 → TrackParCov → ℚ → Int → TrackParCov × DCA
  propagateToDCABxByBz : FieldInit → Vec3 → TrackParCov → Int → TrackParCov × DCA
  getPxPyPzGlo : TrackParCov → Vec3
  m : Vec3 → Vec3 → ℚ → ℚ → ℚ
  distance : Vec3 → Vec3 → ℚ
  distanceXY : Vec3 → Vec3 → ℚ
  cpa : Vec3 → Vec3 → Vec3 → ℚ
  cpaXY : Vec3 → Vec3 → Vec3 → ℚ
  sqrt : ℚ → ℚ
  getMatchedMCRec : List McParticle → List Track → Int → List Int → Nat → List Bool → Int
  getCharmHadronOrigin : List McParticle → Int → Int
  getGRPObject : Nat → Option GRPObject
  getGRPMagField : Nat → Option GRPMagField

/-- One row of the output table `HfStChBars`, in the declared column order. -/
structure Row where
  massOmega : ℚ
  massXi : ℚ
  massLambda : ℚ
  nSigmaTpcPion : ℚ
  nSigmaTofPion : ℚ
  nSigmaTpcKaon : ℚ
  nSigmaTofKaon : ℚ
  nSigmaTpcV0Pr : ℚ
  nSigmaTofV0Pr : ℚ
  nSigmaTpcV0Pi : ℚ
  nSigmaTofV0Pi : ℚ
  nSigmaTpcBachPi : ℚ
  nSigmaTofBachPi : ℚ
  nSigmaTpcBachKa : ℚ
  nSigmaTofBachKa : ℚ
  pxCasc : ℚ
  pyCasc : ℚ
  pzCasc : ℚ
  isPositiveCasc : Bool
  pxPionOrKaon : ℚ
  pyPionOrKaon : ℚ
  pzPionOrKaon : ℚ
  isPositivePionOrKaon : Bool
  itsClusterMapPionOrKaon : Nat
  cpaCharmedBaryon : ℚ
  cpaXYCharmedBaryon : ℚ
  cpaCasc : ℚ
  cpaXYCasc : ℚ
  dcaXYCasc : ℚ
  dcaXYUncCasc : ℚ
  dcaZCasc : ℚ
  dcaZUncCasc : ℚ
  dcaXYPionOrKaon : ℚ
  dcaXYUncPionOrKaon : ℚ
  dcaZPionOrKaon : ℚ
  dcaZUncPionOrKaon : ℚ
  dcaXYPr : ℚ
  dcaZPr : ℚ
  dcaXYKa : ℚ
  dcaZKa : ℚ
  dcaXYPi : ℚ
  dcaZPi : ℚ
  chi2TopologicalCharmedBaryon : ℚ
  chi2TopologicalCasc : ℚ
  decayLengthCharmedBaryon : ℚ
  decayLengthXYCharmedBaryon : ℚ
  decayLengthCharmedBaryonUntracked : ℚ
  decayLengthXYCharmedBaryonUntracked : ℚ
  decayLengthCasc : ℚ
  decayLengthXYCasc : ℚ
  motherCascId : Int
  motherPionOrKaonId : Int
  originMcRec : Int
deriving DecidableEq

/-- The three fit call sites, one candidate counter each:
`hCandidatesPrPi`, `hCandidatesV0Pi`, `hCandidatesCascPiOrK`. -/
inductive Site where
  | PrPi
  | V0Pi
  | CascPiOrK
deriving DecidableEq

/-- The bins of a candidate counter (`o2::hf_trkcandsel::SVFitting`). -/
inductive SVFitting where
  | BeforeFit
  | FitOk
  | Fail
deriving DecidableEq

/-- A request sent to the CCDB when the run number changes. -/
inductive CcdbQuery where
  | zorroInit (run : Int) (timestamp : Nat)
  | grpObject (timestamp : Nat)
  | grpMagField (timestamp : Nat)
deriving DecidableEq

/-- The data members of the task that its process functions read and write. -/
structure TaskState where
  runNumber : Int
  bz : ℚ
  dfBz : ℚ
  field : FieldInit
  mapMcPartToGenTable : List (Int × Int)
  indexRec : Int
  indexRecCharmBaryon : Int
  origin : Int
  decayChannel : Int
  isMatched : Bool
deriving DecidableEq

/-- The members as their declarations initialise them. -/
def TaskState.init : TaskState :=
  { runNumber := 0
    bz := 0
    dfBz := 0
    field := FieldInit.unset
    mapMcPartToGenTable := []
    indexRec := -1
    indexRecCharmBaryon := -1
    origin := 0
    decayChannel := -1
    isMatched := false }

/-- What a piece of the task appended to its sinks: rows of `HfStChBars`,
entries of the three candidate counters, requests to the CCDB. -/
structure Out where
  rows : List Row
  fills : List (Site × SVFitting)
  queries : List CcdbQuery
deriving DecidableEq

/-- Nothing appended. -/
def Out.nil : Out := ⟨[], [], []⟩

/-- Counter entries only. -/
def Out.ofFills (fs : List (Site × SVFitting)) : Out := ⟨[], fs, []⟩

/-- Sequential composition of what two pieces appended. -/
def Out.append (a b : Out) : Out :=
  ⟨a.rows ++ b.rows, a.fills ++ b.fills, a.queries ++ b.queries⟩

/-- Number of entries of bin `b` of the counter of site `s`. -/
def Out.count (o : Out) (s : Site) (b : SVFitting) : Nat :=
  o.fills.count (s, b)

/-! ## Helpers -/

/-- The loop `for (x : xs) body`: the members are threaded through the
iterations, and what the iterations appended is concatenated in order. -/
def forEach {α : Type} (body : TaskState → α → TaskState × Out) :
    TaskState → List α → TaskState × Out
  | st, [] => (st, Out.nil)
  | st, a :: as =>
    let r := body st a
    let r2 := forEach body r.1 as
    (r2.1, r.2.append r2.2)

/-- The function `std::lround`: nearest integer, halves away from zero. -/
def lround (q : ℚ) : Int :=
  if 0 ≤ q then ⌊q + 1 / 2⌋ else -⌊-q + 1 / 2⌋

/-- The function `getTrackParCov` of `trackUtilities.h`. -/
def getTrackParCov (t : Track) : TrackParCov := t.parCov

/-- The function `getPrimaryVertex` of `trackUtilities.h` (position only). -/
def getPrimaryVertex (c : Collision) : Vec3 := (c.posX, c.posY, c.posZ)

/-- The call `rawIteratorAt(i)` / the dereference of an index into
`McParticles`; a negative index is "no particle", and an index past the end
of the table is treated the same way. -/
def mcAt (table : List McParticle) (i : Int) : Option McParticle :=
  if i < 0 then none else table.get? i.toNat

/-- The block that looks a track's first generated mother up in
`mapMcPartToGenTable`; it is compiled in only for `TracksExtMc`. -/
def motherGenIndex (tracksExtMc : Bool) (table : List McParticle)
    (map : List (Int × Int)) (t : Track) : Int :=
  if tracksExtMc then
    match mcAt table t.mcParticleId with
    | some p =>
      match p.mothersIds with
      | mid :: _ =>
        match map.lookup mid with
        | some idx => idx
        | none => -1
      | [] => -1
    | none => -1
  else -1

/-- The `if (bzOnly) propagateToDCA(...) else propagateToDCABxByBz(...)` block:
the propagated track and the impact parameter written. -/
def propagate (ext : Ext) (cfg : Config) (st : TaskState) (primaryVertex : Vec3)
    (t : TrackParCov) : TrackParCov × DCA :=
  if cfg.bzOnly then
    ext.propagateToDCA primaryVertex t st.bz cfg.materialCorrectionType
  else
    ext.propagateToDCABxByBz st.field primaryVertex t cfg.materialCorrectionType

/-! ## fillTable: the run-number block -/

/-- The run-number block of `fillTable` (lines 444-465): the new members, the
CCDB requests made, and whether `LOG(fatal)` was reached. -/
def updateRun (ext : Ext) (cfg : Config) (st : TaskState) (bc : BC) :
    TaskState × List CcdbQuery × Bool :=
  if st.runNumber ≠ bc.runNumber then
    let zq := if cfg.skimmedProcessing then [CcdbQuery.zorroInit bc.runNumber bc.timestamp] else []
    let st1 := { st with runNumber := bc.runNumber }
    match ext.getGRPObject bc.timestamp with
    | some grpo =>
      let b : ℚ := grpo.nominalL3Field
      ({ st1 with field := FieldInit.fromGRPObject grpo, bz := b, dfBz := b },
        zq ++ [CcdbQuery.grpObject bc.timestamp], false)
    | none =>
      match ext.getGRPMagField bc.timestamp with
      | some grpmag =>
        let b : ℚ := lround (5 * grpmag.l3Current / 30000)
        ({ st1 with field := FieldInit.fromGRPMagField grpmag, bz := b, dfBz := b },
          zq ++ [CcdbQuery.grpObject bc.timestamp, CcdbQuery.grpMagField bc.timestamp], false)
      | none =>
        (st1, zq ++ [CcdbQuery.grpObject bc.timestamp, CcdbQuery.grpMagField bc.timestamp], true)
  else (st, [], false)

/-! ## fillTable: the truth match of one candidate -/

/-- One branch of the reconstruction-level match (lines 679-692, and 695-708
with `kKPlus` for `pdgPartner`): the baryon layer, then the cascade layer,
then the V0 layer, each only if the previous one returned an index. -/
def matchChain (ext : Ext) (mcp : List McParticle) (casc : Cascade) (track : Track)
    (pdgPartner : Int) (st : TaskState) : TaskState :=
  let arrayDaughters := [track, casc.bachelor, casc.v0.posTrack, casc.v0.negTrack]
  let arrayDaughtersCasc := [casc.bachelor, casc.v0.posTrack, casc.v0.negTrack]
  let arrayDaughtersV0 := [casc.v0.posTrack, casc.v0.negTrack]
  let i1 := ext.getMatchedMCRec mcp arrayDaughters kOmegaC0
    [pdgPartner, kKMinus, kProton, kPiMinus] 3 [false, true, false, true, false]
  let st1 := { st with indexRec := i1, indexRecCharmBaryon := i1 }
  if i1 > -1 then
    let i2 := ext.getMatchedMCRec mcp arrayDaughtersCasc kOmegaMinus
      [kKMinus, kProton, kPiMinus] 2 [false, true, false, true, true]
    let st2 := { st1 with indexRec := i2 }
    if i2 > -1 then
      let i3 := ext.getMatchedMCRec mcp arrayDaughtersV0 kLambda0
        [kProton, kPiMinus] 1 [false, true, false, true, true]
      let st3 := { st2 with indexRec := i3 }
      if i3 > -1 then { st3 with isMatched := true } else st3
    else st2
  else st1

/-- The members just before the test `if (isMatched && indexRecCharmBaryon > -1)`
(lines 677-709). -/
def mcRecMatchLayers (ext : Ext) (mcp : List McParticle) (casc : Cascade) (track : Track)
    (st : TaskState) : TaskState :=
  if st.decayChannel = OmegaczeroToOmegaPi then
    matchChain ext mcp casc track kPiPlus st
  else if st.decayChannel = OmegaczeroToOmegaK then
    matchChain ext mcp casc track kKPlus st
  else st

/-- The block `if (mcParticles) { ... }` (lines 662-714). -/
def mcRecMatch (ext : Ext) (mcp : List McParticle) (casc : Cascade) (track : Track)
    (st : TaskState) : TaskState :=
  let st1 := mcRecMatchLayers ext mcp casc track st
  if st1.isMatched ∧ st1.indexRecCharmBaryon > -1 then
    { st1 with origin := ext.getCharmHadronOrigin mcp st1.indexRecCharmBaryon }
  else st1

/-! ## fillTable: one (tracked cascade, track) combination -/

/-- The values of one tracked cascade that the loop over the associated tracks
reads (computed in lines 479-598). -/
structure CascCtx where
  trackedCascade : TrackedCascade
  v0TrackPr : Track
  v0TrackPi : Track
  primaryVertex : Vec3
  massOmega : ℚ
  massXi : ℚ
  massV0 : ℚ
  trackParCovCascUntracked : TrackParCov
  cpaCasc : ℚ
  cpaXYCasc : ℚ
  decayLengthCasc : ℚ
  decayLengthCascXY : ℚ
  impactParameterCasc : DCA
  impactParameterPr : DCA
  impactParameterKa : DCA
  impactParameterPi : DCA
  trackCascMotherId : Int

/-- The self-pairing test of lines 602-604. -/
def isCascadeDaughter (ctx : CascCtx) (track : Track) : Prop :=
  track.globalIndex = ctx.v0TrackPr.globalIndex ∨
  track.globalIndex = ctx.v0TrackPi.globalIndex ∨
  track.globalIndex = ctx.trackedCascade.cascade.bachelor.globalIndex

instance (ctx : CascCtx) (track : Track) : Decidable (isCascadeDaughter ctx track) := by
  unfold isCascadeDaughter
  infer_instance

/-- The quality and PID selection of the pion/kaon track (lines 607-613). -/
def trackSelected (cfg : Config) (track : Track) : Prop :=
  track.itsNCls ≥ itsNClsMin ∧
  track.tpcNClsFound ≥ cfg.minNoClsTrackedPionOrKaon ∧
  track.tpcNClsCrossedRows ≥ cfg.minNoClsTrackedPionOrKaon ∧
  (track.tpcNClsCrossedRows : ℚ) ≥ tpcNclsFindableFraction * (track.tpcNClsFindable : ℚ) ∧
  track.tpcChi2NCl ≤ tpcChi2NclMax ∧
  track.itsChi2NCl ≤ itsChi2NclMax ∧
  (|track.tpcNSigmaPi| < cfg.maxNSigmaPion ∨ |track.tpcNSigmaKa| < cfg.maxNSigmaKaon)

instance (cfg : Config) (track : Track) : Decidable (trackSelected cfg track) := by
  unfold trackSelected
  infer_instance

/-- The final mass-window test (lines 716-718). -/
def inBaryonWindow (cfg : Config) (massOmegaK massOmegaPi massXiC : ℚ) : Prop :=
  |massOmegaK - MassOmegaC0| < cfg.massWindowOmegaC ∨
  |massOmegaPi - MassOmegaC0| < cfg.massWindowOmegaC ∨
  |massXiC - MassXiC0| < cfg.massWindowXiC

instance (cfg : Config) (a b c : ℚ) : Decidable (inBaryonWindow cfg a b c) := by
  unfold inBaryonWindow
  infer_instance

/-- The argument list of the call `outputTable(...)` (lines 721-773); `r` is
the fitter's state after the tracked fit and `origin` the member `origin`. -/
def mkRow (ext : Ext) (ctx : CascCtx) (track : Track) (r : FitResult)
    (impactParameterPion : DCA) (decayLengthUntracked decayLengthXYUntracked : ℚ)
    (trackMotherId : Int) (origin : Int) : Row :=
  let momenta0 := ext.getPxPyPzGlo r.trackParamAtPCA0
  let momenta1 := ext.getPxPyPzGlo r.trackParamAtPCA1
  let pCharmedBaryon := ext.getPxPyPzGlo r.parentTrackParCov
  let bachelor := ctx.trackedCascade.cascade.bachelor
  { massOmega := ctx.massOmega
    massXi := ctx.massXi
    massLambda := ctx.massV0
    nSigmaTpcPion := track.tpcNSigmaPi
    nSigmaTofPion := track.tofNSigmaPi
    nSigmaTpcKaon := track.tpcNSigmaKa
    nSigmaTofKaon := track.tofNSigmaKa
    nSigmaTpcV0Pr := ctx.v0TrackPr.tpcNSigmaPr
    nSigmaTofV0Pr := ctx.v0TrackPr.tofNSigmaPr
    nSigmaTpcV0Pi := ctx.v0TrackPi.tpcNSigmaPi
    nSigmaTofV0Pi := ctx.v0TrackPi.tofNSigmaPi
    nSigmaTpcBachPi := bachelor.tpcNSigmaPi
    nSigmaTofBachPi := bachelor.tofNSigmaPi
    nSigmaTpcBachKa := bachelor.tpcNSigmaKa
    nSigmaTofBachKa := bachelor.tofNSigmaKa
    pxCasc := momenta0.1
    pyCasc := momenta0.2.1
    pzCasc := momenta0.2.2
    isPositiveCasc := decide (ctx.trackedCascade.track.sign > 0)
    pxPionOrKaon := momenta1.1
    pyPionOrKaon := momenta1.2.1
    pzPionOrKaon := momenta1.2.2
    isPositivePionOrKaon := decide (track.sign > 0)
    itsClusterMapPionOrKaon := track.itsClusterMap
    cpaCharmedBaryon := ext.cpa ctx.primaryVertex r.pcaCandidate pCharmedBaryon
    cpaXYCharmedBaryon := ext.cpaXY ctx.primaryVertex r.pcaCandidate pCharmedBaryon
    cpaCasc := ctx.cpaCasc
    cpaXYCasc := ctx.cpaXYCasc
    dcaXYCasc := ctx.impactParameterCasc.y
    dcaXYUncCasc := ext.sqrt ctx.impactParameterCasc.sigmaY2
    dcaZCasc := ctx.impactParameterCasc.z
    dcaZUncCasc := ext.sqrt ctx.impactParameterCasc.sigmaZ2
    dcaXYPionOrKaon := impactParameterPion.y
    dcaXYUncPionOrKaon := ext.sqrt impactParameterPion.sigmaY2
    dcaZPionOrKaon := impactParameterPion.z
    dcaZUncPionOrKaon := ext.sqrt impactParameterPion.sigmaZ2
    dcaXYPr := ctx.impactParameterPr.y
    dcaZPr := ctx.impactParameterPr.z
    dcaXYKa := ctx.impactParameterKa.y
    dcaZKa := ctx.impactParameterKa.z
    dcaXYPi := ctx.impactParameterPi.y
    dcaZPi := ctx.impactParameterPi.z
    chi2TopologicalCharmedBaryon := r.chi2AtPCACandidate
    chi2TopologicalCasc := ctx.trackedCascade.topologyChi2
    decayLengthCharmedBaryon := ext.distance r.pcaCandidate ctx.primaryVertex
    decayLengthXYCharmedBaryon := ext.distanceXY r.pcaCandidate ctx.primaryVertex
    decayLengthCharmedBaryonUntracked := decayLengthUntracked
    decayLengthXYCharmedBaryonUntracked := decayLengthXYUntracked
    decayLengthCasc := ctx.decayLengthCasc
    decayLengthXYCasc := ctx.decayLengthCascXY
    motherCascId := ctx.trackCascMotherId
    motherPionOrKaonId := trackMotherId
    originMcRec := origin }

/-- The second half of the `try` block (lines 641-777), entered when the
untracked fit did not throw: the tracked fit, the truth match, the final
window and the row. A tracked fit that returns no candidate
leaves by `continue`, one that throws by the `catch` block; both skip the
`FitOk` entry of line 783. -/
def trackedFit (ext : Ext) (cfg : Config) (mcParticles : Option (List McParticle))
    (ctx : CascCtx) (st : TaskState) (track : Track) (trackMotherId : Int)
    (trackParCovPionOrKaon : TrackParCov) (impactParameterPion : DCA)
    (decayLengthUntracked decayLengthXYUntracked : ℚ) : TaskState × Out :=
  let trackParCovCasc := getTrackParCov ctx.trackedCascade.track
  match ext.process st.dfBz trackParCovCasc trackParCovPionOrKaon with
  | FitOutcome.ok r =>
    let momenta0 := ext.getPxPyPzGlo r.trackParamAtPCA0
    let momenta1 := ext.getPxPyPzGlo r.trackParamAtPCA1
    let massOmegaPi := ext.m momenta0 momenta1 MassOmegaMinus MassPiPlus
    let massOmegaK := ext.m momenta0 momenta1 MassOmegaMinus MassKPlus
    let massXiC := ext.m momenta0 momenta1 MassXiMinus MassPiPlus
    let st1 :=
      match mcParticles with
      | some mcp => mcRecMatch ext mcp ctx.trackedCascade.cascade track st
      | none => st
    if inBaryonWindow cfg massOmegaK massOmegaPi massXiC then
      (st1, ⟨[mkRow ext ctx track r impactParameterPion decayLengthUntracked
          decayLengthXYUntracked trackMotherId st1.origin],
        [(Site.CascPiOrK, SVFitting.FitOk)], []⟩)
    else
      (st1, Out.ofFills [(Site.CascPiOrK, SVFitting.FitOk)])
  | FitOutcome.noCandidate => (st, Out.nil)
  | FitOutcome.runtimeError => (st, Out.ofFills [(Site.CascPiOrK, SVFitting.Fail)])

/-- The body of the loop over the associated tracks (lines 601-784). -/
def processTrack (ext : Ext) (cfg : Config) (tracksExtMc : Bool)
    (mcParticles : Option (List McParticle)) (ctx : CascCtx)
    (st : TaskState) (trackId : TrackAssoc) : TaskState × Out :=
  let track := trackId.track
  if isCascadeDaughter ctx track then (st, Out.nil)
  else if trackSelected cfg track then
    let trackMotherId :=
      motherGenIndex tracksExtMc (mcParticles.getD []) st.mapMcPartToGenTable track
    let pp := propagate ext cfg st ctx.primaryVertex (getTrackParCov track)
    let trackParCovPionOrKaon := pp.1
    let impactParameterPion := pp.2
    let r :=
      match ext.process st.dfBz ctx.trackParCovCascUntracked trackParCovPionOrKaon with
      | FitOutcome.ok ru =>
        trackedFit ext cfg mcParticles ctx st track trackMotherId trackParCovPionOrKaon
          impactParameterPion (ext.distance ru.pcaCandidate ctx.primaryVertex)
          (ext.distanceXY ru.pcaCandidate ctx.primaryVertex)
      | FitOutcome.noCandidate =>
        trackedFit ext cfg mcParticles ctx st track trackMotherId trackParCovPionOrKaon
          impactParameterPion (-1) (-1)
      | FitOutcome.runtimeError => (st, Out.ofFills [(Site.CascPiOrK, SVFitting.Fail)])
    (r.1, (Out.ofFills [(Site.CascPiOrK, SVFitting.BeforeFit)]).append r.2)
  else (st, Out.nil)

/-! ## fillTable: one tracked cascade -/

/-- The cascade mass-window test (lines 573-574). -/
def inCascadeWindow (cfg : Config) (massOmega massXi : ℚ) : Prop :=
  |massOmega - MassOmegaMinus| < cfg.massWindowTrackedOmega ∨
  |massXi - MassXiMinus| < cfg.massWindowTrackedXi

instance (cfg : Config) (a b : ℚ) : Decidable (inCascadeWindow cfg a b) := by
  unfold inCascadeWindow
  infer_instance

/-- The PID test of the cascade daughters (lines 575-577). -/
def cascadePidOk (cfg : Config) (bachelor v0TrackPr v0TrackPi : Track) : Prop :=
  (|bachelor.tpcNSigmaKa| < cfg.maxNSigmaBachelor ∨ |bachelor.tpcNSigmaPi| < cfg.maxNSigmaBachelor) ∧
  |v0TrackPr.tpcNSigmaPr| < cfg.maxNSigmaV0Pr ∧
  |v0TrackPi.tpcNSigmaPi| < cfg.maxNSigmaV0Pi

instance (cfg : Config) (a b c : Track) : Decidable (cascadePidOk cfg a b c) := by
  unfold cascadePidOk
  infer_instance

/-- The cluster test of the cascade daughters (lines 501-504): true when the
cascade is skipped. -/
def lacksClusters (cfg : Config) (v0TrackPos v0TrackNeg bachelor : Track) : Prop :=
  v0TrackPos.hasTPC = false ∨ v0TrackNeg.hasTPC = false ∨ bachelor.hasTPC = false ∨
  v0TrackPos.tpcNClsFindable < cfg.minNoClsTrackedCascade ∨
  v0TrackNeg.tpcNClsFindable < cfg.minNoClsTrackedCascade ∨
  bachelor.tpcNClsFindable < cfg.minNoClsTrackedCascade

instance (cfg : Config) (a b c : Track) : Decidable (lacksClusters cfg a b c) := by
  unfold lacksClusters
  infer_instance

/-- The proton-hypothesis daughter of the V0 (line 508). -/
def v0TrackPrOf (tc : TrackedCascade) : Track :=
  if tc.track.sign < 0 then tc.cascade.v0.posTrack else tc.cascade.v0.negTrack

/-- The pion-hypothesis daughter of the V0 (line 509). -/
def v0TrackPiOf (tc : TrackedCascade) : Track :=
  if tc.track.sign < 0 then tc.cascade.v0.negTrack else tc.cascade.v0.posTrack

/-- The values handed to the loop over the tracks once both cascade-level fits
succeeded (lines 524-598); `r1` and `r2` are the fitter's states after the
proton-pion and the V0-bachelor fit. -/
def mkCascCtx (ext : Ext) (cfg : Config) (st : TaskState) (primaryVertex : Vec3)
    (tc : TrackedCascade) (trackCascMotherId : Int) (impactParameterCasc : DCA)
    (r1 r2 : FitResult) : CascCtx :=
  let momentaCasc0 := ext.getPxPyPzGlo r2.trackParamAtPCA0
  let momentaCasc1 := ext.getPxPyPzGlo r2.trackParamAtPCA1
  let pCasc := ext.getPxPyPzGlo r2.parentTrackParCov
  { trackedCascade := tc
    v0TrackPr := v0TrackPrOf tc
    v0TrackPi := v0TrackPiOf tc
    primaryVertex := primaryVertex
    massOmega := ext.m momentaCasc0 momentaCasc1 MassLambda0 MassKPlus
    massXi := ext.m momentaCasc0 momentaCasc1 MassLambda0 MassPiPlus
    massV0 := ext.m (ext.getPxPyPzGlo r1.trackParamAtPCA0) (ext.getPxPyPzGlo r1.trackParamAtPCA1)
      MassProton MassPiMinus
    trackParCovCascUntracked := r2.parentTrackParCov
    cpaCasc := ext.cpa primaryVertex r2.pcaCandidate pCasc
    cpaXYCasc := ext.cpaXY primaryVertex r2.pcaCandidate pCasc
    decayLengthCasc := ext.distance r2.pcaCandidate primaryVertex
    decayLengthCascXY := ext.distanceXY r2.pcaCandidate primaryVertex
    impactParameterCasc := impactParameterCasc
    impactParameterPr := (propagate ext cfg st primaryVertex (getTrackParCov (v0TrackPrOf tc))).2
    impactParameterKa := (propagate ext cfg st primaryVertex (getTrackParCov (v0TrackPiOf tc))).2
    impactParameterPi := (propagate ext cfg st primaryVertex (getTrackParCov tc.cascade.bachelor)).2
    trackCascMotherId := trackCascMotherId }

/-- Lines 545-787: after the V0-bachelor fit succeeded, the cascade window,
the PID test and the loop over the associated tracks. -/
def pairWithTracks (ext : Ext) (cfg : Config) (tracksExtMc : Bool)
    (mcParticles : Option (List McParticle)) (groupedTrackIds : List TrackAssoc)
    (st : TaskState) (ctx : CascCtx) : TaskState × Out :=
  if inCascadeWindow cfg ctx.massOmega ctx.massXi then
    if cascadePidOk cfg ctx.trackedCascade.cascade.bachelor ctx.v0TrackPr ctx.v0TrackPi then
      forEach (processTrack ext cfg tracksExtMc mcParticles ctx) st groupedTrackIds
    else (st, Out.nil)
  else (st, Out.nil)

/-- Lines 524-787: after the proton-pion fit succeeded (`r1`), the
V0-bachelor fit and what follows it. -/
def cascadeFit (ext : Ext) (cfg : Config) (tracksExtMc : Bool)
    (mcParticles : Option (List McParticle)) (primaryVertex : Vec3)
    (groupedTrackIds : List TrackAssoc) (st : TaskState) (tc : TrackedCascade)
    (trackCascMotherId : Int) (impactParameterCasc : DCA) (r1 : FitResult) : TaskState × Out :=
  let trackParCovV0 := r1.parentTrackParCov
  match ext.process st.dfBz trackParCovV0 (getTrackParCov tc.cascade.bachelor) with
  | FitOutcome.ok r2 =>
    let r := pairWithTracks ext cfg tracksExtMc mcParticles groupedTrackIds st
      (mkCascCtx ext cfg st primaryVertex tc trackCascMotherId impactParameterCasc r1 r2)
    (r.1, (Out.ofFills [(Site.V0Pi, SVFitting.BeforeFit), (Site.V0Pi, SVFitting.FitOk)]).append r.2)
  | FitOutcome.noCandidate => (st, Out.ofFills [(Site.V0Pi, SVFitting.BeforeFit)])
  | FitOutcome.runtimeError =>
    (st, Out.ofFills [(Site.V0Pi, SVFitting.BeforeFit), (Site.V0Pi, SVFitting.Fail)])

/-- The body of the loop over the tracked cascades of a collision (lines 479-787). -/
def processCascade (ext : Ext) (cfg : Config) (tracksExtMc : Bool)
    (mcParticles : Option (List McParticle)) (primaryVertex : Vec3)
    (groupedTrackIds : List TrackAssoc) (st : TaskState) (tc : TrackedCascade) :
    TaskState × Out :=
  let trackCasc := tc.track
  let trackCascMotherId :=
    motherGenIndex tracksExtMc (mcParticles.getD []) st.mapMcPartToGenTable trackCasc
  let impactParameterCasc := (propagate ext cfg st primaryVertex (getTrackParCov trackCasc)).2
  if lacksClusters cfg tc.cascade.v0.posTrack tc.cascade.v0.negTrack tc.cascade.bachelor then
    (st, Out.nil)
  else
    match ext.process st.dfBz (getTrackParCov (v0TrackPrOf tc)) (getTrackParCov (v0TrackPiOf tc)) with
    | FitOutcome.ok r1 =>
      let r := cascadeFit ext cfg tracksExtMc mcParticles primaryVertex groupedTrackIds st tc
        trackCascMotherId impactParameterCasc r1
      (r.1, (Out.ofFills [(Site.PrPi, SVFitting.BeforeFit), (Site.PrPi, SVFitting.FitOk)]).append r.2)
    | FitOutcome.noCandidate => (st, Out.ofFills [(Site.PrPi, SVFitting.BeforeFit)])
    | FitOutcome.runtimeError =>
      (st, Out.ofFills [(Site.PrPi, SVFitting.BeforeFit), (Site.PrPi, SVFitting.Fail)])

/-! ## fillTable and the process functions built on it -/

/-- The result of a process function: the members, what was appended, and
whether the process was ended by `LOG(fatal)`. -/
structure Run where
  st : TaskState
  out : Out
  fatal : Bool
deriving DecidableEq

/-- The slice `trackIndices.sliceBy(trackIndicesPerCollision, collId)`. -/
def groupedTrackIdsOf (trackIndices : List TrackAssoc) (collId : Int) : List TrackAssoc :=
  trackIndices.filter (fun t => t.collisionId = collId)

/-- The slice `trackedCascades.sliceBy(assignedTrackedCascadesPerCollision, collId)`. -/
def groupedTrackedCascadesOf (trackedCascades : List TrackedCascade) (collId : Int) :
    List TrackedCascade :=
  trackedCascades.filter (fun c => c.collisionId = collId)

/-- The body of the loop over the collisions (lines 443-788). -/
def processCollision (ext : Ext) (cfg : Config) (tracksExtMc : Bool)
    (mcParticles : Option (List McParticle)) (trackedCascades : List TrackedCascade)
    (trackIndices : List TrackAssoc) (st : TaskState) (collision : Collision) : Run :=
  let u := updateRun ext cfg st collision.bc
  if u.2.2 then ⟨u.1, ⟨[], [], u.2.1⟩, true⟩
  else
    let r := forEach
      (processCascade ext cfg tracksExtMc mcParticles (getPrimaryVertex collision)
        (groupedTrackIdsOf trackIndices collision.globalIndex))
      u.1 (groupedTrackedCascadesOf trackedCascades collision.globalIndex)
    ⟨r.1, (Out.mk [] [] u.2.1).append r.2, false⟩

/-- The function `fillTable` (lines 434-790): `tracksExtMc` says whether
`TracksType` is `TracksExtMc`; the loop over the collisions stops at a fatal
error. -/
def fillTable (ext : Ext) (cfg : Config) (tracksExtMc : Bool)
    (mcParticles : Option (List McParticle)) (trackedCascades : List TrackedCascade)
    (trackIndices : List TrackAssoc) : TaskState → List Collision → Run
  | st, [] => ⟨st, Out.nil, false⟩
  | st, c :: cs =>
    let r := processCollision ext cfg tracksExtMc mcParticles trackedCascades trackIndices st c
    if r.fatal then r
    else
      let r2 := fillTable ext cfg tracksExtMc mcParticles trackedCascades trackIndices r.st cs
      ⟨r2.st, r.out.append r2.out, r2.fatal⟩

/-- The declared `collisionFilter`. -/
def collisionFilter (cfg : Config) (c : Collision) : Bool :=
  !cfg.useSel8Trigger || c.sel8

/-- The function `processData`. -/
def processData (ext : Ext) (cfg : Config) (st : TaskState) (collisions : List Collision)
    (trackedCascades : List TrackedCascade) (trackIndices : List TrackAssoc) : Run :=
  fillTable ext cfg false none trackedCascades trackIndices st
    (collisions.filter (collisionFilter cfg))

/-- The function `processMcRec`. -/
def processMcRec (ext : Ext) (cfg : Config) (st : TaskState) (collisions : List Collision)
    (trackedCascades : List TrackedCascade) (trackIndices : List TrackAssoc)
    (mcParticles : List McParticle) : Run :=
  fillTable ext cfg true (some mcParticles) trackedCascades trackIndices st
    (collisions.filter (collisionFilter cfg))

/-! ## processMcGen -/

/-- The run-number block of `processMcGen` (lines 829-840): it stores the run
number and initialises the propagator's field, and writes neither `bz` nor
the fitter's field. -/
def updateRunMcGen (ext : Ext) (st : TaskState) (bc : BC) :
    TaskState × List CcdbQuery × Bool :=
  if st.runNumber ≠ bc.runNumber then
    let st1 := { st with runNumber := bc.runNumber }
    match ext.getGRPObject bc.timestamp with
    | some grpo =>
      ({ st1 with field := FieldInit.fromGRPObject grpo },
        [CcdbQuery.grpObject bc.timestamp], false)
    | none =>
      match ext.getGRPMagField bc.timestamp with
      | some grpmag =>
        ({ st1 with field := FieldInit.fromGRPMagField grpmag },
          [CcdbQuery.grpObject bc.timestamp, CcdbQuery.grpMagField bc.timestamp], false)
      | none =>
        (st1, [CcdbQuery.grpObject bc.timestamp, CcdbQuery.grpMagField bc.timestamp], true)
  else (st, [], false)

/-- The first mother of a generated particle, `mothersIds()[0]`, when it has one. -/
def firstMotherId (p : McParticle) : Option Int := p.mothersIds.head?

/-- The generated Omega of a tracked cascade as `processMcGen` finds it
(lines 860-879): the common first mother of the V0 daughters' common first
mother and of the bachelor, when its PDG code is that of an Omega. -/
def genOmegaOf (table : List McParticle) (tc : TrackedCascade) : Option McParticle :=
  match mcAt table tc.cascade.v0.posTrack.mcParticleId,
    mcAt table tc.cascade.v0.negTrack.mcParticleId,
    mcAt table tc.cascade.bachelor.mcParticleId with
  | some pPos, some pNeg, some pBach =>
    match firstMotherId pPos, firstMotherId pNeg with
    | some mPos, some mNeg =>
      if mPos = mNeg then
        match mcAt table mPos with
        | some v0part =>
          match firstMotherId v0part, firstMotherId pBach with
          | some mV0, some mBach =>
            if mV0 = mBach then
              match mcAt table mV0 with
              | some mother => if |mother.pdgCode| = kOmegaMinus then some mother else none
              | none => none
            else none
          | _, _ => none
        | none => none
      else none
    | _, _ => none
  | _, _, _ => none

/-- The body of the loop over the tracks in `processMcGen` (lines 888-940). -/
def processTrackMcGen (ext : Ext) (cfg : Config) (table : List McParticle)
    (primaryVertex : Vec3) (trackParCovCasc : TrackParCov) (pdgCode : Int)
    (st : TaskState) (track : Track) : TaskState × Out :=
  match mcAt table track.mcParticleId with
  | none => (st, Out.nil)
  | some mcpart =>
    if mcpart.pdgCode = (if pdgCode > 0 then kPiPlus else -kPiPlus) then
      let trackParCovPion := (propagate ext cfg st primaryVertex (getTrackParCov track)).1
      match ext.process st.dfBz trackParCovCasc trackParCovPion with
      | FitOutcome.ok _ =>
        (st, Out.ofFills [(Site.CascPiOrK, SVFitting.BeforeFit), (Site.CascPiOrK, SVFitting.FitOk)])
      | FitOutcome.noCandidate => (st, Out.ofFills [(Site.CascPiOrK, SVFitting.BeforeFit)])
      | FitOutcome.runtimeError =>
        (st, Out.ofFills [(Site.CascPiOrK, SVFitting.BeforeFit), (Site.CascPiOrK, SVFitting.Fail)])
    else (st, Out.nil)

/-- The body of the loop over the tracked cascades in `processMcGen`
(lines 846-945). -/
def processCascadeMcGen (ext : Ext) (cfg : Config) (table : List McParticle)
    (primaryVertex : Vec3) (tracks : List Track) (st : TaskState) (tc : TrackedCascade) :
    TaskState × Out :=
  let trackParCovCasc := (propagate ext cfg st primaryVertex (getTrackParCov tc.track)).1
  match genOmegaOf table tc with
  | some mother =>
    forEach (processTrackMcGen ext cfg table primaryVertex trackParCovCasc mother.pdgCode) st tracks
  | none => (st, Out.nil)

/-- The function `processMcGen` (lines 819-946) for one collision with the
tracked cascades and the tracks grouped to it. -/
def processMcGen (ext : Ext) (cfg : Config) (table : List McParticle) (st : TaskState)
    (collision : Collision) (trackedCascades : List TrackedCascade) (tracks : List Track) : Run :=
  let u := updateRunMcGen ext st collision.bc
  if u.2.2 then ⟨u.1, ⟨[], [], u.2.1⟩, true⟩
  else
    let r := forEach (processCascadeMcGen ext cfg table (getPrimaryVertex collision) tracks)
      u.1 trackedCascades
    ⟨r.1, (Out.mk [] [] u.2.1).append r.2, false⟩

/-! ## processMc -/

/-- One row of the output table `HfStChBarGens`, in the declared column order. -/
structure GenRow where
  pxCharmedBaryon : ℚ
  pyCharmedBaryon : ℚ
  pzCharmedBaryon : ℚ
  pdgCodeCharmedBaryon : Int
  pxCasc : ℚ
  pyCasc : ℚ
  pzCasc : ℚ
  pdgCodeCasc : Int
  decayLengthCharmedBaryon : ℚ
  decayLengthXYCharmedBaryon : ℚ
  decayLengthCasc : ℚ
  decayLengthXYCasc : ℚ
  originMcGen : Int
  decayChannel : Int
deriving DecidableEq

/-- What `processMc` appended: rows of `HfStChBarGens` and entries of the
histogram `hDecayLengthScaledMc`. An entry is `none` when the value filled
reads the first mother of a particle that has none. -/
structure GenOut where
  rows : List GenRow
  hDecayLengthScaledMc : List (Option ℚ)
deriving DecidableEq

/-- The indices found by the loop over the two daughters (lines 369-383). -/
structure DaughterIdx where
  idxPionDaughter : Int
  idxCascDaughter : Int
  idxKaonDaughter : Int
deriving DecidableEq

/-- The body of the loop over the daughters (lines 374-382). -/
def scanDaughter (isOmegaC : Bool) (acc : DaughterIdx) (daughter : McParticle) : DaughterIdx :=
  let a1 :=
    if acc.idxCascDaughter < 0 ∧ |daughter.pdgCode| = (if isOmegaC then kOmegaMinus else kXiMinus)
    then { acc with idxCascDaughter := daughter.globalIndex } else acc
  let a2 :=
    if a1.idxPionDaughter < 0 ∧ |daughter.pdgCode| = kPiPlus
    then { a1 with idxPionDaughter := daughter.globalIndex } else a1
  if a2.idxKaonDaughter < 0 ∧ |daughter.pdgCode| = kKPlus
  then { a2 with idxKaonDaughter := daughter.globalIndex } else a2

/-- The decay channel chosen from the indices found (lines 384-390). -/
def decayChannelOf (d : DaughterIdx) : Int :=
  if d.idxPionDaughter ≥ 0 ∧ d.idxCascDaughter ≥ 0 then OmegaczeroToOmegaPi
  else if d.idxKaonDaughter ≥ 0 ∧ d.idxCascDaughter ≥ 0 then OmegaczeroToOmegaK
  else -1

/-- The call `daughters_as<aod::McParticles>()`: the particles the daughter
indices point to (an index outside the table points to nothing). -/
def daughtersOf (table : List McParticle) (p : McParticle) : List McParticle :=
  p.daughtersIds.filterMap (mcAt table)

/-- The record written for a recognised decay (lines 396-425): the row and
the entry of `hDecayLengthScaledMc`. -/
def genRecord (ext : Ext) (table : List McParticle) (mcParticle cascDaughter : McParticle)
    (origin decayChannel : Int) : GenRow × Option ℚ :=
  let primaryVertexPosGen := mcParticle.mcCollisionPos
  let secondaryVertexGen : Vec3 := (cascDaughter.vx, cascDaughter.vy, cascDaughter.vz)
  let casc : ℚ × ℚ :=
    match daughtersOf table cascDaughter with
    | cascDecayDaughter :: _ =>
      let tertiaryVertexGen : Vec3 :=
        (cascDecayDaughter.vx, cascDecayDaughter.vy, cascDecayDaughter.vz)
      (ext.distance tertiaryVertexGen primaryVertexPosGen,
        ext.distanceXY tertiaryVertexGen primaryVertexPosGen)
    | [] => (-1, -1)
  let decayLengthGen := ext.distance secondaryVertexGen primaryVertexPosGen
  let decayLengthXYGen := ext.distanceXY secondaryVertexGen primaryVertexPosGen
  let firstMother := (mcParticle.mothersIds.head?).bind (mcAt table)
  ({ pxCharmedBaryon := mcParticle.px
     pyCharmedBaryon := mcParticle.py
     pzCharmedBaryon := mcParticle.pz
     pdgCodeCharmedBaryon := mcParticle.pdgCode
     pxCasc := cascDaughter.px
     pyCasc := cascDaughter.py
     pzCasc := cascDaughter.pz
     pdgCodeCasc := cascDaughter.pdgCode
     decayLengthCharmedBaryon := decayLengthGen
     decayLengthXYCharmedBaryon := decayLengthXYGen
     decayLengthCasc := casc.1
     decayLengthXYCasc := casc.2
     originMcGen := origin
     decayChannel := decayChannel },
    firstMother.map (fun mo => decayLengthGen * MassOmegaC0 / mo.p * 10000))

/-- The body of the loop over the generated particles (lines 364-429);
`nRows` is the number of rows `outputTableGen` holds so far, so that
`lastIndex()` after one more row is `nRows`. -/
def processMcParticle (ext : Ext) (table : List McParticle) (st : TaskState) (nRows : Nat)
    (mcParticle : McParticle) : TaskState × GenOut :=
  let isOmegaC : Bool := decide (|mcParticle.pdgCode| = kOmegaC0)
  let isXiC : Bool := decide (|mcParticle.pdgCode| = kXiC0)
  if isOmegaC ∨ isXiC then
    if mcParticle.daughtersIds.length = 2 then
      let d := (daughtersOf table mcParticle).foldl (scanDaughter isOmegaC) ⟨-1, -1, -1⟩
      let st1 := { st with decayChannel := decayChannelOf d }
      if st1.decayChannel ≠ -1 then
        let idxDaughter :=
          if st1.decayChannel = OmegaczeroToOmegaPi then d.idxPionDaughter else d.idxKaonDaughter
        let st2 := { st1 with origin := ext.getCharmHadronOrigin table idxDaughter }
        match mcAt table d.idxCascDaughter with
        | some cascDaughter =>
          let written := genRecord ext table mcParticle cascDaughter st2.origin st2.decayChannel
          ({ st2 with mapMcPartToGenTable :=
                (mcParticle.globalIndex, (nRows : Int)) ::
                  st2.mapMcPartToGenTable.filter (fun e => e.1 ≠ mcParticle.globalIndex) },
            ⟨[written.1], [written.2]⟩)
        | none => (st2, ⟨[], []⟩)
      else (st1, ⟨[], []⟩)
    else (st, ⟨[], []⟩)
  else (st, ⟨[], []⟩)

/-- The loop over the generated particles of `processMc`. -/
def processMcLoop (ext : Ext) (table : List McParticle) :
    TaskState → Nat → List McParticle → TaskState × GenOut
  | st, _, [] => (st, ⟨[], []⟩)
  | st, nRows, p :: ps =>
    let r := processMcParticle ext table st nRows p
    let r2 := processMcLoop ext table r.1 (nRows + r.2.rows.length) ps
    (r2.1, ⟨r.2.rows ++ r2.2.rows, r.2.hDecayLengthScaledMc ++ r2.2.hDecayLengthScaledMc⟩)

/-- The function `processMc` (lines 359-431). -/
def processMc (ext : Ext) (st : TaskState) (mcParticles : List McParticle) :
    TaskState × GenOut :=
  processMcLoop ext mcParticles { st with mapMcPartToGenTable := [] } 0 mcParticles

/-! ## Names for the two baryon-layer fits of a combination -/

/-- The outcome of the untracked fit of a combination,
`df2.process(trackParCovCascUntracked, trackParCovPionOrKaon)` (line 636). -/
def untrackedOutcome (ext : Ext) (cfg : Config) (ctx : CascCtx) (st : TaskState)
    (trackId : TrackAssoc) : FitOutcome :=
  ext.process st.dfBz ctx.trackParCovCascUntracked
    (propagate ext cfg st ctx.primaryVertex (getTrackParCov trackId.track)).1

/-- The outcome of the tracked fit of a combination,
`df2.process(trackParCovCasc, trackParCovPionOrKaon)` (line 641). -/
def trackedOutcome (ext : Ext) (cfg : Config) (ctx : CascCtx) (st : TaskState)
    (trackId : TrackAssoc) : FitOutcome :=
  ext.process st.dfBz (getTrackParCov ctx.trackedCascade.track)
    (propagate ext cfg st ctx.primaryVertex (getTrackParCov trackId.track)).1

/-- The final window test on the three masses computed from the fitter state
`r` left by the tracked fit (lines 651-655 and 716-718). -/
def fitInWindow (ext : Ext) (cfg : Config) (r : FitResult) : Prop :=
  inBaryonWindow cfg
    (ext.m (ext.getPxPyPzGlo r.trackParamAtPCA0) (ext.getPxPyPzGlo r.trackParamAtPCA1)
      MassOmegaMinus MassKPlus)
    (ext.m (ext.getPxPyPzGlo r.trackParamAtPCA0) (ext.getPxPyPzGlo r.trackParamAtPCA1)
      MassOmegaMinus MassPiPlus)
    (ext.m (ext.getPxPyPzGlo r.trackParamAtPCA0) (ext.getPxPyPzGlo r.trackParamAtPCA1)
      MassXiMinus MassPiPlus)

instance (ext : Ext) (cfg : Config) (r : FitResult) : Decidable (fitInWindow ext cfg r) := by
  unfold fitInWindow
  infer_instance

/-- The two untracked decay lengths a row carries, given the outcome of the
untracked fit (lines 634-640). -/
def untrackedLengths (ext : Ext) (ctx : CascCtx) : FitOutcome → ℚ × ℚ
  | FitOutcome.ok ru =>
    (ext.distance ru.pcaCandidate ctx.primaryVertex, ext.distanceXY ru.pcaCandidate ctx.primaryVertex)
  | _ => (-1, -1)

/-- The members after the truth-match block of a combination (lines 662-714),
which is skipped when no generated particles are given. -/
def afterMatch (ext : Ext) (mcParticles : Option (List McParticle)) (ctx : CascCtx)
    (track : Track) (st : TaskState) : TaskState :=
  match mcParticles with
  | some mcp => mcRecMatch ext mcp ctx.trackedCascade.cascade track st
  | none => st

/-- The row a combination emits when it emits one: `r` is the fitter state
left by the tracked fit. -/
def rowOf (ext : Ext) (cfg : Config) (tracksExtMc : Bool)
    (mcParticles : Option (List McParticle)) (ctx : CascCtx) (st : TaskState)
    (trackId : TrackAssoc) (r : FitResult) : Row :=
  mkRow ext ctx trackId.track r
    (propagate ext cfg st ctx.primaryVertex (getTrackParCov trackId.track)).2
    (untrackedLengths ext ctx (untrackedOutcome ext cfg ctx st trackId)).1
    (untrackedLengths ext ctx (untrackedOutcome ext cfg ctx st trackId)).2
    (motherGenIndex tracksExtMc (mcParticles.getD []) st.mapMcPartToGenTable trackId.track)
    (afterMatch ext mcParticles ctx trackId.track st).origin

/-! ## Names for the two cascade-level fits of a tracked cascade -/

/-- The outcome of the proton-pion fit of a tracked cascade (line 514). -/
def prPiOutcome (ext : Ext) (st : TaskState) (tc : TrackedCascade) : FitOutcome :=
  ext.process st.dfBz (getTrackParCov (v0TrackPrOf tc)) (getTrackParCov (v0TrackPiOf tc))

/-- The outcome of the V0-bachelor fit of a tracked cascade (line 535), `r1`
being the state left by the proton-pion fit. -/
def v0PiOutcome (ext : Ext) (st : TaskState) (tc : TrackedCascade) (r1 : FitResult) :
    FitOutcome :=
  ext.process st.dfBz r1.parentTrackParCov (getTrackParCov tc.cascade.bachelor)

/-- The values handed to the loop over the tracks by `processCascade`. -/
def cascCtxOf (ext : Ext) (cfg : Config) (tracksExtMc : Bool)
    (mcParticles : Option (List McParticle)) (primaryVertex : Vec3) (st : TaskState)
    (tc : TrackedCascade) (r1 r2 : FitResult) : CascCtx :=
  mkCascCtx ext cfg st primaryVertex tc
    (motherGenIndex tracksExtMc (mcParticles.getD []) st.mapMcPartToGenTable tc.track)
    (propagate ext cfg st primaryVertex (getTrackParCov tc.track)).2 r1 r2

/-- The members that the loops of `fillTable` over cascades and tracks only
read: run number, the two field values, the propagator's field and the map to
the generated table. -/
def TaskState.env (st : TaskState) : Int × ℚ × ℚ × FieldInit × List (Int × Int) :=
  (st.runNumber, st.bz, st.dfBz, st.field, st.mapMcPartToGenTable)

/-! ## Counting environment lookups -/

/-- The number of times the lookup block (lines 453-463) was entered, read
off the CCDB requests: every entry starts with one `GRPObject` request. -/
def lookupCount (qs : List CcdbQuery) : Nat :=
  qs.countP (fun q => match q with
    | CcdbQuery.grpObject _ => true
    | _ => false)

/-- The number of run-number changes along a sequence of run numbers, starting
from the stored run number `prev`. -/
def runChanges : Int → List Int → Nat
  | _, [] => 0
  | prev, r :: rs => (if prev ≠ r then 1 else 0) + runChanges r rs

/-! ## Accounting of the candidate counters -/

/-- The accounting that a list of counter entries satisfies: at every site the
`Fail` and `FitOk` entries together never exceed the `BeforeFit` entries; they
add up to them when `noFalse` holds (no fit returns zero candidates); and there
is no `Fail` entry when `noThrow` holds (no fit throws). -/
def Balanced (noFalse noThrow : Prop) (fs : List (Site × SVFitting)) : Prop :=
  (∀ s, fs.count (s, SVFitting.Fail) + fs.count (s, SVFitting.FitOk)
      ≤ fs.count (s, SVFitting.BeforeFit)) ∧
  (noFalse → ∀ s, fs.count (s, SVFitting.BeforeFit)
      = fs.count (s, SVFitting.Fail) + fs.count (s, SVFitting.FitOk)) ∧
  (noThrow → ∀ s, fs.count (s, SVFitting.Fail) = 0)

/-! ## Names for what processMc does with one generated particle -/

/-- The table property that `globalIndex` is the row number. -/
def WellFormedTable (table : List McParticle) : Prop :=
  table.map (fun p => p.globalIndex) = (List.range table.length).map Int.ofNat

instance (table : List McParticle) : Decidable (WellFormedTable table) := by
  unfold WellFormedTable
  infer_instance

/-- The indices left by the loop over the daughters of a generated particle
(lines 369-383). -/
def scanOf (table : List McParticle) (p : McParticle) : DaughterIdx :=
  (daughtersOf table p).foldl (scanDaughter (decide (|p.pdgCode| = kOmegaC0))) ⟨-1, -1, -1⟩

/-- The row that `processMc` writes for a generated particle, if it writes one. -/
def recordOf (ext : Ext) (table : List McParticle) (p : McParticle) : Option GenRow :=
  if (|p.pdgCode| = kOmegaC0 ∨ |p.pdgCode| = kXiC0) ∧ p.daughtersIds.length = 2 ∧
      decayChannelOf (scanOf table p) ≠ -1 then
    match mcAt table (scanOf table p).idxCascDaughter with
    | some cascDaughter =>
      some (genRecord ext table p cascDaughter
        (ext.getCharmHadronOrigin table
          (if decayChannelOf (scanOf table p) = OmegaczeroToOmegaPi
            then (scanOf table p).idxPionDaughter else (scanOf table p).idxKaonDaughter))
        (decayChannelOf (scanOf table p))).1
    | none => none
  else none

/-- The decay topology of the claim: an Omega_c0 or Xi_c0 with exactly two
direct daughters, one of them the expected cascade (Omega- for an Omega_c0,
Xi- for a Xi_c0) and one of them a charged pion or a charged kaon. -/
def IsCascadePiOrKDecay (table : List McParticle) (p : McParticle) : Prop :=
  (|p.pdgCode| = kOmegaC0 ∨ |p.pdgCode| = kXiC0) ∧
  p.daughtersIds.length = 2 ∧
  (∃ c ∈ daughtersOf table p,
    |c.pdgCode| = (if |p.pdgCode| = kOmegaC0 then kOmegaMinus else kXiMinus)) ∧
  (∃ b ∈ daughtersOf table p, |b.pdgCode| = kPiPlus ∨ |b.pdgCode| = kKPlus)

instance (table : List McParticle) (p : McParticle) :
    Decidable (IsCascadePiOrKDecay table p) := by
  unfold IsCascadePiOrKDecay
  infer_instance

/-- The index that one of the three searches of the daughter loop holds after a
list of daughters: the global index of the first daughter satisfying `P`
met while the index is still negative. -/
def firstIdx (P : McParticle → Prop) [DecidablePred P] : Int → List McParticle → Int
  | a, [] => a
  | a, d :: ds => firstIdx P (if a < 0 ∧ P d then d.globalIndex else a) ds

/-- The entries `processMc` adds to `mapMcPartToGenTable` for a list of
recorded particles whose first record is at position `n`, oldest first. -/
def mapEntries (n : Nat) (recorded : List McParticle) : List (Int × Int) :=
  (List.enumFrom n recorded).map (fun e => (e.2.globalIndex, (e.1 : Int)))

/-! ## Comparing a run with and a run without generated particles -/

/-- A row with its three truth columns `motherCasc`, `motherPionOrKaon` and
`originMcRec` blanked. -/
def Row.withoutTruth (r : Row) : Row :=
  { r with motherCascId := 0, motherPionOrKaonId := 0, originMcRec := 0 }

/-- Two pieces appended the same counter entries and CCDB requests, and rows
that agree, in order, in every column but the three truth columns. -/
def Out.sameReco (a b : Out) : Prop :=
  a.rows.map Row.withoutTruth = b.rows.map Row.withoutTruth ∧ a.fills = b.fills ∧
    a.queries = b.queries

/-! ## The two output tables as lists of columns -/

/-- The C++ type of a column. -/
inductive ColType where
  | float
  | bool
  | uint8
  | int
deriving DecidableEq

/-- The value of one column of a row. -/
inductive Cell where
  | float (q : ℚ)
  | bool (b : Bool)
  | uint8 (n : Nat)
  | int (i : Int)
deriving DecidableEq

/-- The column type a value belongs to. -/
def Cell.type : Cell → ColType
  | Cell.float _ => ColType.float
  | Cell.bool _ => ColType.bool
  | Cell.uint8 _ => ColType.uint8
  | Cell.int _ => ColType.int

/-- The columns of `HfStChBars` as `DECLARE_SOA_TABLE` lists them (lines
170-223), each with the type of its `DECLARE_SOA_COLUMN` (lines 115-167). -/
def hfStChBarsColumns : List (String × ColType) :=
  [
    ("MassOmega", ColType.float), ("MassXi", ColType.float), ("MassLambda", ColType.float),
    ("NSigmaTpcPion", ColType.float), ("NSigmaTofPion", ColType.float),
    ("NSigmaTpcKaon", ColType.float), ("NSigmaTofKaon", ColType.float),
    ("NSigmaTpcV0Pr", ColType.float), ("NSigmaTofV0Pr", ColType.float),
    ("NSigmaTpcV0Pi", ColType.float), ("NSigmaTofV0Pi", ColType.float),
    ("NSigmaTpcBachPi", ColType.float), ("NSigmaTofBachPi", ColType.float),
    ("NSigmaTpcBachKa", ColType.float), ("NSigmaTofBachKa", ColType.float),
    ("PxCasc", ColType.float), ("PyCasc", ColType.float), ("PzCasc", ColType.float),
    ("IsPositiveCasc", ColType.bool), ("PxPionOrKaon", ColType.float),
    ("PyPionOrKaon", ColType.float), ("PzPionOrKaon", ColType.float),
    ("IsPositivePionOrKaon", ColType.bool), ("ItsClusterMapPionOrKaon", ColType.uint8),
    ("CpaCharmedBaryon", ColType.float), ("CpaXYCharmedBaryon", ColType.float),
    ("CpaCasc", ColType.float), ("CpaXYCasc", ColType.float), ("DcaXYCasc", ColType.float),
    ("DcaXYUncCasc", ColType.float), ("DcaZCasc", ColType.float), ("DcaZUncCasc", ColType.float),
    ("DcaXYPionOrKaon", ColType.float), ("DcaXYUncPionOrKaon", ColType.float),
    ("DcaZPionOrKaon", ColType.float), ("DcaZUncPionOrKaon", ColType.float),
    ("DcaXYPr", ColType.float), ("DcaZPr", ColType.float), ("DcaXYKa", ColType.float),
    ("DcaZKa", ColType.float), ("DcaXYPi", ColType.float), ("DcaZPi", ColType.float),
    ("Chi2TopologicalCharmedBaryon", ColType.float), ("Chi2TopologicalCasc", ColType.float),
    ("DecayLengthCharmedBaryon", ColType.float), ("DecayLengthXYCharmedBaryon", ColType.float),
    ("DecayLengthCharmedBaryonUntracked", ColType.float),
    ("DecayLengthXYCharmedBaryonUntracked", ColType.float), ("DecayLengthCasc", ColType.float),
    ("DecayLengthXYCasc", ColType.float), ("MotherCascId", ColType.int),
    ("MotherPionOrKaonId", ColType.int), ("OriginMcRec", ColType.int)]

/-- The columns of `HfStChBarGens` as `DECLARE_SOA_TABLE` lists them (lines
94-108), each with the type of its `DECLARE_SOA_COLUMN` (lines 78-91). -/
def hfStChBarGensColumns : List (String × ColType) :=
  [
    ("PxCharmedBaryon", ColType.float), ("PyCharmedBaryon", ColType.float),
    ("PzCharmedBaryon", ColType.float), ("PdgCodeCharmedBaryon", ColType.int),
    ("PxCasc", ColType.float), ("PyCasc", ColType.float), ("PzCasc", ColType.float),
    ("PdgCodeCasc", ColType.int), ("DecayLengthCharmedBaryon", ColType.float),
    ("DecayLengthXYCharmedBaryon", ColType.float), ("DecayLengthCasc", ColType.float),
    ("DecayLengthXYCasc", ColType.float), ("OriginMcGen", ColType.int),
    ("DecayChannel", ColType.int)]

/-- The values of a row of `HfStChBars`, one per declared column, in the
declared order. -/
def Row.cells (r : Row) : List Cell :=
  [
    Cell.float r.massOmega, Cell.float r.massXi, Cell.float r.massLambda,
    Cell.float r.nSigmaTpcPion, Cell.float r.nSigmaTofPion, Cell.float r.nSigmaTpcKaon,
    Cell.float r.nSigmaTofKaon, Cell.float r.nSigmaTpcV0Pr, Cell.float r.nSigmaTofV0Pr,
    Cell.float r.nSigmaTpcV0Pi, Cell.float r.nSigmaTofV0Pi, Cell.float r.nSigmaTpcBachPi,
    Cell.float r.nSigmaTofBachPi, Cell.float r.nSigmaTpcBachKa, Cell.float r.nSigmaTofBachKa,
    Cell.float r.pxCasc, Cell.float r.pyCasc, Cell.float r.pzCasc, Cell.bool r.isPositiveCasc,
    Cell.float r.pxPionOrKaon, Cell.float r.pyPionOrKaon, Cell.float r.pzPionOrKaon,
    Cell.bool r.isPositivePionOrKaon, Cell.uint8 r.itsClusterMapPionOrKaon,
    Cell.float r.cpaCharmedBaryon, Cell.float r.cpaXYCharmedBaryon, Cell.float r.cpaCasc,
    Cell.float r.cpaXYCasc, Cell.float r.dcaXYCasc, Cell.float r.dcaXYUncCasc,
    Cell.float r.dcaZCasc, Cell.float r.dcaZUncCasc, Cell.float r.dcaXYPionOrKaon,
    Cell.float r.dcaXYUncPionOrKaon, Cell.float r.dcaZPionOrKaon, Cell.float r.dcaZUncPionOrKaon,
    Cell.float r.dcaXYPr, Cell.float r.dcaZPr, Cell.float r.dcaXYKa, Cell.float r.dcaZKa,
    Cell.float r.dcaXYPi, Cell.float r.dcaZPi, Cell.float r.chi2TopologicalCharmedBaryon,
    Cell.float r.chi2TopologicalCasc, Cell.float r.decayLengthCharmedBaryon,
    Cell.float r.decayLengthXYCharmedBaryon, Cell.float r.decayLengthCharmedBaryonUntracked,
    Cell.float r.decayLengthXYCharmedBaryonUntracked, Cell.float r.decayLengthCasc,
    Cell.float r.decayLengthXYCasc, Cell.int r.motherCascId, Cell.int r.motherPionOrKaonId,
    Cell.int r.originMcRec]

/-- The values of a row of `HfStChBarGens`, one per declared column, in the
declared order. -/
def GenRow.cells (r : GenRow) : List Cell :=
  [
    Cell.float r.pxCharmedBaryon, Cell.float r.pyCharmedBaryon, Cell.float r.pzCharmedBaryon,
    Cell.int r.pdgCodeCharmedBaryon, Cell.float r.pxCasc, Cell.float r.pyCasc,
    Cell.float r.pzCasc, Cell.int r.pdgCodeCasc, Cell.float r.decayLengthCharmedBaryon,
    Cell.float r.decayLengthXYCharmedBaryon, Cell.float r.decayLengthCasc,
    Cell.float r.decayLengthXYCasc, Cell.int r.originMcGen, Cell.int r.decayChannel]

/-- The arguments of the call `outputTable(...)` of `fillTable` in the order
they are written (lines 721-773), over the local variables of the call site:
`momenta` are the two momenta read after the tracked fit. -/
def outputTableArgs (ext : Ext) (massOmega massXi massV0 : ℚ) (track v0TrackPr v0TrackPi
    bachelor trackCasc : Track) (momenta0 momenta1 : Vec3)
    (cpaCharmedBaryon cpaXYCharmedBaryon cpaCasc cpaXYCasc : ℚ)
    (impactParameterCasc impactParameterPion impactParameterPr impactParameterKa
      impactParameterPi : DCA)
    (chi2TopCharmedBaryon topologyChi2 decayLength decayLengthXY decayLengthUntracked
      decayLengthXYUntracked decayLengthCasc decayLengthCascXY : ℚ)
    (trackCascMotherId trackMotherId origin : Int) : List Cell :=
  [Cell.float massOmega,
    Cell.float massXi,
    Cell.float massV0,
    Cell.float track.tpcNSigmaPi,
    Cell.float track.tofNSigmaPi,
    Cell.float track.tpcNSigmaKa,
    Cell.float track.tofNSigmaKa,
    Cell.float v0TrackPr.tpcNSigmaPr,
    Cell.float v0TrackPr.tofNSigmaPr,
    Cell.float v0TrackPi.tpcNSigmaPi,
    Cell.float v0TrackPi.tofNSigmaPi,
    Cell.float bachelor.tpcNSigmaPi,
    Cell.float bachelor.tofNSigmaPi,
    Cell.float bachelor.tpcNSigmaKa,
    Cell.float bachelor.tofNSigmaKa,
    Cell.float momenta0.1,
    Cell.float momenta0.2.1,
    Cell.float momenta0.2.2,
    Cell.bool (if trackCasc.sign > 0 then true else false),
    Cell.float momenta1.1,
    Cell.float momenta1.2.1,
    Cell.float momenta1.2.2,
    Cell.bool (if track.sign > 0 then true else false),
    Cell.uint8 track.itsClusterMap,
    Cell.float cpaCharmedBaryon,
    Cell.float cpaXYCharmedBaryon,
    Cell.float cpaCasc,
    Cell.float cpaXYCasc,
    Cell.float impactParameterCasc.y,
    Cell.float (ext.sqrt impactParameterCasc.sigmaY2),
    Cell.float impactParameterCasc.z,
    Cell.float (ext.sqrt impactParameterCasc.sigmaZ2),
    Cell.float impactParameterPion.y,
    Cell.float (ext.sqrt impactParameterPion.sigmaY2),
    Cell.float impactParameterPion.z,
    Cell.float (ext.sqrt impactParameterPion.sigmaZ2),
    Cell.float impactParameterPr.y,
    Cell.float impactParameterPr.z,
    Cell.float impactParameterKa.y,
    Cell.float impactParameterKa.z,
    Cell.float impactParameterPi.y,
    Cell.float impactParameterPi.z,
    Cell.float chi2TopCharmedBaryon,
    Cell.float topologyChi2,
    Cell.float decayLength,
    Cell.float decayLengthXY,
    Cell.float decayLengthUntracked,
    Cell.float decayLengthXYUntracked,
    Cell.float decayLengthCasc,
    Cell.float decayLengthCascXY,
    Cell.int trackCascMotherId,
    Cell.int trackMotherId,
    Cell.int origin]

/-- The arguments of the call `outputTableGen(...)` of `processMc` in the
order they are written (lines 411-425), over the local variables of the call
site. -/
def outputTableGenArgs (mcParticle cascDaughter : McParticle)
    (decayLengthGen decayLengthXYGen decayLengthCascGen decayLengthXYCascGen : ℚ)
    (origin decayChannel : Int) : List Cell :=
  [Cell.float mcParticle.px,
    Cell.float mcParticle.py,
    Cell.float mcParticle.pz,
    Cell.int mcParticle.pdgCode,
    Cell.float cascDaughter.px,
    Cell.float cascDaughter.py,
    Cell.float cascDaughter.pz,
    Cell.int cascDaughter.pdgCode,
    Cell.float decayLengthGen,
    Cell.float decayLengthXYGen,
    Cell.float decayLengthCascGen,
    Cell.float decayLengthXYCascGen,
    Cell.int origin,
    Cell.int decayChannel]

/-- The configurables `cfg` with the four options `massWindowLambda`,
`massWindowXiExclTrackedOmega`, `maxMatchingChi2TrackedCascade` and
`recalculateMasses` set to the given values. -/
def Config.withUnreadOptions (cfg : Config) (massWindowLambda massWindowXiExclTrackedOmega
    maxMatchingChi2TrackedCascade : ℚ) (recalculateMasses : Bool) : Config :=
  { cfg with
    massWindowLambda := massWindowLambda
    massWindowXiExclTrackedOmega := massWindowXiExclTrackedOmega
    maxMatchingChi2TrackedCascade := maxMatchingChi2TrackedCascade
    recalculateMasses := recalculateMasses }

/-- The two gates of `processMc` before the scan of the daughters (lines 366
and 368): an Omega_c0 or Xi_c0 with exactly two daughters. -/
def IsTwoDaughterCharm (p : McParticle) : Prop :=
  (|p.pdgCode| = kOmegaC0 ∨ |p.pdgCode| = kXiC0) ∧ p.daughtersIds.length = 2

instance (p : McParticle) : Decidable (IsTwoDaughterCharm p) := by
  unfold IsTwoDaughterCharm
  infer_instance

/-! ## Concrete inputs -/

/-- A track parametrisation with reference coordinate `x` and nothing else. -/
def parOf (x : ℚ) : TrackParCov := ⟨x, 0, [], []⟩

/-- A track with 100 findable and 90 found TPC clusters that passes the default
quality and PID selections; `x` is the reference coordinate of its
parametrisation and `mc` its generator label. -/
def goodTrack (idx : Int) (sign : Int) (x : ℚ) (mc : Int) : Track :=
  { globalIndex := idx
    sign := sign
    hasTPC := true
    tpcNClsFindable := 100
    tpcNClsFound := 90
    tpcNClsCrossedRows := 90
    itsNCls := 5
    tpcChi2NCl := 1
    itsChi2NCl := 1
    tpcNSigmaPi := 0
    tofNSigmaPi := 0
    tpcNSigmaKa := 0
    tofNSigmaKa := 0
    tpcNSigmaPr := 0
    tofNSigmaPr := 0
    itsClusterMap := 127
    parCov := parOf x
    mcParticleId := mc }

/-- A fitter for the examples: a track with `x = 77` makes `process` throw,
one with `x = 78` makes it return no candidate; otherwise the fit succeeds
with the two tracks unchanged and a parent at the sum of their `x`. -/
def demoProcess (_bz : ℚ) (a b : TrackParCov) : FitOutcome :=
  if a.x = 77 ∨ b.x = 77 then FitOutcome.runtimeError
  else if a.x = 78 ∨ b.x = 78 then FitOutcome.noCandidate
  else FitOutcome.ok ⟨(0, 0, 0), a, b, parOf (a.x + b.x), 1⟩

/-- External functions for the examples: the fitter `demoProcess`, identity
propagation, a momentum `(x, 0, 0)`, a mass that adds the two assumed masses
and the two `x` momenta, no truth match, and a CCDB that holds a `GRPObject`
with field 5 for every timestamp. -/
def demoExt : Ext :=
  { process := demoProcess
    propagateToDCA := fun _ t _ _ => (t, ⟨0, 0, 0, 0⟩)
    propagateToDCABxByBz := fun _ _ t _ => (t, ⟨0, 0, 0, 0⟩)
    getPxPyPzGlo := fun t => (t.x, 0, 0)
    m := fun p0 p1 m0 m1 => m0 + m1 + p0.1 + p1.1
    distance := fun a b => |a.1 - b.1|
    distanceXY := fun a b => |a.1 - b.1|
    cpa := fun _ _ _ => 1
    cpaXY := fun _ _ _ => 1
    sqrt := fun q => q
    getMatchedMCRec := fun _ _ _ _ _ _ => -1
    getCharmHadronOrigin := fun _ _ => 0
    getGRPObject := fun _ => some ⟨5⟩
    getGRPMagField := fun _ => none }

/-- A tracked cascade of collision 0: cascade track 10 (negative), V0 daughters
1 (positive) and 2 (negative), bachelor 3; `xCasc` and `xPos` are the reference
coordinates of the cascade track and of the positive V0 daughter. -/
def demoCascade (xCasc xPos : ℚ) : TrackedCascade :=
  { collisionId := 0
    track := goodTrack 10 (-1) xCasc (-1)
    cascade := ⟨goodTrack 3 (-1) 0 (-1), ⟨goodTrack 1 1 xPos (-1), goodTrack 2 (-1) 0 (-1)⟩⟩
    topologyChi2 := 1
    matchingChi2 := 1 }

/-- The values of `demoCascade xCasc 0` for the loop over the tracks, with the
parent of the V0-bachelor fit at `xUntracked` and the given cascade masses. -/
def demoCtx (xCasc xUntracked massOmega massXi : ℚ) : CascCtx :=
  { trackedCascade := demoCascade xCasc 0
    v0TrackPr := v0TrackPrOf (demoCascade xCasc 0)
    v0TrackPi := v0TrackPiOf (demoCascade xCasc 0)
    primaryVertex := (0, 0, 0)
    massOmega := massOmega
    massXi := massXi
    massV0 := 1115 / 1000
    trackParCovCascUntracked := parOf xUntracked
    cpaCasc := 1
    cpaXYCasc := 1
    decayLengthCasc := 1
    decayLengthCascXY := 1
    impactParameterCasc := ⟨0, 0, 0, 0⟩
    impactParameterPr := ⟨0, 0, 0, 0⟩
    impactParameterKa := ⟨0, 0, 0, 0⟩
    impactParameterPi := ⟨0, 0, 0, 0⟩
    trackCascMotherId := -1 }

/-- The reference coordinate of the cascade track that, with a pion at `x = 0`,
puts the Omega-pi mass of `demoExt` at 2.695. -/
def demoXCasc : ℚ := 88297961 / 100000000

/-- The reference coordinate of the positive V0 daughter that puts the Omega
mass of `demoCascade` under `demoExt` at 1.672. -/
def demoXPos : ℚ := 6264 / 100000

/-- A selected pion candidate of collision 0 with global index `idx`, generator
label `mc` and reference coordinate 0. -/
def demoPion (idx mc : Int) : TrackAssoc := ⟨0, goodTrack idx 1 0 mc⟩

/-- A selected pion candidate of collision 0 with global index `idx` whose
reference coordinate 77 makes every fit of `demoProcess` with it throw. -/
def demoFaultyPion (idx : Int) : TrackAssoc := ⟨0, goodTrack idx 1 77 (-1)⟩

/-- What `demoProcess` leaves after a successful fit of `parOf a` with `parOf b`. -/
def demoFit (a b : ℚ) : FitResult := ⟨(0, 0, 0), parOf a, parOf b, parOf (a + b), 1⟩

/-- A selected collision with global index `idx` in run `run`, at the origin. -/
def demoCollision (idx run : Int) : Collision := ⟨idx, ⟨run, 1000, 0⟩, 0, 0, 0, true⟩

/-- The members after the run-number block has read `demoExt`'s CCDB for run `run`. -/
def demoState (run : Int) : TaskState :=
  { TaskState.init with
    runNumber := run, bz := 5, dfBz := 5, field := FieldInit.fromGRPObject ⟨5⟩ }

/-- The external functions of `demoExt` with an empty CCDB. -/
def demoExtNoField : Ext :=
  { demoExt with getGRPObject := fun _ => none, getGRPMagField := fun _ => none }

/-- A generated particle at rest at the origin with the given index, PDG code,
mothers and daughters. -/
def demoParticle (idx pdg : Int) (mothers daughters : List Int) : McParticle :=
  { globalIndex := idx
    pdgCode := pdg
    mothersIds := mothers
    daughtersIds := daughters
    px := 0
    py := 0
    pz := 0
    vx := 0
    vy := 0
    vz := 0
    p := 1
    pt := 1
    mcCollisionPos := (0, 0, 0) }

/-- A generated event with one decay chain Omega_c0 (0) -> Omega- (1) pi+ (2),
Omega- -> Lambda (3) K- (4), Lambda -> p (5) pi- (6), and a primary pi+ (7). -/
def demoMcTable : List McParticle :=
  [demoParticle 0 4332 [] [1, 2], demoParticle 1 3334 [0] [3, 4], demoParticle 2 211 [0] [],
    demoParticle 3 3122 [1] [5, 6], demoParticle 4 (-321) [1] [], demoParticle 5 2212 [3] [],
    demoParticle 6 (-211) [3] [], demoParticle 7 211 [] []]

/-- A generated event without any charm baryon: four primary particles
pi+ (0), K- (1), p (2), pi- (3). -/
def demoMcTableNoCharm : List McParticle :=
  [demoParticle 0 211 [] [], demoParticle 1 (-321) [] [], demoParticle 2 2212 [] [],
    demoParticle 3 (-211) [] []]

/-- The truth match of `demoMcTable`, tabulated: the four tracks labelled
2, 4, 5, 6 match the Omega_c0 at index 0 under the pion hypothesis, the three
labelled 4, 5, 6 the Omega- at index 1, the two labelled 5, 6 the Lambda at
index 3; nothing else matches. -/
def demoMatch (_table : List McParticle) (daughters : List Track) (pdgMother : Int)
    (pdgDaughters : List Int) (_depthMax : Nat) (_flags : List Bool) : Int :=
  if pdgMother = kOmegaC0 ∧ pdgDaughters = [kPiPlus, kKMinus, kProton, kPiMinus] ∧
      daughters.map (fun t => t.mcParticleId) = [2, 4, 5, 6] then 0
  else if pdgMother = kOmegaMinus ∧ daughters.map (fun t => t.mcParticleId) = [4, 5, 6] then 1
  else if pdgMother = kLambda0 ∧ daughters.map (fun t => t.mcParticleId) = [5, 6] then 3
  else -1

/-- The external functions of `demoExt` with the truth match `demoMatch` and an
origin classification that calls the particles 0 and 2 of the table prompt (1)
and finds no origin (0) for the others. -/
def demoExtMc : Ext :=
  { demoExt with
    getMatchedMCRec := demoMatch
    getCharmHadronOrigin := fun _ idx => if idx = 0 ∨ idx = 2 then 1 else 0 }

/-- The tracked cascade `demoCascade demoXCasc demoXPos` with generator labels
on the cascade track, the bachelor and the two V0 daughters. -/
def demoCascadeMc (lCasc lBach lPos lNeg : Int) : TrackedCascade :=
  { collisionId := 0
    track := goodTrack 10 (-1) demoXCasc lCasc
    cascade := ⟨goodTrack 3 (-1) 0 lBach,
      ⟨goodTrack 1 1 demoXPos lPos, goodTrack 2 (-1) 0 lNeg⟩⟩
    topologyChi2 := 1
    matchingChi2 := 1 }

/-- One data frame with `demoMcTable`: `processMc`, then `processMcRec` on one
collision with the reconstructed Omega- and two pion candidates, first the
pion of the Omega_c0 (label 2), then the primary pion (label 7). -/
def demoMcRun : Run :=
  processMcRec demoExtMc Config.default (processMc demoExtMc TaskState.init demoMcTable).1
    [demoCollision 0 1] [demoCascadeMc 1 4 5 6] [demoPion 20 2, demoPion 21 7] demoMcTable

/-- A data frame without generated charm, reconstructed right after start-up:
`processMc` on `demoMcTableNoCharm`, then `processMcRec` on one collision with
one combinatorial candidate built from the four primary particles. -/
def demoRunFresh : Run :=
  processMcRec demoExtMc Config.default
    (processMc demoExtMc TaskState.init demoMcTableNoCharm).1
    [demoCollision 0 1] [demoCascadeMc (-1) 1 2 3] [demoPion 20 0] demoMcTableNoCharm

/-- The same data frame reconstructed after `processMc` has seen the data
frame of `demoMcTable` before. -/
def demoRunAfterCharm : Run :=
  processMcRec demoExtMc Config.default
    (processMc demoExtMc (processMc demoExtMc TaskState.init demoMcTable).1
      demoMcTableNoCharm).1
    [demoCollision 0 1] [demoCascadeMc (-1) 1 2 3] [demoPion 20 0] demoMcTableNoCharm

/-- The data frame of `demoMcRun` with the primary pion as the only candidate. -/
def demoMcRunAlone : Run :=
  processMcRec demoExtMc Config.default (processMc demoExtMc TaskState.init demoMcTable).1
    [demoCollision 0 1] [demoCascadeMc 1 4 5 6] [demoPion 21 7] demoMcTable

/-- A tracked cascade of collision 0 like `demoCascade demoXCasc demoXPos`, with
the signs of the cascade track and of the bachelor given, and with a TPC
proton score of 1 on the positive and 2 on the negative V0 daughter. -/
def demoCascadeSigns (signCasc signBach : Int) : TrackedCascade :=
  { collisionId := 0
    track := goodTrack 10 signCasc demoXCasc (-1)
    cascade := ⟨goodTrack 3 signBach 0 (-1),
      ⟨{ goodTrack 1 1 demoXPos (-1) with tpcNSigmaPr := 1 },
        { goodTrack 2 (-1) 0 (-1) with tpcNSigmaPr := 2 }⟩⟩
    topologyChi2 := 1
    matchingChi2 := 1 }

/-- A tracked cascade of collision 0 whose bachelor has no TPC information. -/
def demoCascadeNoTpc : TrackedCascade :=
  { collisionId := 0
    track := goodTrack 10 (-1) demoXCasc (-1)
    cascade := ⟨{ goodTrack 3 (-1) 0 (-1) with hasTPC := false },
      ⟨goodTrack 1 1 demoXPos (-1), goodTrack 2 (-1) 0 (-1)⟩⟩
    topologyChi2 := 1
    matchingChi2 := 1 }

/-- A pion candidate of collision 0 with only three ITS clusters. -/
def demoPionFewIts : TrackAssoc := ⟨0, { goodTrack 20 1 0 (-1) with itsNCls := 3 }⟩

/-- The external functions of `demoExt` with a propagator that moves a
track with reference coordinate `demoXCasc` to the reference coordinate 77 and
reports the transverse impact parameter 3 for it; every other track is left
where it is. -/
def demoExtProp : Ext :=
  { demoExt with
    propagateToDCA := fun _ t _ _ =>
      if t.x = demoXCasc then (parOf 77, ⟨3, 0, 0, 0⟩) else (t, ⟨0, 0, 0, 0⟩)
    propagateToDCABxByBz := fun _ _ t _ =>
      if t.x = demoXCasc then (parOf 77, ⟨3, 0, 0, 0⟩) else (t, ⟨0, 0, 0, 0⟩) }

/-- A generated event with the chain Xi_c0 (0) -> Xi- (1) pi+ (2),
Xi- -> Lambda (3) pi- (4), Lambda -> p (5) pi- (6), and one primary pi+ (7). -/
def demoMcTableXic : List McParticle :=
  [demoParticle 0 4132 [] [1, 2], demoParticle 1 3312 [0] [3, 4], demoParticle 2 211 [0] [],
    demoParticle 3 3122 [1] [5, 6], demoParticle 4 (-211) [1] [], demoParticle 5 2212 [3] [],
    demoParticle 6 (-211) [3] [], demoParticle 7 211 [] []]

/-- The truth match of `demoMcTableXic`, tabulated: the four tracks labelled
2, 4, 5, 6 have the common mother 0 when a Xi_c0 is asked for, the three
labelled 4, 5, 6 the common mother 1 when a Xi- is asked for, the two labelled
5, 6 the common mother 3 when a Lambda is asked for; a request for any other
species finds nothing. -/
def demoMatchXic (_table : List McParticle) (daughters : List Track) (pdgMother : Int)
    (_pdgDaughters : List Int) (_depthMax : Nat) (_flags : List Bool) : Int :=
  if pdgMother = kXiC0 ∧ daughters.map (fun t => t.mcParticleId) = [2, 4, 5, 6] then 0
  else if pdgMother = kXiMinus ∧ daughters.map (fun t => t.mcParticleId) = [4, 5, 6] then 1
  else if pdgMother = kLambda0 ∧ daughters.map (fun t => t.mcParticleId) = [5, 6] then 3
  else -1

/-- The external functions of `demoExt` with the truth match `demoMatchXic` and
an origin classification that calls the particle 0 of the table prompt (1) and
finds no origin (0) for the others. -/
def demoExtXic : Ext :=
  { demoExt with
    getMatchedMCRec := demoMatchXic
    getCharmHadronOrigin := fun _ idx => if idx = 0 then 1 else 0 }

/-- One data frame with `demoMcTableXic`: `processMc`, then `processMcRec` on
one collision with the reconstructed cascade (daughters labelled 4, 5, 6) and
the pion of the Xi_c0 (label 2) as the only candidate. -/
def demoXicRun : Run :=
  processMcRec demoExtXic Config.default (processMc demoExtXic TaskState.init demoMcTableXic).1
    [demoCollision 0 1] [demoCascadeMc 1 4 5 6] [demoPion 20 2] demoMcTableXic

/-- The external functions of `demoExt` with a CCDB that holds the field -5
for every timestamp and a fitter that finds candidates only when its field is
-5 (and then behaves as `demoProcess`). -/
def demoExtField : Ext :=
  { demoExt with
    getGRPObject := fun _ => some ⟨-5⟩
    process := fun bz a b => if bz = -5 then demoProcess bz a b else FitOutcome.noCandidate }

/-- The members after `processMcGen` has processed, right after start-up, one
collision of run 2 without tracked cascades. -/
def demoStateAfterMcGen : TaskState :=
  (processMcGen demoExtField Config.default [] TaskState.init (demoCollision 0 2) [] []).st

/-! ## Theorems -/

@[simp] theorem Out.rows_append (a b : Out) : (a.append b).rows = a.rows ++ b.rows := rfl

@[simp] theorem Out.fills_append (a b : Out) : (a.append b).fills = a.fills ++ b.fills := rfl

@[simp] theorem Out.queries_append (a b : Out) :
    (a.append b).queries = a.queries ++ b.queries := rfl

@[simp] theorem Out.rows_nil : Out.nil.rows = [] := rfl

@[simp] theorem Out.fills_nil : Out.nil.fills = [] := rfl

@[simp] theorem Out.queries_nil : Out.nil.queries = [] := rfl

@[simp] theorem Out.rows_ofFills (fs : List (Site × SVFitting)) : (Out.ofFills fs).rows = [] := rfl

@[simp] theorem Out.fills_ofFills (fs : List (Site × SVFitting)) : (Out.ofFills fs).fills = fs := rfl

@[simp] theorem Out.queries_ofFills (fs : List (Site × SVFitting)) :
    (Out.ofFills fs).queries = [] := rfl

/-- A tracked fit that does not succeed leaves the `try` block without a row. -/
theorem trackedFit_rows_of_not_ok (ext : Ext) (cfg : Config)
    (mcParticles : Option (List McParticle)) (ctx : CascCtx) (st : TaskState) (track : Track)
    (trackMotherId : Int) (tp : TrackParCov) (ip : DCA) (dl dlXY : ℚ)
    (h : ∀ r, ext.process st.dfBz (getTrackParCov ctx.trackedCascade.track) tp ≠ FitOutcome.ok r) :
    (trackedFit ext cfg mcParticles ctx st track trackMotherId tp ip dl dlXY).2.rows = [] := by
  cases hp : ext.process st.dfBz (getTrackParCov ctx.trackedCascade.track) tp with
  | ok r => exact absurd hp (h r)
  | noCandidate => simp [trackedFit, hp]
  | runtimeError => simp [trackedFit, hp]

/-! ### The loop body over the tracks, case by case -/

theorem processTrack_of_daughter (ext : Ext) (cfg : Config) (tracksExtMc : Bool)
    (mcParticles : Option (List McParticle)) (ctx : CascCtx) (st : TaskState)
    (trackId : TrackAssoc) (hd : isCascadeDaughter ctx trackId.track) :
    processTrack ext cfg tracksExtMc mcParticles ctx st trackId = (st, Out.nil) := by
  simp [processTrack, hd]

theorem processTrack_of_unselected (ext : Ext) (cfg : Config) (tracksExtMc : Bool)
    (mcParticles : Option (List McParticle)) (ctx : CascCtx) (st : TaskState)
    (trackId : TrackAssoc) (hs : ¬ trackSelected cfg trackId.track) :
    processTrack ext cfg tracksExtMc mcParticles ctx st trackId = (st, Out.nil) := by
  by_cases hd : isCascadeDaughter ctx trackId.track
  · simp [processTrack, hd]
  · simp [processTrack, hd, hs]

theorem processTrack_of_untracked_error (ext : Ext) (cfg : Config) (tracksExtMc : Bool)
    (mcParticles : Option (List McParticle)) (ctx : CascCtx) (st : TaskState)
    (trackId : TrackAssoc) (hd : ¬ isCascadeDaughter ctx trackId.track)
    (hs : trackSelected cfg trackId.track)
    (hu : untrackedOutcome ext cfg ctx st trackId = FitOutcome.runtimeError) :
    processTrack ext cfg tracksExtMc mcParticles ctx st trackId =
      (st, Out.ofFills [(Site.CascPiOrK, SVFitting.BeforeFit), (Site.CascPiOrK, SVFitting.Fail)]) := by
  unfold untrackedOutcome at hu
  simp [processTrack, hd, hs, hu, Out.append, Out.ofFills]

theorem processTrack_of_tracked_error (ext : Ext) (cfg : Config) (tracksExtMc : Bool)
    (mcParticles : Option (List McParticle)) (ctx : CascCtx) (st : TaskState)
    (trackId : TrackAssoc) (hd : ¬ isCascadeDaughter ctx trackId.track)
    (hs : trackSelected cfg trackId.track)
    (hu : untrackedOutcome ext cfg ctx st trackId ≠ FitOutcome.runtimeError)
    (ht : trackedOutcome ext cfg ctx st trackId = FitOutcome.runtimeError) :
    processTrack ext cfg tracksExtMc mcParticles ctx st trackId =
      (st, Out.ofFills [(Site.CascPiOrK, SVFitting.BeforeFit), (Site.CascPiOrK, SVFitting.Fail)]) := by
  unfold untrackedOutcome at hu
  unfold trackedOutcome at ht
  cases hp : ext.process st.dfBz ctx.trackParCovCascUntracked
      (propagate ext cfg st ctx.primaryVertex (getTrackParCov trackId.track)).1 with
  | ok ru => simp [processTrack, trackedFit, hd, hs, hp, ht, Out.append, Out.ofFills]
  | noCandidate => simp [processTrack, trackedFit, hd, hs, hp, ht, Out.append, Out.ofFills]
  | runtimeError => exact absurd hp hu

theorem processTrack_of_tracked_noCandidate (ext : Ext) (cfg : Config) (tracksExtMc : Bool)
    (mcParticles : Option (List McParticle)) (ctx : CascCtx) (st : TaskState)
    (trackId : TrackAssoc) (hd : ¬ isCascadeDaughter ctx trackId.track)
    (hs : trackSelected cfg trackId.track)
    (hu : untrackedOutcome ext cfg ctx st trackId ≠ FitOutcome.runtimeError)
    (ht : trackedOutcome ext cfg ctx st trackId = FitOutcome.noCandidate) :
    processTrack ext cfg tracksExtMc mcParticles ctx st trackId =
      (st, Out.ofFills [(Site.CascPiOrK, SVFitting.BeforeFit)]) := by
  unfold untrackedOutcome at hu
  unfold trackedOutcome at ht
  cases hp : ext.process st.dfBz ctx.trackParCovCascUntracked
      (propagate ext cfg st ctx.primaryVertex (getTrackParCov trackId.track)).1 with
  | ok ru => simp [processTrack, trackedFit, hd, hs, hp, ht, Out.append, Out.ofFills, Out.nil]
  | noCandidate =>
    simp [processTrack, trackedFit, hd, hs, hp, ht, Out.append, Out.ofFills, Out.nil]
  | runtimeError => exact absurd hp hu

theorem processTrack_of_tracked_ok (ext : Ext) (cfg : Config) (tracksExtMc : Bool)
    (mcParticles : Option (List McParticle)) (ctx : CascCtx) (st : TaskState)
    (trackId : TrackAssoc) (r : FitResult) (hd : ¬ isCascadeDaughter ctx trackId.track)
    (hs : trackSelected cfg trackId.track)
    (hu : untrackedOutcome ext cfg ctx st trackId ≠ FitOutcome.runtimeError)
    (ht : trackedOutcome ext cfg ctx st trackId = FitOutcome.ok r) :
    processTrack ext cfg tracksExtMc mcParticles ctx st trackId =
      (afterMatch ext mcParticles ctx trackId.track st,
        ⟨if fitInWindow ext cfg r then [rowOf ext cfg tracksExtMc mcParticles ctx st trackId r]
          else [],
        [(Site.CascPiOrK, SVFitting.BeforeFit), (Site.CascPiOrK, SVFitting.FitOk)], []⟩) := by
  unfold trackedOutcome at ht
  have hu2 := hu
  unfold untrackedOutcome at hu2
  cases hp : ext.process st.dfBz ctx.trackParCovCascUntracked
      (propagate ext cfg st ctx.primaryVertex (getTrackParCov trackId.track)).1 with
  | ok ru =>
    by_cases hw : fitInWindow ext cfg r
    · have hw2 := hw
      unfold fitInWindow at hw2
      simp [processTrack, trackedFit, hd, hs, hp, ht, hw, hw2, Out.append, Out.ofFills, rowOf,
        afterMatch, untrackedOutcome, untrackedLengths]
    · have hw2 := hw
      unfold fitInWindow at hw2
      simp [processTrack, trackedFit, hd, hs, hp, ht, hw, hw2, Out.append, Out.ofFills, rowOf,
        afterMatch, untrackedOutcome, untrackedLengths]
  | noCandidate =>
    by_cases hw : fitInWindow ext cfg r
    · have hw2 := hw
      unfold fitInWindow at hw2
      simp [processTrack, trackedFit, hd, hs, hp, ht, hw, hw2, Out.append, Out.ofFills, rowOf,
        afterMatch, untrackedOutcome, untrackedLengths]
    · have hw2 := hw
      unfold fitInWindow at hw2
      simp [processTrack, trackedFit, hd, hs, hp, ht, hw, hw2, Out.append, Out.ofFills, rowOf,
        afterMatch, untrackedOutcome, untrackedLengths]
  | runtimeError => exact absurd hp hu2

/-! ### Facts about the concrete inputs -/

theorem demo_not_daughter (a b c d : ℚ) (idx mc : Int) (h : 3 < idx) :
    ¬ isCascadeDaughter (demoCtx a b c d) (demoPion idx mc).track := by
  simp only [isCascadeDaughter, demoCtx, demoCascade, demoPion, goodTrack, v0TrackPrOf,
    v0TrackPiOf]
  norm_num
  omega

theorem demo_selected (idx mc : Int) : trackSelected Config.default (demoPion idx mc).track := by
  simp only [trackSelected, demoPion, goodTrack, Config.default, itsNClsMin,
    tpcNclsFindableFraction, tpcChi2NclMax, itsChi2NclMax]
  norm_num

theorem demo_tracked (a b c d : ℚ) (st : TaskState) (idx mc : Int) (h77 : a ≠ 77)
    (h78 : a ≠ 78) :
    trackedOutcome demoExt Config.default (demoCtx a b c d) st (demoPion idx mc) =
      FitOutcome.ok (demoFit a 0) := by
  simp [trackedOutcome, demoExt, demoProcess, demoCtx, demoCascade, demoPion, goodTrack,
    getTrackParCov, propagate, Config.default, parOf, demoFit, h77, h78]

theorem demo_untracked (a b c d : ℚ) (st : TaskState) (idx mc : Int) :
    untrackedOutcome demoExt Config.default (demoCtx a b c d) st (demoPion idx mc) =
      (if b = 77 then FitOutcome.runtimeError
        else if b = 78 then FitOutcome.noCandidate else FitOutcome.ok (demoFit b 0)) := by
  simp [untrackedOutcome, demoExt, demoProcess, demoCtx, demoPion, goodTrack,
    getTrackParCov, propagate, Config.default, parOf, demoFit]

theorem demo_fitInWindow : fitInWindow demoExt Config.default (demoFit demoXCasc 0) := by
  simp only [fitInWindow, inBaryonWindow, demoExt, demoFit, parOf, demoXCasc, Config.default,
    MassOmegaMinus, MassKPlus, MassPiPlus, MassXiMinus, MassOmegaC0, MassXiC0]
  norm_num [abs_lt]

theorem demoXCasc_ne : demoXCasc ≠ 77 ∧ demoXCasc ≠ 78 := by
  unfold demoXCasc
  constructor <;> norm_num

/-! ### C2 -/

/-- C2, as stated, fails: the combination below passed every upstream filter,
its tracked fit succeeds with the Omega-pi mass inside the window, the untracked
fit throws, and no row is emitted. -/
theorem untracked_runtime_error_emits_no_row :
    inCascadeWindow Config.default (demoCtx demoXCasc 77 (1672 / 1000) (13 / 10)).massOmega
      (demoCtx demoXCasc 77 (1672 / 1000) (13 / 10)).massXi ∧
    cascadePidOk Config.default
      (demoCtx demoXCasc 77 (1672 / 1000) (13 / 10)).trackedCascade.cascade.bachelor
      (demoCtx demoXCasc 77 (1672 / 1000) (13 / 10)).v0TrackPr
      (demoCtx demoXCasc 77 (1672 / 1000) (13 / 10)).v0TrackPi ∧
    ¬ isCascadeDaughter (demoCtx demoXCasc 77 (1672 / 1000) (13 / 10)) (demoPion 20 (-1)).track ∧
    trackSelected Config.default (demoPion 20 (-1)).track ∧
    trackedOutcome demoExt Config.default (demoCtx demoXCasc 77 (1672 / 1000) (13 / 10))
      TaskState.init (demoPion 20 (-1)) = FitOutcome.ok (demoFit demoXCasc 0) ∧
    fitInWindow demoExt Config.default (demoFit demoXCasc 0) ∧
    untrackedOutcome demoExt Config.default (demoCtx demoXCasc 77 (1672 / 1000) (13 / 10))
      TaskState.init (demoPion 20 (-1)) = FitOutcome.runtimeError ∧
    (processTrack demoExt Config.default false none
      (demoCtx demoXCasc 77 (1672 / 1000) (13 / 10)) TaskState.init (demoPion 20 (-1))).2.rows
        = [] := by
  have hu : untrackedOutcome demoExt Config.default
      (demoCtx demoXCasc 77 (1672 / 1000) (13 / 10)) TaskState.init (demoPion 20 (-1))
        = FitOutcome.runtimeError := by
    rw [demo_untracked]
    simp
  refine ⟨?_, ?_, demo_not_daughter _ _ _ _ _ _ (by norm_num), demo_selected _ _,
    demo_tracked _ _ _ _ _ _ _ demoXCasc_ne.1 demoXCasc_ne.2, demo_fitInWindow, hu, ?_⟩
  · simp only [inCascadeWindow, demoCtx, Config.default, MassOmegaMinus, MassXiMinus]
    norm_num [abs_lt]
  · simp only [cascadePidOk, demoCtx, demoCascade, goodTrack, v0TrackPrOf, v0TrackPiOf,
      Config.default]
    norm_num
  · rw [processTrack_of_untracked_error _ _ _ _ _ _ _
      (demo_not_daughter _ _ _ _ _ _ (by norm_num)) (demo_selected _ _) hu]
    rfl

/-- C2, amended: for a combination that passed the filters, whose tracked fit
succeeds with a mass inside a window, an untracked fit that returns no candidate
(geometric incompatibility or non-convergence) still gives exactly one row,
with both untracked decay lengths at -1; an untracked fit that throws leaves the
combination without a row and with one `Fail` entry. -/
theorem untracked_failure_sentinel_or_skip (ext : Ext) (cfg : Config) (tracksExtMc : Bool)
    (mcParticles : Option (List McParticle)) (ctx : CascCtx) (st : TaskState)
    (trackId : TrackAssoc) (r : FitResult) (hd : ¬ isCascadeDaughter ctx trackId.track)
    (hs : trackSelected cfg trackId.track)
    (ht : trackedOutcome ext cfg ctx st trackId = FitOutcome.ok r)
    (hw : fitInWindow ext cfg r) :
    (untrackedOutcome ext cfg ctx st trackId = FitOutcome.noCandidate →
      ∃ row, (processTrack ext cfg tracksExtMc mcParticles ctx st trackId).2.rows = [row] ∧
        row.decayLengthCharmedBaryonUntracked = -1 ∧
        row.decayLengthXYCharmedBaryonUntracked = -1) ∧
    (untrackedOutcome ext cfg ctx st trackId = FitOutcome.runtimeError →
      (processTrack ext cfg tracksExtMc mcParticles ctx st trackId).2.rows = [] ∧
      (processTrack ext cfg tracksExtMc mcParticles ctx st trackId).2.fills =
        [(Site.CascPiOrK, SVFitting.BeforeFit), (Site.CascPiOrK, SVFitting.Fail)]) := by
  constructor
  · intro hu
    have hne : untrackedOutcome ext cfg ctx st trackId ≠ FitOutcome.runtimeError := by
      rw [hu]
      exact FitOutcome.noConfusion
    rw [processTrack_of_tracked_ok _ _ _ _ _ _ _ r hd hs hne ht]
    refine ⟨rowOf ext cfg tracksExtMc mcParticles ctx st trackId r, by simp [hw], ?_, ?_⟩
    · simp [rowOf, mkRow, hu, untrackedLengths]
    · simp [rowOf, mkRow, hu, untrackedLengths]
  · intro hu
    rw [processTrack_of_untracked_error _ _ _ _ _ _ _ hd hs hu]
    exact ⟨rfl, rfl⟩

/-- The amended C2 at a concrete combination whose untracked fit returns no
candidate. -/
theorem untracked_failure_sentinel_or_skip_witness :
    untrackedOutcome demoExt Config.default (demoCtx demoXCasc 78 (1672 / 1000) (13 / 10))
      TaskState.init (demoPion 20 (-1)) = FitOutcome.noCandidate ∧
    ∃ row, (processTrack demoExt Config.default false none
        (demoCtx demoXCasc 78 (1672 / 1000) (13 / 10)) TaskState.init (demoPion 20 (-1))).2.rows
          = [row] ∧
      row.decayLengthCharmedBaryonUntracked = -1 ∧
      row.decayLengthXYCharmedBaryonUntracked = -1 :=
  have hu : untrackedOutcome demoExt Config.default
      (demoCtx demoXCasc 78 (1672 / 1000) (13 / 10)) TaskState.init (demoPion 20 (-1))
        = FitOutcome.noCandidate := by
    rw [demo_untracked]
    norm_num
  ⟨hu, (untracked_failure_sentinel_or_skip demoExt Config.default false none
    (demoCtx demoXCasc 78 (1672 / 1000) (13 / 10)) TaskState.init (demoPion 20 (-1))
    (demoFit demoXCasc 0) (demo_not_daughter _ _ _ _ _ _ (by norm_num)) (demo_selected _ _)
    (demo_tracked _ _ _ _ _ _ _ demoXCasc_ne.1 demoXCasc_ne.2) demo_fitInWindow).1 hu⟩

theorem demo_tracked_eq (a b c d : ℚ) (st : TaskState) (idx mc : Int) :
    trackedOutcome demoExt Config.default (demoCtx a b c d) st (demoPion idx mc) =
      (if a = 77 then FitOutcome.runtimeError
        else if a = 78 then FitOutcome.noCandidate else FitOutcome.ok (demoFit a 0)) := by
  simp [trackedOutcome, demoExt, demoProcess, demoCtx, demoCascade, demoPion, goodTrack,
    getTrackParCov, propagate, Config.default, parOf, demoFit]

/-! ### C1 -/

/-- C1: for every (tracked cascade, candidate track) combination, if the tracked
fit `df2.process(trackParCovCasc, trackParCovPionOrKaon)` does not succeed, the
combination appends no row, whatever the untracked fit returned. -/
theorem tracked_fit_failure_emits_no_row (ext : Ext) (cfg : Config) (tracksExtMc : Bool)
    (mcParticles : Option (List McParticle)) (ctx : CascCtx) (st : TaskState)
    (trackId : TrackAssoc)
    (h : ∀ r, trackedOutcome ext cfg ctx st trackId ≠ FitOutcome.ok r) :
    (processTrack ext cfg tracksExtMc mcParticles ctx st trackId).2.rows = [] := by
  unfold trackedOutcome at h
  by_cases hd : isCascadeDaughter ctx trackId.track
  · simp [processTrack, hd]
  · by_cases hs : trackSelected cfg trackId.track
    · cases hu : ext.process st.dfBz ctx.trackParCovCascUntracked
          (propagate ext cfg st ctx.primaryVertex (getTrackParCov trackId.track)).1 with
      | ok ru =>
        simp only [processTrack, hd, hs, hu, if_true, if_false, Out.rows_append,
          Out.rows_ofFills, List.nil_append]
        exact trackedFit_rows_of_not_ok _ _ _ _ _ _ _ _ _ _ _ h
      | noCandidate =>
        simp only [processTrack, hd, hs, hu, if_true, if_false, Out.rows_append,
          Out.rows_ofFills, List.nil_append]
        exact trackedFit_rows_of_not_ok _ _ _ _ _ _ _ _ _ _ _ h
      | runtimeError => simp [processTrack, hd, hs, hu]
    · simp [processTrack, hd, hs]

/-- C1 at a concrete combination: the track is selected, the untracked fit
succeeds, the tracked fit returns no candidate, and no row is appended. -/
theorem tracked_fit_failure_emits_no_row_witness :
    trackSelected Config.default (demoPion 20 (-1)).track ∧
    untrackedOutcome demoExt Config.default (demoCtx 78 5 (1672 / 1000) (13 / 10))
      TaskState.init (demoPion 20 (-1)) = FitOutcome.ok (demoFit 5 0) ∧
    (∀ r, trackedOutcome demoExt Config.default (demoCtx 78 5 (1672 / 1000) (13 / 10))
      TaskState.init (demoPion 20 (-1)) ≠ FitOutcome.ok r) ∧
    (processTrack demoExt Config.default false none (demoCtx 78 5 (1672 / 1000) (13 / 10))
      TaskState.init (demoPion 20 (-1))).2.rows = [] :=
  have ht : ∀ r, trackedOutcome demoExt Config.default (demoCtx 78 5 (1672 / 1000) (13 / 10))
      TaskState.init (demoPion 20 (-1)) ≠ FitOutcome.ok r := by
    intro r
    rw [demo_tracked_eq]
    norm_num
    exact fun h => FitOutcome.noConfusion h
  ⟨demo_selected _ _, by rw [demo_untracked]; norm_num, ht,
    tracked_fit_failure_emits_no_row demoExt Config.default false none
      (demoCtx 78 5 (1672 / 1000) (13 / 10)) TaskState.init (demoPion 20 (-1)) ht⟩

/-! ### C4 -/

/-- C4: for a combination that passed the self-pairing and quality filters and
whose baryon-layer fits did not throw, with `r` the state left by the
successful tracked fit: exactly one row is emitted if and only if one of the
three masses is inside its window, and none otherwise. In particular, with
windows 0.05 and 0.1, a cascade of Omega-hypothesis mass 1.672 (which is
inside the cascade window) and an Omega-pi mass 2.695 give exactly one row,
whose `massOmega` is 1.672. -/
theorem row_emitted_iff_in_baryon_window (ext : Ext) (cfg : Config) (tracksExtMc : Bool)
    (mcParticles : Option (List McParticle)) (ctx : CascCtx) (st : TaskState)
    (trackId : TrackAssoc) (r : FitResult) (hd : ¬ isCascadeDaughter ctx trackId.track)
    (hs : trackSelected cfg trackId.track)
    (hu : untrackedOutcome ext cfg ctx st trackId ≠ FitOutcome.runtimeError)
    (ht : trackedOutcome ext cfg ctx st trackId = FitOutcome.ok r) :
    ((processTrack ext cfg tracksExtMc mcParticles ctx st trackId).2.rows.length = 1 ↔
      fitInWindow ext cfg r) ∧
    (¬ fitInWindow ext cfg r →
      (processTrack ext cfg tracksExtMc mcParticles ctx st trackId).2.rows = []) ∧
    (cfg.massWindowTrackedOmega = 5 / 100 → cfg.massWindowOmegaC = 1 / 10 →
      ctx.massOmega = 1672 / 1000 →
      ext.m (ext.getPxPyPzGlo r.trackParamAtPCA0) (ext.getPxPyPzGlo r.trackParamAtPCA1)
        MassOmegaMinus MassPiPlus = 2695 / 1000 →
      inCascadeWindow cfg ctx.massOmega ctx.massXi ∧
      ∃ row, (processTrack ext cfg tracksExtMc mcParticles ctx st trackId).2.rows = [row] ∧
        row.massOmega = 1672 / 1000) := by
  rw [processTrack_of_tracked_ok _ _ _ _ _ _ _ r hd hs hu ht]
  refine ⟨?_, ?_, ?_⟩
  · by_cases hw : fitInWindow ext cfg r <;> simp [hw]
  · intro hw
    simp [hw]
  · intro h1 h2 h3 h4
    have hw : fitInWindow ext cfg r := by
      unfold fitInWindow inBaryonWindow
      right
      left
      rw [h4, h2]
      norm_num [MassOmegaC0, abs_lt]
    refine ⟨?_, rowOf ext cfg tracksExtMc mcParticles ctx st trackId r, by simp [hw], ?_⟩
    · unfold inCascadeWindow
      left
      rw [h3, h1]
      norm_num [MassOmegaMinus, abs_lt]
    · simp [rowOf, mkRow, h3]

/-- C4 at the concrete combination of the scenario: Omega mass 1.672, Omega-pi
mass 2.695, default windows; one row with `massOmega` 1.672. -/
theorem row_emitted_iff_in_baryon_window_witness :
    fitInWindow demoExt Config.default (demoFit demoXCasc 0) ∧
    (processTrack demoExt Config.default false none
      (demoCtx demoXCasc demoXPos (1672 / 1000) (13 / 10)) TaskState.init
        (demoPion 20 (-1))).2.rows.length = 1 ∧
    ∃ row, (processTrack demoExt Config.default false none
        (demoCtx demoXCasc demoXPos (1672 / 1000) (13 / 10)) TaskState.init
          (demoPion 20 (-1))).2.rows = [row] ∧ row.massOmega = 1672 / 1000 :=
  have hu : untrackedOutcome demoExt Config.default
      (demoCtx demoXCasc demoXPos (1672 / 1000) (13 / 10)) TaskState.init (demoPion 20 (-1))
        ≠ FitOutcome.runtimeError := by
    rw [demo_untracked]
    norm_num [demoXPos]
    exact fun h => FitOutcome.noConfusion h
  have h := row_emitted_iff_in_baryon_window demoExt Config.default false none
    (demoCtx demoXCasc demoXPos (1672 / 1000) (13 / 10)) TaskState.init (demoPion 20 (-1))
    (demoFit demoXCasc 0) (demo_not_daughter _ _ _ _ _ _ (by norm_num)) (demo_selected _ _) hu
    (demo_tracked _ _ _ _ _ _ _ demoXCasc_ne.1 demoXCasc_ne.2)
  ⟨demo_fitInWindow, h.1.mpr demo_fitInWindow,
    (h.2.2 rfl rfl rfl (by
      simp only [demoExt, demoFit, parOf, demoXCasc, MassOmegaMinus, MassPiPlus]
      norm_num)).2⟩

/-! ### Loops -/

@[simp] theorem forEach_nil {α : Type} (body : TaskState → α → TaskState × Out)
    (st : TaskState) : forEach body st [] = (st, Out.nil) := rfl

theorem forEach_cons {α : Type} (body : TaskState → α → TaskState × Out)
    (st : TaskState) (a : α) (as : List α) :
    forEach body st (a :: as) =
      ((forEach body (body st a).1 as).1, (body st a).2.append (forEach body (body st a).1 as).2) :=
  rfl

theorem Out.append_nil (a : Out) : a.append Out.nil = a := by
  simp [Out.append, Out.nil]

theorem Out.nil_append (a : Out) : Out.nil.append a = a := by
  simp [Out.append, Out.nil]

theorem Out.append_assoc (a b c : Out) : (a.append b).append c = a.append (b.append c) := by
  simp [Out.append, List.append_assoc]

theorem forEach_append {α : Type} (body : TaskState → α → TaskState × Out)
    (st : TaskState) (xs ys : List α) :
    forEach body st (xs ++ ys) =
      ((forEach body (forEach body st xs).1 ys).1,
        (forEach body st xs).2.append (forEach body (forEach body st xs).1 ys).2) := by
  induction xs generalizing st with
  | nil => simp [Out.nil_append]
  | cons a as ih =>
    simp only [List.cons_append, forEach_cons, ih, Out.append_assoc]

/-- A quantity that no iteration changes is unchanged by the loop. -/
theorem forEach_preserves {α β : Type} (f : TaskState → β)
    (body : TaskState → α → TaskState × Out)
    (h : ∀ st a, f (body st a).1 = f st) (st : TaskState) (xs : List α) :
    f (forEach body st xs).1 = f st := by
  induction xs generalizing st with
  | nil => rfl
  | cons a as ih => rw [forEach_cons]; simp only; rw [ih, h]

/-- Every row a loop appended was appended by one of its iterations, started
from members with the same value of any quantity `f` that no iteration changes. -/
theorem forEach_rows_mem {α β : Type} (f : TaskState → β)
    (body : TaskState → α → TaskState × Out)
    (hf : ∀ st a, f (body st a).1 = f st) (st : TaskState) (xs : List α) (row : Row)
    (h : row ∈ (forEach body st xs).2.rows) :
    ∃ st' a, a ∈ xs ∧ f st' = f st ∧ row ∈ (body st' a).2.rows := by
  induction xs generalizing st with
  | nil => simp at h
  | cons a as ih =>
    rw [forEach_cons] at h
    simp only [Out.rows_append, List.mem_append] at h
    rcases h with h | h
    · exact ⟨st, a, List.mem_cons_self _ _, rfl, h⟩
    · obtain ⟨st', b, hb, hfe, hr⟩ := ih _ h
      exact ⟨st', b, List.mem_cons_of_mem _ hb, by rw [hfe, hf], hr⟩

/-! ### What the loop bodies leave unchanged -/

theorem matchChain_env (ext : Ext) (mcp : List McParticle) (casc : Cascade) (track : Track)
    (pdg : Int) (st : TaskState) : (matchChain ext mcp casc track pdg st).env = st.env := by
  unfold matchChain
  simp only
  split_ifs <;> rfl

theorem mcRecMatch_env (ext : Ext) (mcp : List McParticle) (casc : Cascade) (track : Track)
    (st : TaskState) : (mcRecMatch ext mcp casc track st).env = st.env := by
  have h : (mcRecMatchLayers ext mcp casc track st).env = st.env := by
    unfold mcRecMatchLayers
    split_ifs
    · exact matchChain_env _ _ _ _ _ _
    · exact matchChain_env _ _ _ _ _ _
    · rfl
  unfold mcRecMatch
  simp only
  split_ifs
  · exact h
  · exact h

theorem afterMatch_env (ext : Ext) (mcParticles : Option (List McParticle)) (ctx : CascCtx)
    (track : Track) (st : TaskState) : (afterMatch ext mcParticles ctx track st).env = st.env := by
  cases mcParticles with
  | none => rfl
  | some mcp => exact mcRecMatch_env _ _ _ _ _

theorem processTrack_env (ext : Ext) (cfg : Config) (tracksExtMc : Bool)
    (mcParticles : Option (List McParticle)) (ctx : CascCtx) (st : TaskState)
    (trackId : TrackAssoc) :
    (processTrack ext cfg tracksExtMc mcParticles ctx st trackId).1.env = st.env := by
  by_cases hd : isCascadeDaughter ctx trackId.track
  · rw [processTrack_of_daughter _ _ _ _ _ _ _ hd]
  · by_cases hs : trackSelected cfg trackId.track
    · by_cases hu : untrackedOutcome ext cfg ctx st trackId = FitOutcome.runtimeError
      · rw [processTrack_of_untracked_error _ _ _ _ _ _ _ hd hs hu]
      · cases ht : trackedOutcome ext cfg ctx st trackId with
        | ok r =>
          rw [processTrack_of_tracked_ok _ _ _ _ _ _ _ r hd hs hu ht]
          exact afterMatch_env _ _ _ _ _
        | noCandidate => rw [processTrack_of_tracked_noCandidate _ _ _ _ _ _ _ hd hs hu ht]
        | runtimeError => rw [processTrack_of_tracked_error _ _ _ _ _ _ _ hd hs hu ht]
    · rw [processTrack_of_unselected _ _ _ _ _ _ _ hs]

/-! ### The loop body over the tracked cascades, case by case -/

theorem processCascade_of_lacksClusters (ext : Ext) (cfg : Config) (tracksExtMc : Bool)
    (mcParticles : Option (List McParticle)) (pv : Vec3) (grouped : List TrackAssoc)
    (st : TaskState) (tc : TrackedCascade)
    (hc : lacksClusters cfg tc.cascade.v0.posTrack tc.cascade.v0.negTrack tc.cascade.bachelor) :
    processCascade ext cfg tracksExtMc mcParticles pv grouped st tc = (st, Out.nil) := by
  simp [processCascade, hc]

theorem processCascade_of_prPi_noCandidate (ext : Ext) (cfg : Config) (tracksExtMc : Bool)
    (mcParticles : Option (List McParticle)) (pv : Vec3) (grouped : List TrackAssoc)
    (st : TaskState) (tc : TrackedCascade)
    (hc : ¬ lacksClusters cfg tc.cascade.v0.posTrack tc.cascade.v0.negTrack tc.cascade.bachelor)
    (h1 : prPiOutcome ext st tc = FitOutcome.noCandidate) :
    processCascade ext cfg tracksExtMc mcParticles pv grouped st tc =
      (st, Out.ofFills [(Site.PrPi, SVFitting.BeforeFit)]) := by
  unfold prPiOutcome at h1
  simp [processCascade, hc, h1]

theorem processCascade_of_prPi_error (ext : Ext) (cfg : Config) (tracksExtMc : Bool)
    (mcParticles : Option (List McParticle)) (pv : Vec3) (grouped : List TrackAssoc)
    (st : TaskState) (tc : TrackedCascade)
    (hc : ¬ lacksClusters cfg tc.cascade.v0.posTrack tc.cascade.v0.negTrack tc.cascade.bachelor)
    (h1 : prPiOutcome ext st tc = FitOutcome.runtimeError) :
    processCascade ext cfg tracksExtMc mcParticles pv grouped st tc =
      (st, Out.ofFills [(Site.PrPi, SVFitting.BeforeFit), (Site.PrPi, SVFitting.Fail)]) := by
  unfold prPiOutcome at h1
  simp [processCascade, hc, h1]

theorem processCascade_of_v0Pi_noCandidate (ext : Ext) (cfg : Config) (tracksExtMc : Bool)
    (mcParticles : Option (List McParticle)) (pv : Vec3) (grouped : List TrackAssoc)
    (st : TaskState) (tc : TrackedCascade) (r1 : FitResult)
    (hc : ¬ lacksClusters cfg tc.cascade.v0.posTrack tc.cascade.v0.negTrack tc.cascade.bachelor)
    (h1 : prPiOutcome ext st tc = FitOutcome.ok r1)
    (h2 : v0PiOutcome ext st tc r1 = FitOutcome.noCandidate) :
    processCascade ext cfg tracksExtMc mcParticles pv grouped st tc =
      (st, Out.ofFills [(Site.PrPi, SVFitting.BeforeFit), (Site.PrPi, SVFitting.FitOk),
        (Site.V0Pi, SVFitting.BeforeFit)]) := by
  unfold prPiOutcome at h1
  unfold v0PiOutcome at h2
  simp [processCascade, cascadeFit, hc, h1, h2, Out.append, Out.ofFills]

theorem processCascade_of_v0Pi_error (ext : Ext) (cfg : Config) (tracksExtMc : Bool)
    (mcParticles : Option (List McParticle)) (pv : Vec3) (grouped : List TrackAssoc)
    (st : TaskState) (tc : TrackedCascade) (r1 : FitResult)
    (hc : ¬ lacksClusters cfg tc.cascade.v0.posTrack tc.cascade.v0.negTrack tc.cascade.bachelor)
    (h1 : prPiOutcome ext st tc = FitOutcome.ok r1)
    (h2 : v0PiOutcome ext st tc r1 = FitOutcome.runtimeError) :
    processCascade ext cfg tracksExtMc mcParticles pv grouped st tc =
      (st, Out.ofFills [(Site.PrPi, SVFitting.BeforeFit), (Site.PrPi, SVFitting.FitOk),
        (Site.V0Pi, SVFitting.BeforeFit), (Site.V0Pi, SVFitting.Fail)]) := by
  unfold prPiOutcome at h1
  unfold v0PiOutcome at h2
  simp [processCascade, cascadeFit, hc, h1, h2, Out.append, Out.ofFills]

theorem processCascade_of_fits_ok (ext : Ext) (cfg : Config) (tracksExtMc : Bool)
    (mcParticles : Option (List McParticle)) (pv : Vec3) (grouped : List TrackAssoc)
    (st : TaskState) (tc : TrackedCascade) (r1 r2 : FitResult)
    (hc : ¬ lacksClusters cfg tc.cascade.v0.posTrack tc.cascade.v0.negTrack tc.cascade.bachelor)
    (h1 : prPiOutcome ext st tc = FitOutcome.ok r1)
    (h2 : v0PiOutcome ext st tc r1 = FitOutcome.ok r2) :
    processCascade ext cfg tracksExtMc mcParticles pv grouped st tc =
      ((pairWithTracks ext cfg tracksExtMc mcParticles grouped st
          (cascCtxOf ext cfg tracksExtMc mcParticles pv st tc r1 r2)).1,
        (Out.ofFills [(Site.PrPi, SVFitting.BeforeFit), (Site.PrPi, SVFitting.FitOk),
          (Site.V0Pi, SVFitting.BeforeFit), (Site.V0Pi, SVFitting.FitOk)]).append
          (pairWithTracks ext cfg tracksExtMc mcParticles grouped st
            (cascCtxOf ext cfg tracksExtMc mcParticles pv st tc r1 r2)).2) := by
  unfold prPiOutcome at h1
  unfold v0PiOutcome at h2
  simp [processCascade, cascadeFit, hc, h1, h2, Out.append, Out.ofFills, cascCtxOf]

theorem pairWithTracks_env (ext : Ext) (cfg : Config) (tracksExtMc : Bool)
    (mcParticles : Option (List McParticle)) (grouped : List TrackAssoc) (st : TaskState)
    (ctx : CascCtx) :
    (pairWithTracks ext cfg tracksExtMc mcParticles grouped st ctx).1.env = st.env := by
  unfold pairWithTracks
  split_ifs
  · exact forEach_preserves TaskState.env _ (processTrack_env ext cfg tracksExtMc mcParticles ctx)
      st grouped
  · rfl
  · rfl

theorem processCascade_env (ext : Ext) (cfg : Config) (tracksExtMc : Bool)
    (mcParticles : Option (List McParticle)) (pv : Vec3) (grouped : List TrackAssoc)
    (st : TaskState) (tc : TrackedCascade) :
    (processCascade ext cfg tracksExtMc mcParticles pv grouped st tc).1.env = st.env := by
  by_cases hc : lacksClusters cfg tc.cascade.v0.posTrack tc.cascade.v0.negTrack
      tc.cascade.bachelor
  · rw [processCascade_of_lacksClusters _ _ _ _ _ _ _ _ hc]
  · cases h1 : prPiOutcome ext st tc with
    | noCandidate => rw [processCascade_of_prPi_noCandidate _ _ _ _ _ _ _ _ hc h1]
    | runtimeError => rw [processCascade_of_prPi_error _ _ _ _ _ _ _ _ hc h1]
    | ok r1 =>
      cases h2 : v0PiOutcome ext st tc r1 with
      | noCandidate => rw [processCascade_of_v0Pi_noCandidate _ _ _ _ _ _ _ _ r1 hc h1 h2]
      | runtimeError => rw [processCascade_of_v0Pi_error _ _ _ _ _ _ _ _ r1 hc h1 h2]
      | ok r2 =>
        rw [processCascade_of_fits_ok _ _ _ _ _ _ _ _ r1 r2 hc h1 h2]
        exact pairWithTracks_env _ _ _ _ _ _ _

/-! ### Where an emitted row comes from -/

/-- A row appended by the loop body over the tracks comes from a track that
is no cascade daughter and is selected, from a tracked fit that succeeded
with a mass inside a window, after an untracked fit that did not throw. -/
theorem processTrack_rows_mem (ext : Ext) (cfg : Config) (tracksExtMc : Bool)
    (mcParticles : Option (List McParticle)) (ctx : CascCtx) (st : TaskState)
    (trackId : TrackAssoc) (row : Row)
    (h : row ∈ (processTrack ext cfg tracksExtMc mcParticles ctx st trackId).2.rows) :
    ¬ isCascadeDaughter ctx trackId.track ∧ trackSelected cfg trackId.track ∧
    untrackedOutcome ext cfg ctx st trackId ≠ FitOutcome.runtimeError ∧
    ∃ r, trackedOutcome ext cfg ctx st trackId = FitOutcome.ok r ∧ fitInWindow ext cfg r ∧
      row = rowOf ext cfg tracksExtMc mcParticles ctx st trackId r := by
  by_cases hd : isCascadeDaughter ctx trackId.track
  · rw [processTrack_of_daughter _ _ _ _ _ _ _ hd] at h
    simp at h
  · by_cases hs : trackSelected cfg trackId.track
    · by_cases hu : untrackedOutcome ext cfg ctx st trackId = FitOutcome.runtimeError
      · rw [processTrack_of_untracked_error _ _ _ _ _ _ _ hd hs hu] at h
        simp at h
      · cases ht : trackedOutcome ext cfg ctx st trackId with
        | ok r =>
          rw [processTrack_of_tracked_ok _ _ _ _ _ _ _ r hd hs hu ht] at h
          by_cases hw : fitInWindow ext cfg r
          · simp only [hw, if_true, List.mem_singleton] at h
            exact ⟨hd, hs, hu, r, rfl, hw, h⟩
          · simp [hw] at h
        | noCandidate =>
          rw [processTrack_of_tracked_noCandidate _ _ _ _ _ _ _ hd hs hu ht] at h
          simp at h
        | runtimeError =>
          rw [processTrack_of_tracked_error _ _ _ _ _ _ _ hd hs hu ht] at h
          simp at h
    · rw [processTrack_of_unselected _ _ _ _ _ _ _ hs] at h
      simp at h

/-- A row appended by the loop body over the tracked cascades comes from an
iteration of the loop over the grouped tracks, run for a cascade that has its
clusters, whose two fits succeeded and that passed the mass window and the
PID test. -/
theorem processCascade_rows_mem (ext : Ext) (cfg : Config) (tracksExtMc : Bool)
    (mcParticles : Option (List McParticle)) (pv : Vec3) (grouped : List TrackAssoc)
    (st : TaskState) (tc : TrackedCascade) (row : Row)
    (h : row ∈ (processCascade ext cfg tracksExtMc mcParticles pv grouped st tc).2.rows) :
    ¬ lacksClusters cfg tc.cascade.v0.posTrack tc.cascade.v0.negTrack tc.cascade.bachelor ∧
    ∃ r1 r2, prPiOutcome ext st tc = FitOutcome.ok r1 ∧
      v0PiOutcome ext st tc r1 = FitOutcome.ok r2 ∧
      inCascadeWindow cfg (cascCtxOf ext cfg tracksExtMc mcParticles pv st tc r1 r2).massOmega
        (cascCtxOf ext cfg tracksExtMc mcParticles pv st tc r1 r2).massXi ∧
      cascadePidOk cfg tc.cascade.bachelor (v0TrackPrOf tc) (v0TrackPiOf tc) ∧
      ∃ st' trackId, trackId ∈ grouped ∧ st'.env = st.env ∧
        row ∈ (processTrack ext cfg tracksExtMc mcParticles
          (cascCtxOf ext cfg tracksExtMc mcParticles pv st tc r1 r2) st' trackId).2.rows := by
  by_cases hc : lacksClusters cfg tc.cascade.v0.posTrack tc.cascade.v0.negTrack
      tc.cascade.bachelor
  · rw [processCascade_of_lacksClusters _ _ _ _ _ _ _ _ hc] at h
    simp at h
  · refine ⟨hc, ?_⟩
    cases h1 : prPiOutcome ext st tc with
    | noCandidate =>
      rw [processCascade_of_prPi_noCandidate _ _ _ _ _ _ _ _ hc h1] at h
      simp at h
    | runtimeError =>
      rw [processCascade_of_prPi_error _ _ _ _ _ _ _ _ hc h1] at h
      simp at h
    | ok r1 =>
      cases h2 : v0PiOutcome ext st tc r1 with
      | noCandidate =>
        rw [processCascade_of_v0Pi_noCandidate _ _ _ _ _ _ _ _ r1 hc h1 h2] at h
        simp at h
      | runtimeError =>
        rw [processCascade_of_v0Pi_error _ _ _ _ _ _ _ _ r1 hc h1 h2] at h
        simp at h
      | ok r2 =>
        rw [processCascade_of_fits_ok _ _ _ _ _ _ _ _ r1 r2 hc h1 h2] at h
        simp only [Out.rows_append, Out.rows_ofFills, List.nil_append] at h
        unfold pairWithTracks at h
        by_cases hw : inCascadeWindow cfg
            (cascCtxOf ext cfg tracksExtMc mcParticles pv st tc r1 r2).massOmega
            (cascCtxOf ext cfg tracksExtMc mcParticles pv st tc r1 r2).massXi
        · by_cases hp : cascadePidOk cfg
              (cascCtxOf ext cfg tracksExtMc mcParticles pv st tc r1 r2).trackedCascade.cascade.bachelor
              (cascCtxOf ext cfg tracksExtMc mcParticles pv st tc r1 r2).v0TrackPr
              (cascCtxOf ext cfg tracksExtMc mcParticles pv st tc r1 r2).v0TrackPi
          · simp only [hw, hp, if_true] at h
            obtain ⟨st', t, ht, he, hr⟩ := forEach_rows_mem TaskState.env _
              (processTrack_env ext cfg tracksExtMc mcParticles _) st grouped row h
            exact ⟨r1, r2, rfl, h2, hw, hp, st', t, ht, he, hr⟩
          · simp [hw, hp] at h
        · simp [hw] at h

/-! ### The run-number block and the loop over the collisions -/

theorem updateRun_of_same_run (ext : Ext) (cfg : Config) (st : TaskState) (bc : BC)
    (h : st.runNumber = bc.runNumber) : updateRun ext cfg st bc = (st, [], false) := by
  simp [updateRun, h]

theorem updateRun_runNumber (ext : Ext) (cfg : Config) (st : TaskState) (bc : BC) :
    (updateRun ext cfg st bc).1.runNumber = bc.runNumber := by
  unfold updateRun
  by_cases h : st.runNumber = bc.runNumber
  · simp [h]
  · simp only [ne_eq, h, not_false_eq_true, if_true]
    cases ext.getGRPObject bc.timestamp with
    | some g => rfl
    | none =>
      cases ext.getGRPMagField bc.timestamp with
      | some g => rfl
      | none => rfl

theorem updateRun_fatal_iff (ext : Ext) (cfg : Config) (st : TaskState) (bc : BC) :
    (updateRun ext cfg st bc).2.2 = true ↔
      (st.runNumber ≠ bc.runNumber ∧ ext.getGRPObject bc.timestamp = none ∧
        ext.getGRPMagField bc.timestamp = none) := by
  unfold updateRun
  by_cases h : st.runNumber = bc.runNumber
  · simp [h]
  · simp only [ne_eq, h, not_false_eq_true, if_true, true_and]
    cases ext.getGRPObject bc.timestamp with
    | some g => simp
    | none =>
      cases ext.getGRPMagField bc.timestamp with
      | some g => simp
      | none => simp

theorem updateRun_queries (ext : Ext) (cfg : Config) (st : TaskState) (bc : BC) :
    (updateRun ext cfg st bc).2.1 =
      if st.runNumber ≠ bc.runNumber then
        (if cfg.skimmedProcessing then [CcdbQuery.zorroInit bc.runNumber bc.timestamp] else []) ++
          CcdbQuery.grpObject bc.timestamp ::
            (match ext.getGRPObject bc.timestamp with
              | some _ => []
              | none => [CcdbQuery.grpMagField bc.timestamp])
      else [] := by
  unfold updateRun
  by_cases h : st.runNumber = bc.runNumber
  · simp [h]
  · simp only [ne_eq, h, not_false_eq_true, if_true]
    cases ext.getGRPObject bc.timestamp with
    | some g => rfl
    | none =>
      cases ext.getGRPMagField bc.timestamp with
      | some g => rfl
      | none => rfl

theorem processCollision_of_fatal (ext : Ext) (cfg : Config) (tracksExtMc : Bool)
    (mcParticles : Option (List McParticle)) (tcs : List TrackedCascade)
    (tis : List TrackAssoc) (st : TaskState) (c : Collision)
    (h : (updateRun ext cfg st c.bc).2.2 = true) :
    processCollision ext cfg tracksExtMc mcParticles tcs tis st c =
      ⟨(updateRun ext cfg st c.bc).1, ⟨[], [], (updateRun ext cfg st c.bc).2.1⟩, true⟩ := by
  simp [processCollision, h]

theorem processCollision_of_not_fatal (ext : Ext) (cfg : Config) (tracksExtMc : Bool)
    (mcParticles : Option (List McParticle)) (tcs : List TrackedCascade)
    (tis : List TrackAssoc) (st : TaskState) (c : Collision)
    (h : (updateRun ext cfg st c.bc).2.2 = false) :
    processCollision ext cfg tracksExtMc mcParticles tcs tis st c =
      ⟨(forEach (processCascade ext cfg tracksExtMc mcParticles (getPrimaryVertex c)
            (groupedTrackIdsOf tis c.globalIndex)) (updateRun ext cfg st c.bc).1
            (groupedTrackedCascadesOf tcs c.globalIndex)).1,
        (Out.mk [] [] (updateRun ext cfg st c.bc).2.1).append
          (forEach (processCascade ext cfg tracksExtMc mcParticles (getPrimaryVertex c)
            (groupedTrackIdsOf tis c.globalIndex)) (updateRun ext cfg st c.bc).1
            (groupedTrackedCascadesOf tcs c.globalIndex)).2, false⟩ := by
  simp [processCollision, h]

theorem processCollision_fatal (ext : Ext) (cfg : Config) (tracksExtMc : Bool)
    (mcParticles : Option (List McParticle)) (tcs : List TrackedCascade)
    (tis : List TrackAssoc) (st : TaskState) (c : Collision) :
    (processCollision ext cfg tracksExtMc mcParticles tcs tis st c).fatal =
      (updateRun ext cfg st c.bc).2.2 := by
  cases h : (updateRun ext cfg st c.bc).2.2 with
  | true => rw [processCollision_of_fatal _ _ _ _ _ _ _ _ h]
  | false => rw [processCollision_of_not_fatal _ _ _ _ _ _ _ _ h]

theorem processCollision_runNumber (ext : Ext) (cfg : Config) (tracksExtMc : Bool)
    (mcParticles : Option (List McParticle)) (tcs : List TrackedCascade)
    (tis : List TrackAssoc) (st : TaskState) (c : Collision) :
    (processCollision ext cfg tracksExtMc mcParticles tcs tis st c).st.runNumber
      = c.bc.runNumber := by
  cases h : (updateRun ext cfg st c.bc).2.2 with
  | true =>
    rw [processCollision_of_fatal _ _ _ _ _ _ _ _ h]
    exact updateRun_runNumber _ _ _ _
  | false =>
    rw [processCollision_of_not_fatal _ _ _ _ _ _ _ _ h]
    have he := forEach_preserves TaskState.env _
      (processCascade_env ext cfg tracksExtMc mcParticles (getPrimaryVertex c)
        (groupedTrackIdsOf tis c.globalIndex)) (updateRun ext cfg st c.bc).1
        (groupedTrackedCascadesOf tcs c.globalIndex)
    have h1 := congrArg Prod.fst he
    simp only [TaskState.env] at h1
    rw [h1]
    exact updateRun_runNumber _ _ _ _

theorem fillTable_nil (ext : Ext) (cfg : Config) (tracksExtMc : Bool)
    (mcParticles : Option (List McParticle)) (tcs : List TrackedCascade)
    (tis : List TrackAssoc) (st : TaskState) :
    fillTable ext cfg tracksExtMc mcParticles tcs tis st [] = ⟨st, Out.nil, false⟩ := rfl

theorem fillTable_cons_of_fatal (ext : Ext) (cfg : Config) (tracksExtMc : Bool)
    (mcParticles : Option (List McParticle)) (tcs : List TrackedCascade)
    (tis : List TrackAssoc) (st : TaskState) (c : Collision) (cs : List Collision)
    (h : (processCollision ext cfg tracksExtMc mcParticles tcs tis st c).fatal = true) :
    fillTable ext cfg tracksExtMc mcParticles tcs tis st (c :: cs) =
      processCollision ext cfg tracksExtMc mcParticles tcs tis st c := by
  simp [fillTable, h]

theorem fillTable_cons_of_not_fatal (ext : Ext) (cfg : Config) (tracksExtMc : Bool)
    (mcParticles : Option (List McParticle)) (tcs : List TrackedCascade)
    (tis : List TrackAssoc) (st : TaskState) (c : Collision) (cs : List Collision)
    (h : (processCollision ext cfg tracksExtMc mcParticles tcs tis st c).fatal = false) :
    fillTable ext cfg tracksExtMc mcParticles tcs tis st (c :: cs) =
      ⟨(fillTable ext cfg tracksExtMc mcParticles tcs tis
          (processCollision ext cfg tracksExtMc mcParticles tcs tis st c).st cs).st,
        (processCollision ext cfg tracksExtMc mcParticles tcs tis st c).out.append
          (fillTable ext cfg tracksExtMc mcParticles tcs tis
            (processCollision ext cfg tracksExtMc mcParticles tcs tis st c).st cs).out,
        (fillTable ext cfg tracksExtMc mcParticles tcs tis
          (processCollision ext cfg tracksExtMc mcParticles tcs tis st c).st cs).fatal⟩ := by
  simp [fillTable, h]

/-- Every row of `fillTable` was appended by the loop body over the tracked
cascades, run for a collision of the input and a tracked cascade grouped to it. -/
theorem fillTable_rows_mem (ext : Ext) (cfg : Config) (tracksExtMc : Bool)
    (mcParticles : Option (List McParticle)) (tcs : List TrackedCascade)
    (tis : List TrackAssoc) (st : TaskState) (cs : List Collision) (row : Row)
    (h : row ∈ (fillTable ext cfg tracksExtMc mcParticles tcs tis st cs).out.rows) :
    ∃ c, c ∈ cs ∧ ∃ tc, tc ∈ groupedTrackedCascadesOf tcs c.globalIndex ∧ ∃ st',
      row ∈ (processCascade ext cfg tracksExtMc mcParticles (getPrimaryVertex c)
        (groupedTrackIdsOf tis c.globalIndex) st' tc).2.rows := by
  induction cs generalizing st with
  | nil => simp [fillTable_nil] at h
  | cons c cs ih =>
    cases hf : (processCollision ext cfg tracksExtMc mcParticles tcs tis st c).fatal with
    | true =>
      rw [fillTable_cons_of_fatal _ _ _ _ _ _ _ _ _ hf] at h
      rw [processCollision_fatal] at hf
      rw [processCollision_of_fatal _ _ _ _ _ _ _ _ hf] at h
      simp at h
    | false =>
      rw [fillTable_cons_of_not_fatal _ _ _ _ _ _ _ _ _ hf] at h
      simp only [Out.rows_append, List.mem_append] at h
      rcases h with h | h
      · rw [processCollision_fatal] at hf
        rw [processCollision_of_not_fatal _ _ _ _ _ _ _ _ hf] at h
        simp only [Out.rows_append, List.nil_append] at h
        obtain ⟨st', tc, htc, _, hr⟩ := forEach_rows_mem TaskState.env _
          (processCascade_env ext cfg tracksExtMc mcParticles (getPrimaryVertex c)
            (groupedTrackIdsOf tis c.globalIndex)) _ _ row h
        exact ⟨c, List.mem_cons_self _ _, tc, htc, st', hr⟩
      · obtain ⟨c', hc', rest⟩ := ih _ h
        exact ⟨c', List.mem_cons_of_mem _ hc', rest⟩

/-! ### A complete concrete run -/

/-- One collision of run 1 with one tracked cascade (Omega mass 1.672) and one
pion candidate (Omega-pi mass 2.695): `fillTable` emits one row. -/
theorem demo_fillTable_rows_length :
    (fillTable demoExt Config.default false none [demoCascade demoXCasc demoXPos]
      [demoPion 20 (-1)] TaskState.init [demoCollision 0 1]).out.rows.length = 1 := by
  norm_num [fillTable, processCollision, updateRun, demoExt, demoCollision, TaskState.init,
    groupedTrackIdsOf, groupedTrackedCascadesOf, demoCascade, demoPion, forEach, processCascade,
    lacksClusters, goodTrack, Config.default, v0TrackPrOf, v0TrackPiOf, demoProcess, getTrackParCov,
    parOf, demoXPos, demoXCasc, cascadeFit, pairWithTracks, mkCascCtx, inCascadeWindow, cascadePidOk,
    processTrack, isCascadeDaughter, trackSelected, trackedFit, inBaryonWindow, propagate,
    getPrimaryVertex, motherGenIndex, Out.append, Out.ofFills, Out.nil, itsNClsMin,
    tpcNclsFindableFraction, tpcChi2NclMax, itsChi2NclMax, MassLambda0, MassKPlus, MassPiPlus,
    MassOmegaMinus, MassXiMinus, MassOmegaC0, MassXiC0, MassProton, MassPiMinus, abs_lt]

/-! ### C3 -/

/-- C3: every row emitted by `fillTable` comes from a combination of a tracked
cascade and an associated track of the same collision in which the track's
global index differs from those of the cascade's V0 proton track, V0 pion
track and bachelor; and a track that is one of the three is skipped with
nothing done: no counter entry (so no fit), no row, members unchanged. -/
theorem partner_track_is_no_cascade_daughter (ext : Ext) (cfg : Config) (tracksExtMc : Bool)
    (mcParticles : Option (List McParticle)) (trackedCascades : List TrackedCascade)
    (trackIndices : List TrackAssoc) (st : TaskState) (collisions : List Collision) (row : Row)
    (h : row ∈ (fillTable ext cfg tracksExtMc mcParticles trackedCascades trackIndices st
      collisions).out.rows) :
    (∃ c, c ∈ collisions ∧
      ∃ tc, tc ∈ groupedTrackedCascadesOf trackedCascades c.globalIndex ∧
      ∃ trackId, trackId ∈ groupedTrackIdsOf trackIndices c.globalIndex ∧
      ∃ ctx st', ctx.trackedCascade = tc ∧
        row ∈ (processTrack ext cfg tracksExtMc mcParticles ctx st' trackId).2.rows ∧
        trackId.track.globalIndex ≠ (v0TrackPrOf tc).globalIndex ∧
        trackId.track.globalIndex ≠ (v0TrackPiOf tc).globalIndex ∧
        trackId.track.globalIndex ≠ tc.cascade.bachelor.globalIndex) ∧
    (∀ ctx st' trackId, isCascadeDaughter ctx trackId.track →
      processTrack ext cfg tracksExtMc mcParticles ctx st' trackId = (st', Out.nil)) := by
  refine ⟨?_, fun ctx st' trackId hd => processTrack_of_daughter _ _ _ _ _ _ _ hd⟩
  obtain ⟨c, hc, tc, htc, st0, hrow⟩ := fillTable_rows_mem _ _ _ _ _ _ _ _ _ h
  obtain ⟨_, r1, r2, _, _, _, _, st', trackId, ht, _, hr⟩ :=
    processCascade_rows_mem _ _ _ _ _ _ _ _ _ hrow
  obtain ⟨hd, _⟩ := processTrack_rows_mem _ _ _ _ _ _ _ _ hr
  refine ⟨c, hc, tc, htc, trackId, ht, _, st', rfl, hr, ?_⟩
  unfold isCascadeDaughter at hd
  simp only [cascCtxOf, mkCascCtx, not_or] at hd
  exact hd

/-- C3 on the concrete run with one emitted row. -/
theorem partner_track_is_no_cascade_daughter_witness :
    ∃ row, row ∈ (fillTable demoExt Config.default false none [demoCascade demoXCasc demoXPos]
        [demoPion 20 (-1)] TaskState.init [demoCollision 0 1]).out.rows ∧
      ∃ c, c ∈ [demoCollision 0 1] ∧
      ∃ tc, tc ∈ groupedTrackedCascadesOf [demoCascade demoXCasc demoXPos] c.globalIndex ∧
      ∃ trackId, trackId ∈ groupedTrackIdsOf [demoPion 20 (-1)] c.globalIndex ∧
      ∃ ctx st', ctx.trackedCascade = tc ∧
        row ∈ (processTrack demoExt Config.default false none ctx st' trackId).2.rows ∧
        trackId.track.globalIndex ≠ (v0TrackPrOf tc).globalIndex ∧
        trackId.track.globalIndex ≠ (v0TrackPiOf tc).globalIndex ∧
        trackId.track.globalIndex ≠ tc.cascade.bachelor.globalIndex := by
  obtain ⟨row, hrow⟩ := List.length_eq_one.mp demo_fillTable_rows_length
  have hmem : row ∈ (fillTable demoExt Config.default false none
      [demoCascade demoXCasc demoXPos] [demoPion 20 (-1)] TaskState.init
      [demoCollision 0 1]).out.rows := by
    rw [hrow]
    exact List.mem_singleton_self row
  exact ⟨row, hmem, (partner_track_is_no_cascade_daughter demoExt Config.default false none
    [demoCascade demoXCasc demoXPos] [demoPion 20 (-1)] TaskState.init [demoCollision 0 1]
    row hmem).1⟩

/-! ### C7 -/

theorem forEach_queries_nil {α : Type} (body : TaskState → α → TaskState × Out)
    (h : ∀ st a, (body st a).2.queries = []) (st : TaskState) (xs : List α) :
    (forEach body st xs).2.queries = [] := by
  induction xs generalizing st with
  | nil => rfl
  | cons a as ih => rw [forEach_cons]; simp [h, ih]

theorem processTrack_queries (ext : Ext) (cfg : Config) (tracksExtMc : Bool)
    (mcParticles : Option (List McParticle)) (ctx : CascCtx) (st : TaskState)
    (trackId : TrackAssoc) :
    (processTrack ext cfg tracksExtMc mcParticles ctx st trackId).2.queries = [] := by
  by_cases hd : isCascadeDaughter ctx trackId.track
  · rw [processTrack_of_daughter _ _ _ _ _ _ _ hd]; rfl
  · by_cases hs : trackSelected cfg trackId.track
    · by_cases hu : untrackedOutcome ext cfg ctx st trackId = FitOutcome.runtimeError
      · rw [processTrack_of_untracked_error _ _ _ _ _ _ _ hd hs hu]; rfl
      · cases ht : trackedOutcome ext cfg ctx st trackId with
        | ok r => rw [processTrack_of_tracked_ok _ _ _ _ _ _ _ r hd hs hu ht]
        | noCandidate => rw [processTrack_of_tracked_noCandidate _ _ _ _ _ _ _ hd hs hu ht]; rfl
        | runtimeError => rw [processTrack_of_tracked_error _ _ _ _ _ _ _ hd hs hu ht]; rfl
    · rw [processTrack_of_unselected _ _ _ _ _ _ _ hs]; rfl

theorem processCascade_queries (ext : Ext) (cfg : Config) (tracksExtMc : Bool)
    (mcParticles : Option (List McParticle)) (pv : Vec3) (grouped : List TrackAssoc)
    (st : TaskState) (tc : TrackedCascade) :
    (processCascade ext cfg tracksExtMc mcParticles pv grouped st tc).2.queries = [] := by
  by_cases hc : lacksClusters cfg tc.cascade.v0.posTrack tc.cascade.v0.negTrack
      tc.cascade.bachelor
  · rw [processCascade_of_lacksClusters _ _ _ _ _ _ _ _ hc]; rfl
  · cases h1 : prPiOutcome ext st tc with
    | noCandidate => rw [processCascade_of_prPi_noCandidate _ _ _ _ _ _ _ _ hc h1]; rfl
    | runtimeError => rw [processCascade_of_prPi_error _ _ _ _ _ _ _ _ hc h1]; rfl
    | ok r1 =>
      cases h2 : v0PiOutcome ext st tc r1 with
      | noCandidate => rw [processCascade_of_v0Pi_noCandidate _ _ _ _ _ _ _ _ r1 hc h1 h2]; rfl
      | runtimeError => rw [processCascade_of_v0Pi_error _ _ _ _ _ _ _ _ r1 hc h1 h2]; rfl
      | ok r2 =>
        rw [processCascade_of_fits_ok _ _ _ _ _ _ _ _ r1 r2 hc h1 h2]
        simp only [Out.queries_append, Out.queries_ofFills, List.nil_append]
        unfold pairWithTracks
        split_ifs
        · exact forEach_queries_nil _ (processTrack_queries ext cfg tracksExtMc mcParticles _) _ _
        · rfl
        · rfl

theorem processCollision_queries (ext : Ext) (cfg : Config) (tracksExtMc : Bool)
    (mcParticles : Option (List McParticle)) (tcs : List TrackedCascade)
    (tis : List TrackAssoc) (st : TaskState) (c : Collision) :
    (processCollision ext cfg tracksExtMc mcParticles tcs tis st c).out.queries =
      (updateRun ext cfg st c.bc).2.1 := by
  cases h : (updateRun ext cfg st c.bc).2.2 with
  | true => rw [processCollision_of_fatal _ _ _ _ _ _ _ _ h]
  | false =>
    rw [processCollision_of_not_fatal _ _ _ _ _ _ _ _ h]
    simp only [Out.queries_append]
    rw [forEach_queries_nil _ (processCascade_queries ext cfg tracksExtMc mcParticles _ _)]
    simp

theorem lookupCount_updateRun (ext : Ext) (cfg : Config) (st : TaskState) (bc : BC) :
    lookupCount (updateRun ext cfg st bc).2.1 = if st.runNumber ≠ bc.runNumber then 1 else 0 := by
  rw [updateRun_queries]
  by_cases h : st.runNumber = bc.runNumber
  · simp [h, lookupCount]
  · simp only [ne_eq, h, not_false_eq_true, if_true, lookupCount]
    cases ext.getGRPObject bc.timestamp <;> cases cfg.skimmedProcessing <;> simp

theorem lookupCount_append (a b : List CcdbQuery) :
    lookupCount (a ++ b) = lookupCount a + lookupCount b := by
  simp [lookupCount, List.countP_append]

/-- C7: a collision triggers the environment lookup if and only if its run
number differs from the stored one, and it leaves its own run number stored;
so of two consecutive collisions the second triggers exactly one lookup when
the run number changes and none when it does not; and over any sequence of
collisions that ends without a fatal error the number of lookups is the
number of run-number changes, counted from the run number stored at the start. -/
theorem lookup_exactly_on_run_change (ext : Ext) (cfg : Config) (tracksExtMc : Bool)
    (mcParticles : Option (List McParticle)) (trackedCascades : List TrackedCascade)
    (trackIndices : List TrackAssoc) (st : TaskState) (collisions : List Collision)
    (h : (fillTable ext cfg tracksExtMc mcParticles trackedCascades trackIndices st
      collisions).fatal = false) :
    (∀ st' c,
      ((processCollision ext cfg tracksExtMc mcParticles trackedCascades trackIndices st'
          c).out.queries ≠ [] ↔ st'.runNumber ≠ c.bc.runNumber) ∧
      (processCollision ext cfg tracksExtMc mcParticles trackedCascades trackIndices st'
          c).st.runNumber = c.bc.runNumber) ∧
    (∀ st' c1 c2,
      lookupCount (processCollision ext cfg tracksExtMc mcParticles trackedCascades trackIndices
        (processCollision ext cfg tracksExtMc mcParticles trackedCascades trackIndices st'
          c1).st c2).out.queries = if c1.bc.runNumber ≠ c2.bc.runNumber then 1 else 0) ∧
    lookupCount (fillTable ext cfg tracksExtMc mcParticles trackedCascades trackIndices st
      collisions).out.queries = runChanges st.runNumber (collisions.map (fun c => c.bc.runNumber)) := by
  refine ⟨?_, ?_, ?_⟩
  · intro st' c
    refine ⟨?_, processCollision_runNumber _ _ _ _ _ _ _ _⟩
    rw [processCollision_queries, updateRun_queries]
    by_cases hr : st'.runNumber = c.bc.runNumber
    · simp [hr]
    · simp [hr]
  · intro st' c1 c2
    rw [processCollision_queries, lookupCount_updateRun, processCollision_runNumber]
  · induction collisions generalizing st with
    | nil => simp [fillTable_nil, lookupCount, runChanges]
    | cons c cs ih =>
      cases hf : (processCollision ext cfg tracksExtMc mcParticles trackedCascades trackIndices
          st c).fatal with
      | true =>
        rw [fillTable_cons_of_fatal _ _ _ _ _ _ _ _ _ hf] at h
        rw [h] at hf
        exact absurd hf (by simp)
      | false =>
        rw [fillTable_cons_of_not_fatal _ _ _ _ _ _ _ _ _ hf] at h ⊢
        simp only at h
        simp only [Out.queries_append, lookupCount_append, List.map_cons, runChanges]
        rw [ih _ h, processCollision_queries, lookupCount_updateRun, processCollision_runNumber]

/-- C7 on three collisions of runs 1, 1 and 2, starting from the initial
members (stored run number 0): two lookups. -/
theorem lookup_exactly_on_run_change_witness :
    (fillTable demoExt Config.default false none [] [] TaskState.init
      [demoCollision 0 1, demoCollision 1 1, demoCollision 2 2]).fatal = false ∧
    lookupCount (fillTable demoExt Config.default false none [] [] TaskState.init
      [demoCollision 0 1, demoCollision 1 1, demoCollision 2 2]).out.queries = 2 :=
  have hf : (fillTable demoExt Config.default false none [] [] TaskState.init
      [demoCollision 0 1, demoCollision 1 1, demoCollision 2 2]).fatal = false := by
    simp [fillTable, processCollision, updateRun, demoExt, demoCollision, TaskState.init,
      groupedTrackedCascadesOf, Config.default]
  ⟨hf, (lookup_exactly_on_run_change demoExt Config.default false none [] [] TaskState.init
    [demoCollision 0 1, demoCollision 1 1, demoCollision 2 2] hf).2.2.trans (by
      simp [runChanges, demoCollision, TaskState.init])⟩

/-! ### C8 -/

theorem updateRunMcGen_fatal_iff (ext : Ext) (st : TaskState) (bc : BC) :
    (updateRunMcGen ext st bc).2.2 = true ↔
      (st.runNumber ≠ bc.runNumber ∧ ext.getGRPObject bc.timestamp = none ∧
        ext.getGRPMagField bc.timestamp = none) := by
  unfold updateRunMcGen
  by_cases h : st.runNumber = bc.runNumber
  · simp [h]
  · simp only [ne_eq, h, not_false_eq_true, if_true, true_and]
    cases ext.getGRPObject bc.timestamp with
    | some g => simp
    | none =>
      cases ext.getGRPMagField bc.timestamp with
      | some g => simp
      | none => simp

theorem processMcGen_fatal (ext : Ext) (cfg : Config) (table : List McParticle)
    (st : TaskState) (c : Collision) (tcs : List TrackedCascade) (tracks : List Track) :
    (processMcGen ext cfg table st c tcs tracks).fatal = (updateRunMcGen ext st c.bc).2.2 := by
  cases h : (updateRunMcGen ext st c.bc).2.2 with
  | true => simp [processMcGen, h]
  | false => simp [processMcGen, h]

/-- C8: when the run number changes and the CCDB returns neither a `GRPObject`
nor a `GRPMagField` for the collision's timestamp, `fillTable` ends in the
fatal branch with no counter entry (no fit attempted) and no row for that
collision or any later one, and so does `processMcGen`; when either object
is returned, neither function takes the fatal branch for that collision. -/
theorem missing_field_is_fatal (ext : Ext) (cfg : Config) (tracksExtMc : Bool)
    (mcParticles : Option (List McParticle)) (trackedCascades : List TrackedCascade)
    (trackIndices : List TrackAssoc) (table : List McParticle) (tracks : List Track)
    (st : TaskState) (c : Collision) (cs : List Collision) :
    (st.runNumber ≠ c.bc.runNumber → ext.getGRPObject c.bc.timestamp = none →
      ext.getGRPMagField c.bc.timestamp = none →
      (fillTable ext cfg tracksExtMc mcParticles trackedCascades trackIndices st
        (c :: cs)).fatal = true ∧
      (fillTable ext cfg tracksExtMc mcParticles trackedCascades trackIndices st
        (c :: cs)).out.fills = [] ∧
      (fillTable ext cfg tracksExtMc mcParticles trackedCascades trackIndices st
        (c :: cs)).out.rows = [] ∧
      (processMcGen ext cfg table st c trackedCascades tracks).fatal = true ∧
      (processMcGen ext cfg table st c trackedCascades tracks).out.fills = [] ∧
      (processMcGen ext cfg table st c trackedCascades tracks).out.rows = []) ∧
    ((ext.getGRPObject c.bc.timestamp ≠ none ∨ ext.getGRPMagField c.bc.timestamp ≠ none) →
      (processCollision ext cfg tracksExtMc mcParticles trackedCascades trackIndices st
        c).fatal = false ∧
      (processMcGen ext cfg table st c trackedCascades tracks).fatal = false) := by
  constructor
  · intro hr hg hm
    have hu : (updateRun ext cfg st c.bc).2.2 = true :=
      (updateRun_fatal_iff ext cfg st c.bc).mpr ⟨hr, hg, hm⟩
    have hg2 : (updateRunMcGen ext st c.bc).2.2 = true :=
      (updateRunMcGen_fatal_iff ext st c.bc).mpr ⟨hr, hg, hm⟩
    have hp : (processCollision ext cfg tracksExtMc mcParticles trackedCascades trackIndices st
        c).fatal = true := by
      rw [processCollision_fatal]
      exact hu
    rw [fillTable_cons_of_fatal _ _ _ _ _ _ _ _ _ hp,
      processCollision_of_fatal _ _ _ _ _ _ _ _ hu]
    refine ⟨rfl, rfl, rfl, ?_, ?_, ?_⟩
    · rw [processMcGen_fatal]
      exact hg2
    · simp [processMcGen, hg2]
    · simp [processMcGen, hg2]
  · intro h
    have hu : ¬ (updateRun ext cfg st c.bc).2.2 = true := by
      rw [updateRun_fatal_iff]
      rintro ⟨_, hg, hm⟩
      rcases h with h | h
      · exact h hg
      · exact h hm
    have hg2 : ¬ (updateRunMcGen ext st c.bc).2.2 = true := by
      rw [updateRunMcGen_fatal_iff]
      rintro ⟨_, hg, hm⟩
      rcases h with h | h
      · exact h hg
      · exact h hm
    rw [processCollision_fatal, processMcGen_fatal]
    exact ⟨by simpa using hu, by simpa using hg2⟩

/-- C8 on concrete inputs: with an empty CCDB the first collision of run 1 is
fatal for both functions although a tracked cascade and a track are grouped
to it; with `demoExt`'s CCDB it is not. -/
theorem missing_field_is_fatal_witness :
    ((fillTable demoExtNoField Config.default false none [demoCascade demoXCasc demoXPos]
        [demoPion 20 (-1)] TaskState.init [demoCollision 0 1, demoCollision 1 1]).fatal = true ∧
      (fillTable demoExtNoField Config.default false none [demoCascade demoXCasc demoXPos]
        [demoPion 20 (-1)] TaskState.init [demoCollision 0 1, demoCollision 1 1]).out.fills = [] ∧
      (fillTable demoExtNoField Config.default false none [demoCascade demoXCasc demoXPos]
        [demoPion 20 (-1)] TaskState.init [demoCollision 0 1, demoCollision 1 1]).out.rows = [] ∧
      (processMcGen demoExtNoField Config.default [] TaskState.init (demoCollision 0 1)
        [demoCascade demoXCasc demoXPos] [(demoPion 20 (-1)).track]).fatal = true ∧
      (processMcGen demoExtNoField Config.default [] TaskState.init (demoCollision 0 1)
        [demoCascade demoXCasc demoXPos] [(demoPion 20 (-1)).track]).out.fills = [] ∧
      (processMcGen demoExtNoField Config.default [] TaskState.init (demoCollision 0 1)
        [demoCascade demoXCasc demoXPos] [(demoPion 20 (-1)).track]).out.rows = []) ∧
    ((processCollision demoExt Config.default false none [demoCascade demoXCasc demoXPos]
        [demoPion 20 (-1)] TaskState.init (demoCollision 0 1)).fatal = false ∧
      (processMcGen demoExt Config.default [] TaskState.init (demoCollision 0 1)
        [demoCascade demoXCasc demoXPos] [(demoPion 20 (-1)).track]).fatal = false) :=
  ⟨(missing_field_is_fatal demoExtNoField Config.default false none
      [demoCascade demoXCasc demoXPos] [demoPion 20 (-1)] [] [(demoPion 20 (-1)).track]
      TaskState.init (demoCollision 0 1) [demoCollision 1 1]).1
      (by simp [TaskState.init, demoCollision]) rfl rfl,
    (missing_field_is_fatal demoExt Config.default false none
      [demoCascade demoXCasc demoXPos] [demoPion 20 (-1)] [] [(demoPion 20 (-1)).track]
      TaskState.init (demoCollision 0 1) []).2 (Or.inl (by simp [demoExt]))⟩

/-! ### C9 -/

theorem propagate_congr (ext : Ext) (cfg : Config) (st st' : TaskState) (pv : Vec3)
    (t : TrackParCov) (h : st'.env = st.env) :
    propagate ext cfg st' pv t = propagate ext cfg st pv t := by
  simp only [TaskState.env, Prod.mk.injEq] at h
  obtain ⟨_, hbz, _, hfield, _⟩ := h
  unfold propagate
  rw [hbz, hfield]

theorem untrackedOutcome_congr (ext : Ext) (cfg : Config) (ctx : CascCtx) (st st' : TaskState)
    (trackId : TrackAssoc) (h : st'.env = st.env) :
    untrackedOutcome ext cfg ctx st' trackId = untrackedOutcome ext cfg ctx st trackId := by
  unfold untrackedOutcome
  rw [propagate_congr ext cfg st st' _ _ h]
  simp only [TaskState.env, Prod.mk.injEq] at h
  rw [h.2.2.1]

theorem trackedOutcome_congr (ext : Ext) (cfg : Config) (ctx : CascCtx) (st st' : TaskState)
    (trackId : TrackAssoc) (h : st'.env = st.env) :
    trackedOutcome ext cfg ctx st' trackId = trackedOutcome ext cfg ctx st trackId := by
  unfold trackedOutcome
  rw [propagate_congr ext cfg st st' _ _ h]
  simp only [TaskState.env, Prod.mk.injEq] at h
  rw [h.2.2.1]

theorem prPiOutcome_congr (ext : Ext) (st st' : TaskState) (tc : TrackedCascade)
    (h : st'.env = st.env) : prPiOutcome ext st' tc = prPiOutcome ext st tc := by
  simp only [TaskState.env, Prod.mk.injEq] at h
  unfold prPiOutcome
  rw [h.2.2.1]

theorem v0PiOutcome_congr (ext : Ext) (st st' : TaskState) (tc : TrackedCascade)
    (r1 : FitResult) (h : st'.env = st.env) :
    v0PiOutcome ext st' tc r1 = v0PiOutcome ext st tc r1 := by
  simp only [TaskState.env, Prod.mk.injEq] at h
  unfold v0PiOutcome
  rw [h.2.2.1]

/-- A combination one of whose baryon-layer fits throws changes no member and
appends no row. -/
theorem processTrack_of_fault (ext : Ext) (cfg : Config) (tracksExtMc : Bool)
    (mcParticles : Option (List McParticle)) (ctx : CascCtx) (st : TaskState)
    (trackId : TrackAssoc)
    (h : untrackedOutcome ext cfg ctx st trackId = FitOutcome.runtimeError ∨
      trackedOutcome ext cfg ctx st trackId = FitOutcome.runtimeError) :
    (processTrack ext cfg tracksExtMc mcParticles ctx st trackId).1 = st ∧
    (processTrack ext cfg tracksExtMc mcParticles ctx st trackId).2.rows = [] := by
  by_cases hd : isCascadeDaughter ctx trackId.track
  · rw [processTrack_of_daughter _ _ _ _ _ _ _ hd]
    exact ⟨rfl, rfl⟩
  · by_cases hs : trackSelected cfg trackId.track
    · by_cases hu : untrackedOutcome ext cfg ctx st trackId = FitOutcome.runtimeError
      · rw [processTrack_of_untracked_error _ _ _ _ _ _ _ hd hs hu]
        exact ⟨rfl, rfl⟩
      · rcases h with h | h
        · exact absurd h hu
        · rw [processTrack_of_tracked_error _ _ _ _ _ _ _ hd hs hu h]
          exact ⟨rfl, rfl⟩
    · rw [processTrack_of_unselected _ _ _ _ _ _ _ hs]
      exact ⟨rfl, rfl⟩

/-- A tracked cascade one of whose two fits throws changes no member and
appends no row. -/
theorem processCascade_of_fault (ext : Ext) (cfg : Config) (tracksExtMc : Bool)
    (mcParticles : Option (List McParticle)) (pv : Vec3) (grouped : List TrackAssoc)
    (st : TaskState) (tc : TrackedCascade)
    (h : prPiOutcome ext st tc = FitOutcome.runtimeError ∨
      ∃ r1, prPiOutcome ext st tc = FitOutcome.ok r1 ∧
        v0PiOutcome ext st tc r1 = FitOutcome.runtimeError) :
    (processCascade ext cfg tracksExtMc mcParticles pv grouped st tc).1 = st ∧
    (processCascade ext cfg tracksExtMc mcParticles pv grouped st tc).2.rows = [] := by
  by_cases hc : lacksClusters cfg tc.cascade.v0.posTrack tc.cascade.v0.negTrack
      tc.cascade.bachelor
  · rw [processCascade_of_lacksClusters _ _ _ _ _ _ _ _ hc]
    exact ⟨rfl, rfl⟩
  · rcases h with h | ⟨r1, h1, h2⟩
    · rw [processCascade_of_prPi_error _ _ _ _ _ _ _ _ hc h]
      exact ⟨rfl, rfl⟩
    · rw [processCascade_of_v0Pi_error _ _ _ _ _ _ _ _ r1 hc h1 h2]
      exact ⟨rfl, rfl⟩

/-- An iteration that changes no member and appends no row can be dropped from
a loop without changing the final members or the rows. -/
theorem forEach_skip {α β : Type} (f : TaskState → β)
    (body : TaskState → α → TaskState × Out) (hf : ∀ st a, f (body st a).1 = f st)
    (st : TaskState) (x : α)
    (hx : ∀ st', f st' = f st → (body st' x).1 = st' ∧ (body st' x).2.rows = [])
    (pre post : List α) :
    (forEach body st (pre ++ x :: post)).1 = (forEach body st (pre ++ post)).1 ∧
    (forEach body st (pre ++ x :: post)).2.rows = (forEach body st (pre ++ post)).2.rows := by
  have hpre : f (forEach body st pre).1 = f st := forEach_preserves f body hf st pre
  obtain ⟨h1, h2⟩ := hx _ hpre
  rw [forEach_append, forEach_append, forEach_cons]
  simp only [Out.rows_append]
  rw [h1, h2]
  simp

/-- C9: a `std::runtime_error` of the fitter never ends `fillTable` (only the
missing field does); a combination whose untracked or tracked fit throws
appends no row, and the loop over the tracks of the cascade ends with the
same members and the same rows as if that track were absent; a tracked
cascade whose proton-pion or V0-bachelor fit throws appends no row, and the
loop over the tracked cascades of the collision ends with the same members
and rows as if that cascade were absent. -/
theorem fit_runtime_error_is_contained (ext : Ext) (cfg : Config) (tracksExtMc : Bool)
    (mcParticles : Option (List McParticle)) :
    (∀ trackedCascades trackIndices st c,
      (processCollision ext cfg tracksExtMc mcParticles trackedCascades trackIndices st
        c).fatal = true ↔
        (st.runNumber ≠ c.bc.runNumber ∧ ext.getGRPObject c.bc.timestamp = none ∧
          ext.getGRPMagField c.bc.timestamp = none)) ∧
    (∀ ctx st pre trackId post,
      (untrackedOutcome ext cfg ctx st trackId = FitOutcome.runtimeError ∨
        trackedOutcome ext cfg ctx st trackId = FitOutcome.runtimeError) →
      (processTrack ext cfg tracksExtMc mcParticles ctx st trackId).2.rows = [] ∧
      (forEach (processTrack ext cfg tracksExtMc mcParticles ctx) st
          (pre ++ trackId :: post)).1 =
        (forEach (processTrack ext cfg tracksExtMc mcParticles ctx) st (pre ++ post)).1 ∧
      (forEach (processTrack ext cfg tracksExtMc mcParticles ctx) st
          (pre ++ trackId :: post)).2.rows =
        (forEach (processTrack ext cfg tracksExtMc mcParticles ctx) st (pre ++ post)).2.rows) ∧
    (∀ pv grouped st pre tc post,
      (prPiOutcome ext st tc = FitOutcome.runtimeError ∨
        ∃ r1, prPiOutcome ext st tc = FitOutcome.ok r1 ∧
          v0PiOutcome ext st tc r1 = FitOutcome.runtimeError) →
      (processCascade ext cfg tracksExtMc mcParticles pv grouped st tc).2.rows = [] ∧
      (forEach (processCascade ext cfg tracksExtMc mcParticles pv grouped) st
          (pre ++ tc :: post)).1 =
        (forEach (processCascade ext cfg tracksExtMc mcParticles pv grouped) st
          (pre ++ post)).1 ∧
      (forEach (processCascade ext cfg tracksExtMc mcParticles pv grouped) st
          (pre ++ tc :: post)).2.rows =
        (forEach (processCascade ext cfg tracksExtMc mcParticles pv grouped) st
          (pre ++ post)).2.rows) := by
  refine ⟨?_, ?_, ?_⟩
  · intro tcs tis st c
    rw [processCollision_fatal, updateRun_fatal_iff]
  · intro ctx st pre trackId post h
    refine ⟨(processTrack_of_fault _ _ _ _ _ _ _ h).2, ?_⟩
    refine forEach_skip TaskState.env _ (processTrack_env ext cfg tracksExtMc mcParticles ctx)
      st trackId ?_ pre post
    intro st' he
    refine processTrack_of_fault _ _ _ _ _ _ _ ?_
    rw [untrackedOutcome_congr _ _ _ _ _ _ he, trackedOutcome_congr _ _ _ _ _ _ he]
    exact h
  · intro pv grouped st pre tc post h
    refine ⟨(processCascade_of_fault _ _ _ _ _ _ _ _ h).2, ?_⟩
    refine forEach_skip TaskState.env _
      (processCascade_env ext cfg tracksExtMc mcParticles pv grouped) st tc ?_ pre post
    intro st' he
    refine processCascade_of_fault _ _ _ _ _ _ _ _ ?_
    rw [prPiOutcome_congr _ _ _ _ he]
    rcases h with h | ⟨r1, h1, h2⟩
    · exact Or.inl h
    · exact Or.inr ⟨r1, h1, by rw [v0PiOutcome_congr _ _ _ _ _ he]; exact h2⟩

/-- C9 on concrete loops: between two good pion candidates a candidate whose
fits throw leaves the two rows of the others unchanged; and after a good
tracked cascade a cascade whose proton-pion fit throws leaves its row unchanged. -/
theorem fit_runtime_error_is_contained_witness :
    (untrackedOutcome demoExt Config.default (demoCtx demoXCasc demoXPos (1672 / 1000) (13 / 10))
        (demoState 1) (demoFaultyPion 21) = FitOutcome.runtimeError ∧
      (forEach (processTrack demoExt Config.default false none
          (demoCtx demoXCasc demoXPos (1672 / 1000) (13 / 10))) (demoState 1)
          ([demoPion 20 (-1)] ++ demoFaultyPion 21 :: [demoPion 22 (-1)])).2.rows =
        (forEach (processTrack demoExt Config.default false none
          (demoCtx demoXCasc demoXPos (1672 / 1000) (13 / 10))) (demoState 1)
          ([demoPion 20 (-1)] ++ [demoPion 22 (-1)])).2.rows ∧
      (forEach (processTrack demoExt Config.default false none
          (demoCtx demoXCasc demoXPos (1672 / 1000) (13 / 10))) (demoState 1)
          ([demoPion 20 (-1)] ++ [demoPion 22 (-1)])).2.rows.length = 2) ∧
    (prPiOutcome demoExt (demoState 1) (demoCascade demoXCasc 77) = FitOutcome.runtimeError ∧
      (forEach (processCascade demoExt Config.default false none (0, 0, 0) [demoPion 20 (-1)])
          (demoState 1) ([demoCascade demoXCasc demoXPos] ++ demoCascade demoXCasc 77 :: [])).2.rows =
        (forEach (processCascade demoExt Config.default false none (0, 0, 0) [demoPion 20 (-1)])
          (demoState 1) ([demoCascade demoXCasc demoXPos] ++ [])).2.rows) := by
  have hu : untrackedOutcome demoExt Config.default
      (demoCtx demoXCasc demoXPos (1672 / 1000) (13 / 10)) (demoState 1) (demoFaultyPion 21)
        = FitOutcome.runtimeError := by
    simp [untrackedOutcome, demoExt, demoProcess, demoCtx, demoFaultyPion, goodTrack,
      getTrackParCov, propagate, Config.default, parOf]
  have hp : prPiOutcome demoExt (demoState 1) (demoCascade demoXCasc 77)
      = FitOutcome.runtimeError := by
    simp [prPiOutcome, demoExt, demoProcess, demoCascade, v0TrackPrOf, v0TrackPiOf, goodTrack,
      getTrackParCov, parOf]
  have h := fit_runtime_error_is_contained demoExt Config.default false none
  refine ⟨⟨hu, (h.2.1 _ _ _ _ _ (Or.inl hu)).2.2, ?_⟩, hp, (h.2.2 _ _ _ _ _ _ (Or.inl hp)).2.2⟩
  norm_num [forEach, processTrack, isCascadeDaughter, trackSelected, trackedFit, inBaryonWindow,
    propagate, demoExt, demoProcess, demoCtx, demoCascade, demoPion, demoState, goodTrack,
    Config.default, v0TrackPrOf, v0TrackPiOf, getTrackParCov, parOf, demoXPos, demoXCasc,
    motherGenIndex, Out.append, Out.ofFills, Out.nil, itsNClsMin, tpcNclsFindableFraction,
    tpcChi2NclMax, itsChi2NclMax, MassKPlus, MassPiPlus, MassOmegaMinus, MassXiMinus,
    MassOmegaC0, MassXiC0, TaskState.init, abs_lt]

/-! ### C10 -/

theorem Balanced.nil (A B : Prop) : Balanced A B [] := by
  refine ⟨fun s => ?_, fun _ s => ?_, fun _ s => ?_⟩ <;> simp

theorem Balanced.append {A B : Prop} {l1 l2 : List (Site × SVFitting)}
    (h1 : Balanced A B l1) (h2 : Balanced A B l2) : Balanced A B (l1 ++ l2) := by
  refine ⟨fun s => ?_, fun hA s => ?_, fun hB s => ?_⟩
  · have a := h1.1 s
    have b := h2.1 s
    simp only [List.count_append]
    omega
  · have a := h1.2.1 hA s
    have b := h2.2.1 hA s
    simp only [List.count_append]
    omega
  · have a := h1.2.2 hB s
    have b := h2.2.2 hB s
    simp only [List.count_append]
    omega

theorem Balanced.ok (A B : Prop) (site : Site) :
    Balanced A B [(site, SVFitting.BeforeFit), (site, SVFitting.FitOk)] := by
  refine ⟨fun s => ?_, fun _ s => ?_, fun _ s => ?_⟩ <;>
    cases s <;> cases site <;> decide

theorem Balanced.noCandidate {A B : Prop} (site : Site) (hA : ¬ A) :
    Balanced A B [(site, SVFitting.BeforeFit)] := by
  refine ⟨fun s => ?_, fun h => absurd h hA, fun _ s => ?_⟩ <;>
    cases s <;> cases site <;> decide

theorem Balanced.error {A B : Prop} (site : Site) (hB : ¬ B) :
    Balanced A B [(site, SVFitting.BeforeFit), (site, SVFitting.Fail)] := by
  refine ⟨fun s => ?_, fun _ s => ?_, fun h => absurd h hB⟩ <;>
    cases s <;> cases site <;> decide

theorem forEach_balanced {α : Type} (A B : Prop) (body : TaskState → α → TaskState × Out)
    (h : ∀ st a, Balanced A B (body st a).2.fills) (st : TaskState) (xs : List α) :
    Balanced A B (forEach body st xs).2.fills := by
  induction xs generalizing st with
  | nil => exact Balanced.nil A B
  | cons a as ih =>
    rw [forEach_cons]
    exact Balanced.append (h st a) (ih _)

theorem processTrack_balanced (ext : Ext) (cfg : Config) (tracksExtMc : Bool)
    (mcParticles : Option (List McParticle)) (ctx : CascCtx) (st : TaskState)
    (trackId : TrackAssoc) :
    Balanced (∀ bz a b, ext.process bz a b ≠ FitOutcome.noCandidate)
      (∀ bz a b, ext.process bz a b ≠ FitOutcome.runtimeError)
      (processTrack ext cfg tracksExtMc mcParticles ctx st trackId).2.fills := by
  by_cases hd : isCascadeDaughter ctx trackId.track
  · rw [processTrack_of_daughter _ _ _ _ _ _ _ hd]
    exact Balanced.nil _ _
  · by_cases hs : trackSelected cfg trackId.track
    · by_cases hu : untrackedOutcome ext cfg ctx st trackId = FitOutcome.runtimeError
      · rw [processTrack_of_untracked_error _ _ _ _ _ _ _ hd hs hu]
        exact Balanced.error _ (fun h => h _ _ _ hu)
      · cases ht : trackedOutcome ext cfg ctx st trackId with
        | ok r =>
          rw [processTrack_of_tracked_ok _ _ _ _ _ _ _ r hd hs hu ht]
          exact Balanced.ok _ _ _
        | noCandidate =>
          rw [processTrack_of_tracked_noCandidate _ _ _ _ _ _ _ hd hs hu ht]
          exact Balanced.noCandidate _ (fun h => h _ _ _ ht)
        | runtimeError =>
          rw [processTrack_of_tracked_error _ _ _ _ _ _ _ hd hs hu ht]
          exact Balanced.error _ (fun h => h _ _ _ ht)
    · rw [processTrack_of_unselected _ _ _ _ _ _ _ hs]
      exact Balanced.nil _ _

theorem processCascade_balanced (ext : Ext) (cfg : Config) (tracksExtMc : Bool)
    (mcParticles : Option (List McParticle)) (pv : Vec3) (grouped : List TrackAssoc)
    (st : TaskState) (tc : TrackedCascade) :
    Balanced (∀ bz a b, ext.process bz a b ≠ FitOutcome.noCandidate)
      (∀ bz a b, ext.process bz a b ≠ FitOutcome.runtimeError)
      (processCascade ext cfg tracksExtMc mcParticles pv grouped st tc).2.fills := by
  by_cases hc : lacksClusters cfg tc.cascade.v0.posTrack tc.cascade.v0.negTrack
      tc.cascade.bachelor
  · rw [processCascade_of_lacksClusters _ _ _ _ _ _ _ _ hc]
    exact Balanced.nil _ _
  · cases h1 : prPiOutcome ext st tc with
    | noCandidate =>
      rw [processCascade_of_prPi_noCandidate _ _ _ _ _ _ _ _ hc h1]
      exact Balanced.noCandidate _ (fun h => h _ _ _ h1)
    | runtimeError =>
      rw [processCascade_of_prPi_error _ _ _ _ _ _ _ _ hc h1]
      exact Balanced.error _ (fun h => h _ _ _ h1)
    | ok r1 =>
      cases h2 : v0PiOutcome ext st tc r1 with
      | noCandidate =>
        rw [processCascade_of_v0Pi_noCandidate _ _ _ _ _ _ _ _ r1 hc h1 h2]
        exact Balanced.append (Balanced.ok _ _ Site.PrPi)
          (Balanced.noCandidate Site.V0Pi (fun h => h _ _ _ h2))
      | runtimeError =>
        rw [processCascade_of_v0Pi_error _ _ _ _ _ _ _ _ r1 hc h1 h2]
        exact Balanced.append (Balanced.ok _ _ Site.PrPi)
          (Balanced.error Site.V0Pi (fun h => h _ _ _ h2))
      | ok r2 =>
        rw [processCascade_of_fits_ok _ _ _ _ _ _ _ _ r1 r2 hc h1 h2]
        refine Balanced.append
          (Balanced.append (Balanced.ok _ _ Site.PrPi) (Balanced.ok _ _ Site.V0Pi)) ?_
        unfold pairWithTracks
        split_ifs
        · exact forEach_balanced _ _ _
            (processTrack_balanced ext cfg tracksExtMc mcParticles _) _ _
        · exact Balanced.nil _ _
        · exact Balanced.nil _ _

theorem fillTable_balanced (ext : Ext) (cfg : Config) (tracksExtMc : Bool)
    (mcParticles : Option (List McParticle)) (tcs : List TrackedCascade)
    (tis : List TrackAssoc) (st : TaskState) (cs : List Collision) :
    Balanced (∀ bz a b, ext.process bz a b ≠ FitOutcome.noCandidate)
      (∀ bz a b, ext.process bz a b ≠ FitOutcome.runtimeError)
      (fillTable ext cfg tracksExtMc mcParticles tcs tis st cs).out.fills := by
  have hpc : ∀ st c, Balanced (∀ bz a b, ext.process bz a b ≠ FitOutcome.noCandidate)
      (∀ bz a b, ext.process bz a b ≠ FitOutcome.runtimeError)
      (processCollision ext cfg tracksExtMc mcParticles tcs tis st c).out.fills := by
    intro st c
    cases h : (updateRun ext cfg st c.bc).2.2 with
    | true =>
      rw [processCollision_of_fatal _ _ _ _ _ _ _ _ h]
      exact Balanced.nil _ _
    | false =>
      rw [processCollision_of_not_fatal _ _ _ _ _ _ _ _ h]
      exact Balanced.append (Balanced.nil _ _) (forEach_balanced _ _ _
        (processCascade_balanced ext cfg tracksExtMc mcParticles _ _) _ _)
  induction cs generalizing st with
  | nil => exact Balanced.nil _ _
  | cons c cs ih =>
    cases hf : (processCollision ext cfg tracksExtMc mcParticles tcs tis st c).fatal with
    | true =>
      rw [fillTable_cons_of_fatal _ _ _ _ _ _ _ _ _ hf]
      exact hpc st c
    | false =>
      rw [fillTable_cons_of_not_fatal _ _ _ _ _ _ _ _ _ hf]
      exact Balanced.append (hpc st c) (ih _)

/-- C10, as stated, fails: the run below makes one proton-pion fit, which
returns no candidate; the counter `hCandidatesPrPi` then holds one `BeforeFit`
entry and neither a `Fail` nor a `FitOk` entry. -/
theorem false_return_is_not_counted_as_fail :
    prPiOutcome demoExt (demoState 1) (demoCascade demoXCasc 78) = FitOutcome.noCandidate ∧
    (fillTable demoExt Config.default false none [demoCascade demoXCasc 78]
      [demoPion 20 (-1)] TaskState.init [demoCollision 0 1]).out.count
        Site.PrPi SVFitting.BeforeFit = 1 ∧
    (fillTable demoExt Config.default false none [demoCascade demoXCasc 78]
      [demoPion 20 (-1)] TaskState.init [demoCollision 0 1]).out.count
        Site.PrPi SVFitting.Fail = 0 ∧
    (fillTable demoExt Config.default false none [demoCascade demoXCasc 78]
      [demoPion 20 (-1)] TaskState.init [demoCollision 0 1]).out.count
        Site.PrPi SVFitting.FitOk = 0 := by
  have hrun : (fillTable demoExt Config.default false none [demoCascade demoXCasc 78]
      [demoPion 20 (-1)] TaskState.init [demoCollision 0 1]).out.fills
        = [(Site.PrPi, SVFitting.BeforeFit)] := by
    norm_num [fillTable, processCollision, updateRun, demoExt, demoCollision, TaskState.init,
      groupedTrackIdsOf, groupedTrackedCascadesOf, demoCascade, demoPion, forEach,
      processCascade, lacksClusters, goodTrack, Config.default, v0TrackPrOf, v0TrackPiOf,
      demoProcess, getTrackParCov, parOf, Out.append, Out.ofFills, Out.nil]
  refine ⟨?_, ?_, ?_, ?_⟩
  · norm_num [prPiOutcome, demoExt, demoProcess, demoCascade, v0TrackPrOf, v0TrackPiOf, goodTrack,
      getTrackParCov, parOf]
  · rw [Out.count, hrun]; decide
  · rw [Out.count, hrun]; decide
  · rw [Out.count, hrun]; decide

/-- C10, amended: after `fillTable` has processed any input, at each of the
three call sites the `Fail` and `FitOk` entries together are at most the
`BeforeFit` entries; they are equal to them when no call of the fitter returns
zero candidates (a fit that returns zero candidates is counted in `BeforeFit`
only); and `Fail` has no entry when no call of the fitter throws (it counts
runtime errors only). -/
theorem counter_accounting (ext : Ext) (cfg : Config) (tracksExtMc : Bool)
    (mcParticles : Option (List McParticle)) (trackedCascades : List TrackedCascade)
    (trackIndices : List TrackAssoc) (st : TaskState) (collisions : List Collision) :
    (∀ s, (fillTable ext cfg tracksExtMc mcParticles trackedCascades trackIndices st
          collisions).out.count s SVFitting.Fail +
        (fillTable ext cfg tracksExtMc mcParticles trackedCascades trackIndices st
          collisions).out.count s SVFitting.FitOk ≤
        (fillTable ext cfg tracksExtMc mcParticles trackedCascades trackIndices st
          collisions).out.count s SVFitting.BeforeFit) ∧
    ((∀ bz a b, ext.process bz a b ≠ FitOutcome.noCandidate) →
      ∀ s, (fillTable ext cfg tracksExtMc mcParticles trackedCascades trackIndices st
          collisions).out.count s SVFitting.BeforeFit =
        (fillTable ext cfg tracksExtMc mcParticles trackedCascades trackIndices st
          collisions).out.count s SVFitting.Fail +
        (fillTable ext cfg tracksExtMc mcParticles trackedCascades trackIndices st
          collisions).out.count s SVFitting.FitOk) ∧
    ((∀ bz a b, ext.process bz a b ≠ FitOutcome.runtimeError) →
      ∀ s, (fillTable ext cfg tracksExtMc mcParticles trackedCascades trackIndices st
          collisions).out.count s SVFitting.Fail = 0) :=
  fillTable_balanced ext cfg tracksExtMc mcParticles trackedCascades trackIndices st collisions

/-- C10, amended, on concrete inputs: with a fitter that never returns zero
candidates and never throws, the run with one cascade and one pion candidate
has equal counts at every site and no `Fail` entry. -/
theorem counter_accounting_witness :
    (∀ s, (fillTable { demoExt with process := fun _ a b => FitOutcome.ok (demoFit a.x b.x) }
          Config.default false none [demoCascade demoXCasc demoXPos] [demoPion 20 (-1)]
          TaskState.init [demoCollision 0 1]).out.count s SVFitting.BeforeFit =
        (fillTable { demoExt with process := fun _ a b => FitOutcome.ok (demoFit a.x b.x) }
          Config.default false none [demoCascade demoXCasc demoXPos] [demoPion 20 (-1)]
          TaskState.init [demoCollision 0 1]).out.count s SVFitting.Fail +
        (fillTable { demoExt with process := fun _ a b => FitOutcome.ok (demoFit a.x b.x) }
          Config.default false none [demoCascade demoXCasc demoXPos] [demoPion 20 (-1)]
          TaskState.init [demoCollision 0 1]).out.count s SVFitting.FitOk) ∧
    (∀ s, (fillTable { demoExt with process := fun _ a b => FitOutcome.ok (demoFit a.x b.x) }
          Config.default false none [demoCascade demoXCasc demoXPos] [demoPion 20 (-1)]
          TaskState.init [demoCollision 0 1]).out.count s SVFitting.Fail = 0) :=
  ⟨(counter_accounting { demoExt with process := fun _ a b => FitOutcome.ok (demoFit a.x b.x) }
      Config.default false none [demoCascade demoXCasc demoXPos] [demoPion 20 (-1)]
      TaskState.init [demoCollision 0 1]).2.1 (fun _ _ _ h => FitOutcome.noConfusion h),
    (counter_accounting { demoExt with process := fun _ a b => FitOutcome.ok (demoFit a.x b.x) }
      Config.default false none [demoCascade demoXCasc demoXPos] [demoPion 20 (-1)]
      TaskState.init [demoCollision 0 1]).2.2 (fun _ _ _ h => FitOutcome.noConfusion h)⟩

/-! ### C5 and C6: the members that the truth match never resets -/

theorem demo_processMc :
    (processMc demoExtMc TaskState.init demoMcTable).1 =
      { TaskState.init with decayChannel := 1, origin := 1, mapMcPartToGenTable := [(0, 0)] } :=
  rfl

theorem demo_processMc_noCharm :
    (processMc demoExtMc TaskState.init demoMcTableNoCharm).1 = TaskState.init := rfl

theorem demo_processMc_noCharm_after :
    (processMc demoExtMc (processMc demoExtMc TaskState.init demoMcTable).1
      demoMcTableNoCharm).1 = { TaskState.init with decayChannel := 1, origin := 1 } := rfl

theorem demo_mcAt_1 : mcAt demoMcTable 1 = some (demoParticle 1 3334 [0] [3, 4]) := rfl

theorem demo_mcAt_2 : mcAt demoMcTable 2 = some (demoParticle 2 211 [0] []) := rfl

theorem demo_mcAt_7 : mcAt demoMcTable 7 = some (demoParticle 7 211 [] []) := rfl

theorem demo_mcAt_noCharm_neg : mcAt demoMcTableNoCharm (-1) = none := rfl

theorem demo_mcAt_noCharm_0 : mcAt demoMcTableNoCharm 0 = some (demoParticle 0 211 [] []) := rfl

/-- What the three layers leave in `isMatched`: it is true afterwards exactly
when it was true before or all three calls of `getMatchedMCRec` returned an
index; nothing sets it back to false. -/
theorem matchChain_isMatched (ext : Ext) (mcp : List McParticle) (casc : Cascade)
    (track : Track) (pdgPartner : Int) (st : TaskState) :
    (matchChain ext mcp casc track pdgPartner st).isMatched = true ↔
      (st.isMatched = true ∨
        (ext.getMatchedMCRec mcp [track, casc.bachelor, casc.v0.posTrack, casc.v0.negTrack]
            kOmegaC0 [pdgPartner, kKMinus, kProton, kPiMinus] 3
            [false, true, false, true, false] > -1 ∧
          ext.getMatchedMCRec mcp [casc.bachelor, casc.v0.posTrack, casc.v0.negTrack]
            kOmegaMinus [kKMinus, kProton, kPiMinus] 2 [false, true, false, true, true] > -1 ∧
          ext.getMatchedMCRec mcp [casc.v0.posTrack, casc.v0.negTrack]
            kLambda0 [kProton, kPiMinus] 1 [false, true, false, true, true] > -1)) := by
  unfold matchChain
  simp only
  split_ifs with h1 h2 h3
  · simp [h1, h2, h3]
  · simp [h1, h2, h3]
  · simp [h1, h2]
  · simp [h1]

/-- C5 at the failing input `demoMcRun`: the baryon-layer call of
`getMatchedMCRec` for the second candidate (the primary pion) returns -1, and
it is what `indexRecCharmBaryon` holds when `fillTable` returns; both
candidates are emitted; yet `isMatched` is true, left over from the first
candidate, although the same second candidate processed alone leaves it false. -/
theorem isMatched_is_left_over_from_earlier_candidate :
    demoExtMc.getMatchedMCRec demoMcTable
      [(demoPion 21 7).track, (demoCascadeMc 1 4 5 6).cascade.bachelor,
        (demoCascadeMc 1 4 5 6).cascade.v0.posTrack, (demoCascadeMc 1 4 5 6).cascade.v0.negTrack]
      kOmegaC0 [kPiPlus, kKMinus, kProton, kPiMinus] 3 [false, true, false, true, false] = -1 ∧
    demoMcRun.out.rows.length = 2 ∧
    demoMcRun.st.indexRecCharmBaryon = -1 ∧
    demoMcRun.st.isMatched = true ∧
    demoMcRunAlone.out.rows.length = 1 ∧
    demoMcRunAlone.st.isMatched = false := by
  refine ⟨by decide, ?_, ?_, ?_, ?_, ?_⟩
  all_goals
    simp only [demoMcRun, demoMcRunAlone, demo_processMc]
    norm_num [processMcRec, demo_mcAt_1, demo_mcAt_2, demo_mcAt_7,
      fillTable, processCollision, updateRun, demoExt, demoExtMc, demoCollision, TaskState.init,
      groupedTrackIdsOf, groupedTrackedCascadesOf, demoCascadeMc, demoPion, forEach,
      processCascade, lacksClusters, goodTrack, Config.default, v0TrackPrOf, v0TrackPiOf,
      demoProcess, getTrackParCov, parOf, demoXPos, demoXCasc, cascadeFit, pairWithTracks,
      mkCascCtx, inCascadeWindow, cascadePidOk, processTrack, isCascadeDaughter, trackSelected,
      trackedFit, inBaryonWindow, propagate, getPrimaryVertex, motherGenIndex, Out.append,
      Out.ofFills, Out.nil, itsNClsMin, tpcNclsFindableFraction, tpcChi2NclMax, itsChi2NclMax,
      MassLambda0, MassKPlus, MassPiPlus, MassOmegaMinus, MassXiMinus, MassOmegaC0, MassXiC0,
      MassProton, MassPiMinus, abs_lt, collisionFilter, mcRecMatch, mcRecMatchLayers, matchChain,
      demoMatch, mkRow, demoParticle, kOmegaC0, kXiC0, kOmegaMinus, kXiMinus, kPiPlus, kKPlus,
      OmegaczeroToOmegaPi, OmegaczeroToOmegaK, kKMinus, kProton, kPiMinus, kLambda0, List.lookup]

/-- C6 at the failing input: the same data frame (same collision, same tracks,
same generated particles, none of them charmed) gives the candidate
`originMcRec = 0` when it is the first one processed and `originMcRec = 1`
when `processMc` has seen a data frame with an Omega_c0 decay before. -/
theorem originMcRec_depends_on_earlier_data_frame :
    demoRunFresh.out.rows.map (fun r => r.originMcRec) = [0] ∧
    demoRunAfterCharm.out.rows.map (fun r => r.originMcRec) = [1] := by
  constructor
  · simp only [demoRunFresh, demo_processMc_noCharm]
    norm_num [processMcRec, demo_mcAt_noCharm_neg, demo_mcAt_noCharm_0,
      fillTable, processCollision, updateRun, demoExt, demoExtMc, demoCollision, TaskState.init,
      groupedTrackIdsOf, groupedTrackedCascadesOf, demoCascadeMc, demoPion, forEach,
      processCascade, lacksClusters, goodTrack, Config.default, v0TrackPrOf, v0TrackPiOf,
      demoProcess, getTrackParCov, parOf, demoXPos, demoXCasc, cascadeFit, pairWithTracks,
      mkCascCtx, inCascadeWindow, cascadePidOk, processTrack, isCascadeDaughter, trackSelected,
      trackedFit, inBaryonWindow, propagate, getPrimaryVertex, motherGenIndex, Out.append,
      Out.ofFills, Out.nil, itsNClsMin, tpcNclsFindableFraction, tpcChi2NclMax, itsChi2NclMax,
      MassLambda0, MassKPlus, MassPiPlus, MassOmegaMinus, MassXiMinus, MassOmegaC0, MassXiC0,
      MassProton, MassPiMinus, abs_lt, collisionFilter, mcRecMatch, mcRecMatchLayers, matchChain,
      demoMatch, mkRow, demoParticle, kOmegaC0, kXiC0, kOmegaMinus, kXiMinus, kPiPlus, kKPlus,
      OmegaczeroToOmegaPi, OmegaczeroToOmegaK, kKMinus, kProton, kPiMinus, kLambda0, List.lookup]
  · simp only [demoRunAfterCharm, demo_processMc_noCharm_after]
    norm_num [processMcRec, demo_mcAt_noCharm_neg, demo_mcAt_noCharm_0,
      fillTable, processCollision, updateRun, demoExt, demoExtMc, demoCollision, TaskState.init,
      groupedTrackIdsOf, groupedTrackedCascadesOf, demoCascadeMc, demoPion, forEach,
      processCascade, lacksClusters, goodTrack, Config.default, v0TrackPrOf, v0TrackPiOf,
      demoProcess, getTrackParCov, parOf, demoXPos, demoXCasc, cascadeFit, pairWithTracks,
      mkCascCtx, inCascadeWindow, cascadePidOk, processTrack, isCascadeDaughter, trackSelected,
      trackedFit, inBaryonWindow, propagate, getPrimaryVertex, motherGenIndex, Out.append,
      Out.ofFills, Out.nil, itsNClsMin, tpcNclsFindableFraction, tpcChi2NclMax, itsChi2NclMax,
      MassLambda0, MassKPlus, MassPiPlus, MassOmegaMinus, MassXiMinus, MassOmegaC0, MassXiC0,
      MassProton, MassPiMinus, abs_lt, collisionFilter, mcRecMatch, mcRecMatchLayers, matchChain,
      demoMatch, mkRow, demoParticle, kOmegaC0, kXiC0, kOmegaMinus, kXiMinus, kPiPlus, kKPlus,
      OmegaczeroToOmegaPi, OmegaczeroToOmegaK, kKMinus, kProton, kPiMinus, kLambda0, List.lookup]

/-! ### The full history of an emitted row -/

/-- Every row of `fillTable` is the row `rowOf` of a combination of a tracked
cascade and an associated track grouped to one collision of the input: the
cascade has its clusters, its two fits succeeded, it passed the cascade window
and the PID test; the track is no cascade daughter and is selected; the
untracked fit did not throw, the tracked fit succeeded with a mass inside a
window. -/
theorem fillTable_row_origin (ext : Ext) (cfg : Config) (tracksExtMc : Bool)
    (mcParticles : Option (List McParticle)) (tcs : List TrackedCascade)
    (tis : List TrackAssoc) (st : TaskState) (cs : List Collision) (row : Row)
    (h : row ∈ (fillTable ext cfg tracksExtMc mcParticles tcs tis st cs).out.rows) :
    ∃ c, c ∈ cs ∧ ∃ tc, tc ∈ groupedTrackedCascadesOf tcs c.globalIndex ∧
    ∃ trackId, trackId ∈ groupedTrackIdsOf tis c.globalIndex ∧
    ∃ st0 st' r1 r2 r,
      ¬ lacksClusters cfg tc.cascade.v0.posTrack tc.cascade.v0.negTrack tc.cascade.bachelor ∧
      prPiOutcome ext st0 tc = FitOutcome.ok r1 ∧
      v0PiOutcome ext st0 tc r1 = FitOutcome.ok r2 ∧
      inCascadeWindow cfg
        (cascCtxOf ext cfg tracksExtMc mcParticles (getPrimaryVertex c) st0 tc r1 r2).massOmega
        (cascCtxOf ext cfg tracksExtMc mcParticles (getPrimaryVertex c) st0 tc r1 r2).massXi ∧
      cascadePidOk cfg tc.cascade.bachelor (v0TrackPrOf tc) (v0TrackPiOf tc) ∧
      ¬ isCascadeDaughter
        (cascCtxOf ext cfg tracksExtMc mcParticles (getPrimaryVertex c) st0 tc r1 r2)
        trackId.track ∧
      trackSelected cfg trackId.track ∧
      untrackedOutcome ext cfg
        (cascCtxOf ext cfg tracksExtMc mcParticles (getPrimaryVertex c) st0 tc r1 r2) st'
        trackId ≠ FitOutcome.runtimeError ∧
      trackedOutcome ext cfg
        (cascCtxOf ext cfg tracksExtMc mcParticles (getPrimaryVertex c) st0 tc r1 r2) st'
        trackId = FitOutcome.ok r ∧
      fitInWindow ext cfg r ∧
      row = rowOf ext cfg tracksExtMc mcParticles
        (cascCtxOf ext cfg tracksExtMc mcParticles (getPrimaryVertex c) st0 tc r1 r2) st'
        trackId r := by
  obtain ⟨c, hc, tc, htc, st0, hrow⟩ := fillTable_rows_mem _ _ _ _ _ _ _ _ _ h
  obtain ⟨hcl, r1, r2, h1, h2, hw, hp, st', trackId, ht, _, hr⟩ :=
    processCascade_rows_mem _ _ _ _ _ _ _ _ _ hrow
  obtain ⟨hd, hs, hu, r, htr, hfw, hrow'⟩ := processTrack_rows_mem _ _ _ _ _ _ _ _ hr
  exact ⟨c, hc, tc, htc, trackId, ht, st0, st', r1, r2, r, hcl, h1, h2, hw, hp, hd, hs, hu,
    htr, hfw, hrow'⟩

/-- The concrete run `demo_fillTable_rows_length` has a row. -/
theorem demo_fillTable_has_row :
    ∃ row, row ∈ (fillTable demoExt Config.default false none [demoCascade demoXCasc demoXPos]
      [demoPion 20 (-1)] TaskState.init [demoCollision 0 1]).out.rows := by
  obtain ⟨row, hrow⟩ := List.length_eq_one.mp demo_fillTable_rows_length
  exact ⟨row, by rw [hrow]; exact List.mem_singleton_self row⟩

/-! ### C12 -/

/-- C12, as stated, fails: the bachelor of the tracked cascade below is
positive and its cascade track negative; the proton-hypothesis track is the
positive V0 daughter, not the negative one, and the emitted row carries the
positive daughter's proton score. -/
theorem proton_role_ignores_bachelor_sign :
    ¬ (demoCascadeSigns (-1) 1).cascade.bachelor.sign < 0 ∧
    v0TrackPrOf (demoCascadeSigns (-1) 1) = (demoCascadeSigns (-1) 1).cascade.v0.posTrack ∧
    v0TrackPrOf (demoCascadeSigns (-1) 1) ≠ (demoCascadeSigns (-1) 1).cascade.v0.negTrack ∧
    (fillTable demoExt Config.default false none [demoCascadeSigns (-1) 1]
      [demoPion 20 (-1)] TaskState.init [demoCollision 0 1]).out.rows.map
        (fun r => r.nSigmaTpcV0Pr) = [1] := by
  refine ⟨by simp [demoCascadeSigns, goodTrack], by simp [v0TrackPrOf, demoCascadeSigns, goodTrack],
    by simp [v0TrackPrOf, demoCascadeSigns, goodTrack], ?_⟩
  norm_num [fillTable, processCollision, updateRun, demoExt, demoCollision, TaskState.init,
    groupedTrackIdsOf, groupedTrackedCascadesOf, demoCascadeSigns, demoPion, forEach,
    processCascade, lacksClusters, goodTrack, Config.default, v0TrackPrOf, v0TrackPiOf,
    demoProcess, getTrackParCov, parOf, demoXPos, demoXCasc, cascadeFit, pairWithTracks,
    mkCascCtx, inCascadeWindow, cascadePidOk, processTrack, isCascadeDaughter, trackSelected,
    trackedFit, inBaryonWindow, propagate, getPrimaryVertex, motherGenIndex, Out.append,
    Out.ofFills, Out.nil, itsNClsMin, tpcNclsFindableFraction, tpcChi2NclMax, itsChi2NclMax,
    MassLambda0, MassKPlus, MassPiPlus, MassOmegaMinus, MassXiMinus, MassOmegaC0, MassXiC0,
    MassProton, MassPiMinus, abs_lt, mkRow]

/-- C12, amended: the roles of the two V0 daughters are selected by the sign of
the tracked cascade's track: for every row emitted by `fillTable` there is a
tracked cascade of the input whose proton-pion fit was made on, and whose row
carries the scores of, the positive daughter as proton and the negative one as
pion exactly when the cascade track's sign is negative, and the other way
round otherwise; this is the selection by the bachelor's sign whenever the
bachelor's sign is negative exactly when the cascade track's is. -/
theorem v0_roles_follow_cascade_track_sign (ext : Ext) (cfg : Config) (tracksExtMc : Bool)
    (mcParticles : Option (List McParticle)) (trackedCascades : List TrackedCascade)
    (trackIndices : List TrackAssoc) (st : TaskState) (collisions : List Collision) (row : Row)
    (h : row ∈ (fillTable ext cfg tracksExtMc mcParticles trackedCascades trackIndices st
      collisions).out.rows) :
    (∃ c, c ∈ collisions ∧ ∃ tc, tc ∈ groupedTrackedCascadesOf trackedCascades c.globalIndex ∧
      (∃ (st0 : TaskState) (r1 : FitResult), ext.process st0.dfBz
          (getTrackParCov (if tc.track.sign < 0 then tc.cascade.v0.posTrack
            else tc.cascade.v0.negTrack))
          (getTrackParCov (if tc.track.sign < 0 then tc.cascade.v0.negTrack
            else tc.cascade.v0.posTrack)) = FitOutcome.ok r1) ∧
      row.nSigmaTpcV0Pr = (if tc.track.sign < 0 then tc.cascade.v0.posTrack
        else tc.cascade.v0.negTrack).tpcNSigmaPr ∧
      row.nSigmaTofV0Pr = (if tc.track.sign < 0 then tc.cascade.v0.posTrack
        else tc.cascade.v0.negTrack).tofNSigmaPr ∧
      row.nSigmaTpcV0Pi = (if tc.track.sign < 0 then tc.cascade.v0.negTrack
        else tc.cascade.v0.posTrack).tpcNSigmaPi ∧
      row.nSigmaTofV0Pi = (if tc.track.sign < 0 then tc.cascade.v0.negTrack
        else tc.cascade.v0.posTrack).tofNSigmaPi) ∧
    (∀ tc : TrackedCascade, (tc.cascade.bachelor.sign < 0 ↔ tc.track.sign < 0) →
      v0TrackPrOf tc = (if tc.cascade.bachelor.sign < 0 then tc.cascade.v0.posTrack
        else tc.cascade.v0.negTrack) ∧
      v0TrackPiOf tc = (if tc.cascade.bachelor.sign < 0 then tc.cascade.v0.negTrack
        else tc.cascade.v0.posTrack)) := by
  constructor
  · obtain ⟨c, hc, tc, htc, trackId, _, st0, st', r1, r2, r, _, h1, _, _, _, _, _, _, _, _, hrow⟩ :=
      fillTable_row_origin _ _ _ _ _ _ _ _ _ h
    refine ⟨c, hc, tc, htc, ⟨st0, r1, h1⟩, ?_, ?_, ?_, ?_⟩ <;>
      simp [hrow, rowOf, mkRow, cascCtxOf, mkCascCtx, v0TrackPrOf, v0TrackPiOf]
  · intro tc hs
    by_cases hb : tc.cascade.bachelor.sign < 0
    · simp [v0TrackPrOf, v0TrackPiOf, hb, hs.mp hb]
    · have ht : ¬ tc.track.sign < 0 := fun ht => hb (hs.mpr ht)
      simp [v0TrackPrOf, v0TrackPiOf, hb, ht]

/-- The amended C12 on the concrete run with one emitted row. -/
theorem v0_roles_follow_cascade_track_sign_witness :
    ∃ row, row ∈ (fillTable demoExt Config.default false none [demoCascade demoXCasc demoXPos]
        [demoPion 20 (-1)] TaskState.init [demoCollision 0 1]).out.rows ∧
      ∃ c, c ∈ [demoCollision 0 1] ∧
      ∃ tc, tc ∈ groupedTrackedCascadesOf [demoCascade demoXCasc demoXPos] c.globalIndex ∧
      (∃ (st0 : TaskState) (r1 : FitResult), demoExt.process st0.dfBz
          (getTrackParCov (if tc.track.sign < 0 then tc.cascade.v0.posTrack
            else tc.cascade.v0.negTrack))
          (getTrackParCov (if tc.track.sign < 0 then tc.cascade.v0.negTrack
            else tc.cascade.v0.posTrack)) = FitOutcome.ok r1) ∧
      row.nSigmaTpcV0Pr = (if tc.track.sign < 0 then tc.cascade.v0.posTrack
        else tc.cascade.v0.negTrack).tpcNSigmaPr ∧
      row.nSigmaTofV0Pr = (if tc.track.sign < 0 then tc.cascade.v0.posTrack
        else tc.cascade.v0.negTrack).tofNSigmaPr ∧
      row.nSigmaTpcV0Pi = (if tc.track.sign < 0 then tc.cascade.v0.negTrack
        else tc.cascade.v0.posTrack).tpcNSigmaPi ∧
      row.nSigmaTofV0Pi = (if tc.track.sign < 0 then tc.cascade.v0.negTrack
        else tc.cascade.v0.posTrack).tofNSigmaPi := by
  obtain ⟨row, hmem⟩ := demo_fillTable_has_row
  exact ⟨row, hmem, (v0_roles_follow_cascade_track_sign demoExt Config.default false none
    [demoCascade demoXCasc demoXPos] [demoPion 20 (-1)] TaskState.init [demoCollision 0 1]
    row hmem).1⟩

/-! ### C13 -/

/-- C13: a tracked cascade one of whose three daughter tracks (V0 positive,
V0 negative, bachelor) has no TPC information or fewer findable TPC clusters
than `minNoClsTrackedCascade` is skipped with nothing done: no counter entry
(so no fit attempted), no row, members unchanged. -/
theorem cascade_lacking_clusters_is_skipped (ext : Ext) (cfg : Config) (tracksExtMc : Bool)
    (mcParticles : Option (List McParticle)) (primaryVertex : Vec3)
    (groupedTrackIds : List TrackAssoc) (st : TaskState) (tc : TrackedCascade)
    (h : tc.cascade.v0.posTrack.hasTPC = false ∨ tc.cascade.v0.negTrack.hasTPC = false ∨
      tc.cascade.bachelor.hasTPC = false ∨
      tc.cascade.v0.posTrack.tpcNClsFindable < cfg.minNoClsTrackedCascade ∨
      tc.cascade.v0.negTrack.tpcNClsFindable < cfg.minNoClsTrackedCascade ∨
      tc.cascade.bachelor.tpcNClsFindable < cfg.minNoClsTrackedCascade) :
    processCascade ext cfg tracksExtMc mcParticles primaryVertex groupedTrackIds st tc
        = (st, Out.nil) ∧
    (processCascade ext cfg tracksExtMc mcParticles primaryVertex groupedTrackIds st tc).2.fills
        = [] ∧
    (processCascade ext cfg tracksExtMc mcParticles primaryVertex groupedTrackIds st tc).2.rows
        = [] := by
  have hc : lacksClusters cfg tc.cascade.v0.posTrack tc.cascade.v0.negTrack
      tc.cascade.bachelor := h
  rw [processCascade_of_lacksClusters _ _ _ _ _ _ _ _ hc]
  exact ⟨rfl, rfl, rfl⟩

/-- C13 on a tracked cascade whose bachelor has no TPC information, with a
pion candidate grouped to it. -/
theorem cascade_lacking_clusters_is_skipped_witness :
    demoCascadeNoTpc.cascade.bachelor.hasTPC = false ∧
    (processCascade demoExt Config.default false none (0, 0, 0) [demoPion 20 (-1)]
      (demoState 1) demoCascadeNoTpc).2.fills = [] ∧
    (processCascade demoExt Config.default false none (0, 0, 0) [demoPion 20 (-1)]
      (demoState 1) demoCascadeNoTpc).2.rows = [] :=
  ⟨rfl, (cascade_lacking_clusters_is_skipped demoExt Config.default false none (0, 0, 0)
    [demoPion 20 (-1)] (demoState 1) demoCascadeNoTpc (Or.inr (Or.inr (Or.inl rfl)))).2⟩

/-! ### C14 -/

/-- C14: the cascade masses of every row emitted by `fillTable` satisfy
`|massOmega - M(Omega-)| < massWindowTrackedOmega` or
`|massXi - M(Xi-)| < massWindowTrackedXi`; and a cascade that fails both tests
is paired with no track: the loop over the tracks is not entered, nothing is
appended, members unchanged. -/
theorem emitted_cascade_mass_in_window (ext : Ext) (cfg : Config) (tracksExtMc : Bool)
    (mcParticles : Option (List McParticle)) (trackedCascades : List TrackedCascade)
    (trackIndices : List TrackAssoc) (st : TaskState) (collisions : List Collision) (row : Row)
    (h : row ∈ (fillTable ext cfg tracksExtMc mcParticles trackedCascades trackIndices st
      collisions).out.rows) :
    (|row.massOmega - MassOmegaMinus| < cfg.massWindowTrackedOmega ∨
      |row.massXi - MassXiMinus| < cfg.massWindowTrackedXi) ∧
    (∀ groupedTrackIds st' ctx,
      ¬ (|ctx.massOmega - MassOmegaMinus| < cfg.massWindowTrackedOmega ∨
        |ctx.massXi - MassXiMinus| < cfg.massWindowTrackedXi) →
      pairWithTracks ext cfg tracksExtMc mcParticles groupedTrackIds st' ctx = (st', Out.nil)) := by
  constructor
  · obtain ⟨c, _, tc, _, trackId, _, st0, st', r1, r2, r, _, _, _, hw, _, _, _, _, _, _, hrow⟩ :=
      fillTable_row_origin _ _ _ _ _ _ _ _ _ h
    have h1 : row.massOmega =
        (cascCtxOf ext cfg tracksExtMc mcParticles (getPrimaryVertex c) st0 tc r1 r2).massOmega := by
      rw [hrow]; rfl
    have h2 : row.massXi =
        (cascCtxOf ext cfg tracksExtMc mcParticles (getPrimaryVertex c) st0 tc r1 r2).massXi := by
      rw [hrow]; rfl
    rw [h1, h2]
    exact hw
  · intro grouped st' ctx hn
    have hn' : ¬ inCascadeWindow cfg ctx.massOmega ctx.massXi := hn
    simp [pairWithTracks, hn']

/-- C14 on the concrete run with one emitted row. -/
theorem emitted_cascade_mass_in_window_witness :
    ∃ row, row ∈ (fillTable demoExt Config.default false none [demoCascade demoXCasc demoXPos]
        [demoPion 20 (-1)] TaskState.init [demoCollision 0 1]).out.rows ∧
      (|row.massOmega - MassOmegaMinus| < Config.default.massWindowTrackedOmega ∨
        |row.massXi - MassXiMinus| < Config.default.massWindowTrackedXi) := by
  obtain ⟨row, hmem⟩ := demo_fillTable_has_row
  exact ⟨row, hmem, (emitted_cascade_mass_in_window demoExt Config.default false none
    [demoCascade demoXCasc demoXPos] [demoPion 20 (-1)] TaskState.init [demoCollision 0 1]
    row hmem).1⟩

/-! ### C15 -/

/-- C15: every row emitted by `fillTable` carries TPC scores of the cascade
daughters that pass the PID cuts: the bachelor's kaon or pion score, the V0
proton track's proton score and the V0 pion track's pion score are below
`maxNSigmaBachelor`, `maxNSigmaV0Pr` and `maxNSigmaV0Pi` in absolute value;
the scores in the row are those of the bachelor and of the two V0 role tracks
of a tracked cascade of the input. -/
theorem emitted_cascade_daughters_pass_pid (ext : Ext) (cfg : Config) (tracksExtMc : Bool)
    (mcParticles : Option (List McParticle)) (trackedCascades : List TrackedCascade)
    (trackIndices : List TrackAssoc) (st : TaskState) (collisions : List Collision) (row : Row)
    (h : row ∈ (fillTable ext cfg tracksExtMc mcParticles trackedCascades trackIndices st
      collisions).out.rows) :
    ∃ c, c ∈ collisions ∧ ∃ tc, tc ∈ groupedTrackedCascadesOf trackedCascades c.globalIndex ∧
      (|tc.cascade.bachelor.tpcNSigmaKa| < cfg.maxNSigmaBachelor ∨
        |tc.cascade.bachelor.tpcNSigmaPi| < cfg.maxNSigmaBachelor) ∧
      |(v0TrackPrOf tc).tpcNSigmaPr| < cfg.maxNSigmaV0Pr ∧
      |(v0TrackPiOf tc).tpcNSigmaPi| < cfg.maxNSigmaV0Pi ∧
      row.nSigmaTpcBachKa = tc.cascade.bachelor.tpcNSigmaKa ∧
      row.nSigmaTpcBachPi = tc.cascade.bachelor.tpcNSigmaPi ∧
      row.nSigmaTpcV0Pr = (v0TrackPrOf tc).tpcNSigmaPr ∧
      row.nSigmaTpcV0Pi = (v0TrackPiOf tc).tpcNSigmaPi := by
  obtain ⟨c, hc, tc, htc, trackId, _, st0, st', r1, r2, r, _, _, _, _, hp, _, _, _, _, _, hrow⟩ :=
    fillTable_row_origin _ _ _ _ _ _ _ _ _ h
  refine ⟨c, hc, tc, htc, hp.1, hp.2.1, hp.2.2, ?_, ?_, ?_, ?_⟩ <;>
    simp [hrow, rowOf, mkRow, cascCtxOf, mkCascCtx]

/-- C15 on the concrete run with one emitted row. -/
theorem emitted_cascade_daughters_pass_pid_witness :
    ∃ row, row ∈ (fillTable demoExt Config.default false none [demoCascade demoXCasc demoXPos]
        [demoPion 20 (-1)] TaskState.init [demoCollision 0 1]).out.rows ∧
      ∃ c, c ∈ [demoCollision 0 1] ∧
      ∃ tc, tc ∈ groupedTrackedCascadesOf [demoCascade demoXCasc demoXPos] c.globalIndex ∧
        (|tc.cascade.bachelor.tpcNSigmaKa| < Config.default.maxNSigmaBachelor ∨
          |tc.cascade.bachelor.tpcNSigmaPi| < Config.default.maxNSigmaBachelor) ∧
        |(v0TrackPrOf tc).tpcNSigmaPr| < Config.default.maxNSigmaV0Pr ∧
        |(v0TrackPiOf tc).tpcNSigmaPi| < Config.default.maxNSigmaV0Pi ∧
        row.nSigmaTpcBachKa = tc.cascade.bachelor.tpcNSigmaKa ∧
        row.nSigmaTpcBachPi = tc.cascade.bachelor.tpcNSigmaPi ∧
        row.nSigmaTpcV0Pr = (v0TrackPrOf tc).tpcNSigmaPr ∧
        row.nSigmaTpcV0Pi = (v0TrackPiOf tc).tpcNSigmaPi := by
  obtain ⟨row, hmem⟩ := demo_fillTable_has_row
  exact ⟨row, hmem, emitted_cascade_daughters_pass_pid demoExt Config.default false none
    [demoCascade demoXCasc demoXPos] [demoPion 20 (-1)] TaskState.init [demoCollision 0 1]
    row hmem⟩

/-! ### C16 -/

/-- C16: every row emitted by `fillTable` comes from an associated track of the
input that has at least 4 ITS clusters, at least `minNoClsTrackedPionOrKaon`
found TPC clusters and crossed rows, crossed rows of at least 0.8 times the
findable clusters, a TPC chi2 per cluster of at most 4, an ITS chi2 per
cluster of at most 36, and a TPC pion score below `maxNSigmaPion` or a kaon
score below `maxNSigmaKaon`; the row carries that track's scores; and a track
that fails any of these is passed over with no counter entry (no baryon-layer
fit attempted), no row and the members unchanged. -/
theorem emitted_partner_track_passes_quality (ext : Ext) (cfg : Config) (tracksExtMc : Bool)
    (mcParticles : Option (List McParticle)) (trackedCascades : List TrackedCascade)
    (trackIndices : List TrackAssoc) (st : TaskState) (collisions : List Collision) (row : Row)
    (h : row ∈ (fillTable ext cfg tracksExtMc mcParticles trackedCascades trackIndices st
      collisions).out.rows) :
    (∃ c, c ∈ collisions ∧ ∃ trackId, trackId ∈ groupedTrackIdsOf trackIndices c.globalIndex ∧
      trackId.track.itsNCls ≥ 4 ∧
      trackId.track.tpcNClsFound ≥ cfg.minNoClsTrackedPionOrKaon ∧
      trackId.track.tpcNClsCrossedRows ≥ cfg.minNoClsTrackedPionOrKaon ∧
      (trackId.track.tpcNClsCrossedRows : ℚ) ≥ 8 / 10 * (trackId.track.tpcNClsFindable : ℚ) ∧
      trackId.track.tpcChi2NCl ≤ 4 ∧
      trackId.track.itsChi2NCl ≤ 36 ∧
      (|trackId.track.tpcNSigmaPi| < cfg.maxNSigmaPion ∨
        |trackId.track.tpcNSigmaKa| < cfg.maxNSigmaKaon) ∧
      row.nSigmaTpcPion = trackId.track.tpcNSigmaPi ∧
      row.nSigmaTpcKaon = trackId.track.tpcNSigmaKa ∧
      row.itsClusterMapPionOrKaon = trackId.track.itsClusterMap) ∧
    (∀ ctx st' trackId,
      ¬ (trackId.track.itsNCls ≥ 4 ∧
        trackId.track.tpcNClsFound ≥ cfg.minNoClsTrackedPionOrKaon ∧
        trackId.track.tpcNClsCrossedRows ≥ cfg.minNoClsTrackedPionOrKaon ∧
        (trackId.track.tpcNClsCrossedRows : ℚ) ≥ 8 / 10 * (trackId.track.tpcNClsFindable : ℚ) ∧
        trackId.track.tpcChi2NCl ≤ 4 ∧
        trackId.track.itsChi2NCl ≤ 36 ∧
        (|trackId.track.tpcNSigmaPi| < cfg.maxNSigmaPion ∨
          |trackId.track.tpcNSigmaKa| < cfg.maxNSigmaKaon)) →
      processTrack ext cfg tracksExtMc mcParticles ctx st' trackId = (st', Out.nil)) := by
  constructor
  · obtain ⟨c, hc, tc, _, trackId, ht, st0, st', r1, r2, r, _, _, _, _, _, _, hs, _, _, _, hrow⟩ :=
      fillTable_row_origin _ _ _ _ _ _ _ _ _ h
    have hs' := hs
    simp only [trackSelected, itsNClsMin, tpcNclsFindableFraction, tpcChi2NclMax,
      itsChi2NclMax] at hs'
    refine ⟨c, hc, trackId, ht, hs'.1, hs'.2.1, hs'.2.2.1, hs'.2.2.2.1, hs'.2.2.2.2.1,
      hs'.2.2.2.2.2.1, hs'.2.2.2.2.2.2, ?_, ?_, ?_⟩ <;>
      simp [hrow, rowOf, mkRow]
  · intro ctx st' trackId hn
    have hn' : ¬ trackSelected cfg trackId.track := by
      simp only [trackSelected, itsNClsMin, tpcNclsFindableFraction, tpcChi2NclMax,
        itsChi2NclMax]
      exact hn
    exact processTrack_of_unselected _ _ _ _ _ _ _ hn'

/-- C16 on the concrete run with one emitted row, and on a candidate with
three ITS clusters, which is passed over. -/
theorem emitted_partner_track_passes_quality_witness :
    (∃ row, row ∈ (fillTable demoExt Config.default false none [demoCascade demoXCasc demoXPos]
        [demoPion 20 (-1)] TaskState.init [demoCollision 0 1]).out.rows ∧
      ∃ c, c ∈ [demoCollision 0 1] ∧
      ∃ trackId, trackId ∈ groupedTrackIdsOf [demoPion 20 (-1)] c.globalIndex ∧
        trackId.track.itsNCls ≥ 4 ∧
        trackId.track.tpcNClsFound ≥ Config.default.minNoClsTrackedPionOrKaon ∧
        trackId.track.tpcNClsCrossedRows ≥ Config.default.minNoClsTrackedPionOrKaon ∧
        (trackId.track.tpcNClsCrossedRows : ℚ) ≥ 8 / 10 * (trackId.track.tpcNClsFindable : ℚ) ∧
        trackId.track.tpcChi2NCl ≤ 4 ∧
        trackId.track.itsChi2NCl ≤ 36 ∧
        (|trackId.track.tpcNSigmaPi| < Config.default.maxNSigmaPion ∨
          |trackId.track.tpcNSigmaKa| < Config.default.maxNSigmaKaon) ∧
        row.nSigmaTpcPion = trackId.track.tpcNSigmaPi ∧
        row.nSigmaTpcKaon = trackId.track.tpcNSigmaKa ∧
        row.itsClusterMapPionOrKaon = trackId.track.itsClusterMap) ∧
    processTrack demoExt Config.default false none
      (demoCtx demoXCasc demoXPos (1672 / 1000) (13 / 10)) (demoState 1) demoPionFewIts
        = (demoState 1, Out.nil) := by
  obtain ⟨row, hmem⟩ := demo_fillTable_has_row
  have h := emitted_partner_track_passes_quality demoExt Config.default false none
    [demoCascade demoXCasc demoXPos] [demoPion 20 (-1)] TaskState.init [demoCollision 0 1]
    row hmem
  refine ⟨⟨row, hmem, h.1⟩, h.2 _ _ _ ?_⟩
  simp [demoPionFewIts, goodTrack]

/-! ### C17 -/

/-- C17: for every row emitted by `fillTable`, `massXi` and `massOmega` are
`RecoDecay::m` of one and the same pair of momenta, those of the two tracks at
the vertex of the one V0-bachelor fit, under the masses (Lambda, pi) and
(Lambda, K); and the three baryon masses tested against the windows are
`RecoDecay::m` of one and the same pair of momenta, those left by the one
tracked fit and written to the row, under the masses (Omega, K), (Omega, pi)
and (Xi, pi). -/
theorem mass_hypotheses_share_momenta (ext : Ext) (cfg : Config) (tracksExtMc : Bool)
    (mcParticles : Option (List McParticle)) (trackedCascades : List TrackedCascade)
    (trackIndices : List TrackAssoc) (st : TaskState) (collisions : List Collision) (row : Row)
    (h : row ∈ (fillTable ext cfg tracksExtMc mcParticles trackedCascades trackIndices st
      collisions).out.rows) :
    (∃ (st0 : TaskState) (tc : TrackedCascade) (r1 r2 : FitResult),
      v0PiOutcome ext st0 tc r1 = FitOutcome.ok r2 ∧
      row.massXi = ext.m (ext.getPxPyPzGlo r2.trackParamAtPCA0)
        (ext.getPxPyPzGlo r2.trackParamAtPCA1) MassLambda0 MassPiPlus ∧
      row.massOmega = ext.m (ext.getPxPyPzGlo r2.trackParamAtPCA0)
        (ext.getPxPyPzGlo r2.trackParamAtPCA1) MassLambda0 MassKPlus) ∧
    (∃ (ctx : CascCtx) (st' : TaskState) (trackId : TrackAssoc) (r : FitResult),
      trackedOutcome ext cfg ctx st' trackId = FitOutcome.ok r ∧
      (row.pxCasc, row.pyCasc, row.pzCasc) = ext.getPxPyPzGlo r.trackParamAtPCA0 ∧
      (row.pxPionOrKaon, row.pyPionOrKaon, row.pzPionOrKaon)
        = ext.getPxPyPzGlo r.trackParamAtPCA1 ∧
      (|ext.m (row.pxCasc, row.pyCasc, row.pzCasc)
          (row.pxPionOrKaon, row.pyPionOrKaon, row.pzPionOrKaon) MassOmegaMinus MassKPlus
          - MassOmegaC0| < cfg.massWindowOmegaC ∨
        |ext.m (row.pxCasc, row.pyCasc, row.pzCasc)
          (row.pxPionOrKaon, row.pyPionOrKaon, row.pzPionOrKaon) MassOmegaMinus MassPiPlus
          - MassOmegaC0| < cfg.massWindowOmegaC ∨
        |ext.m (row.pxCasc, row.pyCasc, row.pzCasc)
          (row.pxPionOrKaon, row.pyPionOrKaon, row.pzPionOrKaon) MassXiMinus MassPiPlus
          - MassXiC0| < cfg.massWindowXiC)) := by
  obtain ⟨c, _, tc, _, trackId, _, st0, st', r1, r2, r, _, _, h2, _, _, _, _, _, htr, hfw, hrow⟩ :=
    fillTable_row_origin _ _ _ _ _ _ _ _ _ h
  have e0 : (row.pxCasc, row.pyCasc, row.pzCasc) = ext.getPxPyPzGlo r.trackParamAtPCA0 := by
    rw [hrow]; rfl
  have e1 : (row.pxPionOrKaon, row.pyPionOrKaon, row.pzPionOrKaon)
      = ext.getPxPyPzGlo r.trackParamAtPCA1 := by
    rw [hrow]; rfl
  refine ⟨⟨st0, tc, r1, r2, h2, by rw [hrow]; rfl, by rw [hrow]; rfl⟩,
    _, st', trackId, r, htr, e0, e1, ?_⟩
  rw [e0, e1]
  exact hfw

/-- C17 on the concrete run with one emitted row. -/
theorem mass_hypotheses_share_momenta_witness :
    ∃ row, row ∈ (fillTable demoExt Config.default false none [demoCascade demoXCasc demoXPos]
        [demoPion 20 (-1)] TaskState.init [demoCollision 0 1]).out.rows ∧
      ∃ (st0 : TaskState) (tc : TrackedCascade) (r1 r2 : FitResult),
        v0PiOutcome demoExt st0 tc r1 = FitOutcome.ok r2 ∧
        row.massXi = demoExt.m (demoExt.getPxPyPzGlo r2.trackParamAtPCA0)
          (demoExt.getPxPyPzGlo r2.trackParamAtPCA1) MassLambda0 MassPiPlus ∧
        row.massOmega = demoExt.m (demoExt.getPxPyPzGlo r2.trackParamAtPCA0)
          (demoExt.getPxPyPzGlo r2.trackParamAtPCA1) MassLambda0 MassKPlus := by
  obtain ⟨row, hmem⟩ := demo_fillTable_has_row
  exact ⟨row, hmem, (mass_hypotheses_share_momenta demoExt Config.default false none
    [demoCascade demoXCasc demoXPos] [demoPion 20 (-1)] TaskState.init [demoCollision 0 1]
    row hmem).1⟩

/-! ### C18 -/

theorem forEach_rows_length_le {α : Type} (body : TaskState → α → TaskState × Out) (k : Nat)
    (h : ∀ st a, (body st a).2.rows.length ≤ k) (st : TaskState) (xs : List α) :
    (forEach body st xs).2.rows.length ≤ xs.length * k := by
  induction xs generalizing st with
  | nil => simp
  | cons a as ih =>
    rw [forEach_cons]
    simp only [Out.rows_append, List.length_append, List.length_cons]
    have h1 := h st a
    have h2 := ih (body st a).1
    rw [Nat.add_mul]
    omega

/-- The rows of a loop are, in order, the rows of its iterations, each run
from the members its predecessors left. -/
theorem forEach_rows_split {α : Type} (body : TaskState → α → TaskState × Out)
    (st : TaskState) (xs : List α) :
    ∃ sts : List TaskState, sts.length = xs.length ∧
      (forEach body st xs).2.rows =
        (List.zipWith (fun s a => (body s a).2.rows) sts xs).flatten := by
  induction xs generalizing st with
  | nil => exact ⟨[], rfl, rfl⟩
  | cons a as ih =>
    obtain ⟨sts, hl, hr⟩ := ih (body st a).1
    refine ⟨st :: sts, by simp [hl], ?_⟩
    rw [forEach_cons]
    simp [hr]

theorem processTrack_rows_length_le (ext : Ext) (cfg : Config) (tracksExtMc : Bool)
    (mcParticles : Option (List McParticle)) (ctx : CascCtx) (st : TaskState)
    (trackId : TrackAssoc) :
    (processTrack ext cfg tracksExtMc mcParticles ctx st trackId).2.rows.length ≤ 1 := by
  by_cases hd : isCascadeDaughter ctx trackId.track
  · rw [processTrack_of_daughter _ _ _ _ _ _ _ hd]; simp
  · by_cases hs : trackSelected cfg trackId.track
    · by_cases hu : untrackedOutcome ext cfg ctx st trackId = FitOutcome.runtimeError
      · rw [processTrack_of_untracked_error _ _ _ _ _ _ _ hd hs hu]; simp
      · cases ht : trackedOutcome ext cfg ctx st trackId with
        | ok r =>
          rw [processTrack_of_tracked_ok _ _ _ _ _ _ _ r hd hs hu ht]
          by_cases hw : fitInWindow ext cfg r <;> simp [hw]
        | noCandidate => rw [processTrack_of_tracked_noCandidate _ _ _ _ _ _ _ hd hs hu ht]; simp
        | runtimeError => rw [processTrack_of_tracked_error _ _ _ _ _ _ _ hd hs hu ht]; simp
    · rw [processTrack_of_unselected _ _ _ _ _ _ _ hs]; simp

theorem processCascade_rows_length_le (ext : Ext) (cfg : Config) (tracksExtMc : Bool)
    (mcParticles : Option (List McParticle)) (pv : Vec3) (grouped : List TrackAssoc)
    (st : TaskState) (tc : TrackedCascade) :
    (processCascade ext cfg tracksExtMc mcParticles pv grouped st tc).2.rows.length
      ≤ grouped.length := by
  by_cases hc : lacksClusters cfg tc.cascade.v0.posTrack tc.cascade.v0.negTrack
      tc.cascade.bachelor
  · rw [processCascade_of_lacksClusters _ _ _ _ _ _ _ _ hc]; simp
  · cases h1 : prPiOutcome ext st tc with
    | noCandidate => rw [processCascade_of_prPi_noCandidate _ _ _ _ _ _ _ _ hc h1]; simp
    | runtimeError => rw [processCascade_of_prPi_error _ _ _ _ _ _ _ _ hc h1]; simp
    | ok r1 =>
      cases h2 : v0PiOutcome ext st tc r1 with
      | noCandidate => rw [processCascade_of_v0Pi_noCandidate _ _ _ _ _ _ _ _ r1 hc h1 h2]; simp
      | runtimeError => rw [processCascade_of_v0Pi_error _ _ _ _ _ _ _ _ r1 hc h1 h2]; simp
      | ok r2 =>
        rw [processCascade_of_fits_ok _ _ _ _ _ _ _ _ r1 r2 hc h1 h2]
        simp only [Out.rows_append, Out.rows_ofFills, List.nil_append]
        unfold pairWithTracks
        split_ifs
        · have := forEach_rows_length_le _ 1
            (processTrack_rows_length_le ext cfg tracksExtMc mcParticles
              (cascCtxOf ext cfg tracksExtMc mcParticles pv st tc r1 r2)) st grouped
          omega
        · simp
        · simp

theorem processCollision_rows_length_le (ext : Ext) (cfg : Config) (tracksExtMc : Bool)
    (mcParticles : Option (List McParticle)) (tcs : List TrackedCascade)
    (tis : List TrackAssoc) (st : TaskState) (c : Collision) :
    (processCollision ext cfg tracksExtMc mcParticles tcs tis st c).out.rows.length ≤
      (groupedTrackedCascadesOf tcs c.globalIndex).length *
        (groupedTrackIdsOf tis c.globalIndex).length := by
  cases h : (updateRun ext cfg st c.bc).2.2 with
  | true => rw [processCollision_of_fatal _ _ _ _ _ _ _ _ h]; simp
  | false =>
    rw [processCollision_of_not_fatal _ _ _ _ _ _ _ _ h]
    simp only [Out.rows_append, List.nil_append]
    exact forEach_rows_length_le _ _
      (processCascade_rows_length_le ext cfg tracksExtMc mcParticles _ _) _ _

/-- C18: every (tracked cascade entry, track association entry) pair emits at
most one row; the rows of the loop over the tracks of a cascade, and of the
loop over the cascades of a collision, are in order the rows of their
iterations, one iteration per entry; so a collision emits at most as many rows
as there are pairs of a tracked cascade and a track association grouped to it,
and `fillTable` at most the sum of these numbers over its collisions. -/
theorem at_most_one_row_per_pair (ext : Ext) (cfg : Config) (tracksExtMc : Bool)
    (mcParticles : Option (List McParticle)) (trackedCascades : List TrackedCascade)
    (trackIndices : List TrackAssoc) (st : TaskState) (collisions : List Collision) :
    (∀ ctx st' trackId,
      (processTrack ext cfg tracksExtMc mcParticles ctx st' trackId).2.rows.length ≤ 1) ∧
    (∀ ctx st' (ts : List TrackAssoc), ∃ sts : List TaskState, sts.length = ts.length ∧
      (forEach (processTrack ext cfg tracksExtMc mcParticles ctx) st' ts).2.rows =
        (List.zipWith (fun s t => (processTrack ext cfg tracksExtMc mcParticles ctx s t).2.rows)
          sts ts).flatten) ∧
    (∀ pv grouped st' (cascs : List TrackedCascade), ∃ sts : List TaskState,
      sts.length = cascs.length ∧
      (forEach (processCascade ext cfg tracksExtMc mcParticles pv grouped) st' cascs).2.rows =
        (List.zipWith
          (fun s tc => (processCascade ext cfg tracksExtMc mcParticles pv grouped s tc).2.rows)
          sts cascs).flatten) ∧
    (∀ st' c,
      (processCollision ext cfg tracksExtMc mcParticles trackedCascades trackIndices st'
        c).out.rows.length ≤
        (groupedTrackedCascadesOf trackedCascades c.globalIndex).length *
          (groupedTrackIdsOf trackIndices c.globalIndex).length) ∧
    (fillTable ext cfg tracksExtMc mcParticles trackedCascades trackIndices st
        collisions).out.rows.length ≤
      (collisions.map (fun c =>
        (groupedTrackedCascadesOf trackedCascades c.globalIndex).length *
          (groupedTrackIdsOf trackIndices c.globalIndex).length)).sum := by
  refine ⟨processTrack_rows_length_le ext cfg tracksExtMc mcParticles,
    fun ctx st' ts => forEach_rows_split _ st' ts,
    fun pv grouped st' cascs => forEach_rows_split _ st' cascs,
    processCollision_rows_length_le ext cfg tracksExtMc mcParticles trackedCascades trackIndices,
    ?_⟩
  induction collisions generalizing st with
  | nil => simp [fillTable_nil]
  | cons c cs ih =>
    have hc := processCollision_rows_length_le ext cfg tracksExtMc mcParticles trackedCascades
      trackIndices st c
    cases hf : (processCollision ext cfg tracksExtMc mcParticles trackedCascades trackIndices
        st c).fatal with
    | true =>
      rw [fillTable_cons_of_fatal _ _ _ _ _ _ _ _ _ hf]
      simp only [List.map_cons, List.sum_cons]
      omega
    | false =>
      rw [fillTable_cons_of_not_fatal _ _ _ _ _ _ _ _ _ hf]
      simp only [Out.rows_append, List.length_append, List.map_cons, List.sum_cons]
      have := ih (processCollision ext cfg tracksExtMc mcParticles trackedCascades trackIndices
        st c).st
      omega

/-- C18 on the concrete run: one pair, one row. -/
theorem at_most_one_row_per_pair_witness :
    (fillTable demoExt Config.default false none [demoCascade demoXCasc demoXPos]
      [demoPion 20 (-1)] TaskState.init [demoCollision 0 1]).out.rows.length = 1 ∧
    (fillTable demoExt Config.default false none [demoCascade demoXCasc demoXPos]
        [demoPion 20 (-1)] TaskState.init [demoCollision 0 1]).out.rows.length ≤
      ([demoCollision 0 1].map (fun c =>
        (groupedTrackedCascadesOf [demoCascade demoXCasc demoXPos] c.globalIndex).length *
          (groupedTrackIdsOf [demoPion 20 (-1)] c.globalIndex).length)).sum :=
  ⟨demo_fillTable_rows_length,
    (at_most_one_row_per_pair demoExt Config.default false none
      [demoCascade demoXCasc demoXPos] [demoPion 20 (-1)] TaskState.init
      [demoCollision 0 1]).2.2.2.2⟩

/-! ### processMc, particle by particle -/

/-- What `processMc` does with one generated particle, in terms of `recordOf`:
the rows appended, and the map afterwards. -/
theorem processMcParticle_eq (ext : Ext) (table : List McParticle) (st : TaskState) (n : Nat)
    (p : McParticle) :
    (processMcParticle ext table st n p).2.rows = (recordOf ext table p).toList ∧
    (processMcParticle ext table st n p).1.mapMcPartToGenTable =
      (if (recordOf ext table p).isSome then
        (p.globalIndex, (n : Int)) ::
          st.mapMcPartToGenTable.filter (fun e => e.1 ≠ p.globalIndex)
      else st.mapMcPartToGenTable) := by
  simp only [processMcParticle, recordOf, scanOf]
  generalize List.foldl (scanDaughter (decide (|p.pdgCode| = kOmegaC0)))
    ⟨-1, -1, -1⟩ (daughtersOf table p) = d
  by_cases h1 : |p.pdgCode| = kOmegaC0 ∨ |p.pdgCode| = kXiC0
  · by_cases h2 : p.daughtersIds.length = 2
    · by_cases h3 : decayChannelOf d = -1
      · simp [h1, h2, h3]
      · cases h4 : mcAt table d.idxCascDaughter with
        | none => simp [h1, h2, h3, h4]
        | some cd => simp [h1, h2, h3, h4]
    · simp [h1, h2]
  · simp [h1]

theorem mapEntries_cons (n : Nat) (p : McParticle) (l : List McParticle) :
    mapEntries n (p :: l) = (p.globalIndex, (n : Int)) :: mapEntries (n + 1) l := by
  simp [mapEntries, List.enumFrom]

theorem processMcLoop_cons (ext : Ext) (table : List McParticle) (st : TaskState) (n : Nat)
    (p : McParticle) (ps : List McParticle) :
    processMcLoop ext table st n (p :: ps) =
      ((processMcLoop ext table (processMcParticle ext table st n p).1
          (n + (processMcParticle ext table st n p).2.rows.length) ps).1,
        ⟨(processMcParticle ext table st n p).2.rows ++
            (processMcLoop ext table (processMcParticle ext table st n p).1
              (n + (processMcParticle ext table st n p).2.rows.length) ps).2.rows,
          (processMcParticle ext table st n p).2.hDecayLengthScaledMc ++
            (processMcLoop ext table (processMcParticle ext table st n p).1
              (n + (processMcParticle ext table st n p).2.rows.length)
              ps).2.hDecayLengthScaledMc⟩) := rfl

/-- The loop of `processMc` over particles with pairwise different global
indices, none of which is a key of the map yet: the rows are the records of
the particles in order, and the map gains one entry per recorded particle,
its global index mapped to the position of its row. -/
theorem processMcLoop_eq (ext : Ext) (table : List McParticle) (ps : List McParticle) :
    ∀ (st : TaskState) (n : Nat), (ps.map (fun p => p.globalIndex)).Nodup →
      (∀ p ∈ ps, ∀ e ∈ st.mapMcPartToGenTable, e.1 ≠ p.globalIndex) →
      (processMcLoop ext table st n ps).2.rows = ps.filterMap (recordOf ext table) ∧
      (processMcLoop ext table st n ps).1.mapMcPartToGenTable =
        (mapEntries n (ps.filter (fun p => (recordOf ext table p).isSome))).reverse ++
          st.mapMcPartToGenTable := by
  induction ps with
  | nil =>
    intro st n _ _
    simp [processMcLoop, mapEntries]
  | cons p ps ih =>
    intro st n hnd hfresh
    obtain ⟨hr, hm⟩ := processMcParticle_eq ext table st n p
    rw [List.map_cons, List.nodup_cons] at hnd
    have hst : st.mapMcPartToGenTable.filter (fun e => e.1 ≠ p.globalIndex)
        = st.mapMcPartToGenTable := by
      rw [List.filter_eq_self]
      intro e he
      simpa using hfresh p (List.mem_cons_self _ _) e he
    rw [processMcLoop_cons]
    cases hrec : recordOf ext table p with
    | none =>
      rw [hrec] at hr hm
      simp only [Option.toList, Option.isSome_none, Bool.false_eq_true, if_false] at hr hm
      have hfresh' : ∀ q ∈ ps, ∀ e ∈ (processMcParticle ext table st n p).1.mapMcPartToGenTable,
          e.1 ≠ q.globalIndex := by
        intro q hq e he
        rw [hm] at he
        exact hfresh q (List.mem_cons_of_mem _ hq) e he
      obtain ⟨ih1, ih2⟩ := ih (processMcParticle ext table st n p).1
        (n + (processMcParticle ext table st n p).2.rows.length) hnd.2 hfresh'
      rw [hr] at ih1 ih2 ⊢
      simp only [List.length_nil, Nat.add_zero, List.nil_append] at ih1 ih2 ⊢
      refine ⟨by rw [ih1]; simp [hrec], ?_⟩
      rw [ih2, hm]
      simp [List.filter_cons, hrec]
    | some row =>
      rw [hrec] at hr hm
      simp only [Option.toList, Option.isSome_some, if_true] at hr hm
      rw [hst] at hm
      have hfresh' : ∀ q ∈ ps, ∀ e ∈ (processMcParticle ext table st n p).1.mapMcPartToGenTable,
          e.1 ≠ q.globalIndex := by
        intro q hq e he
        rw [hm, List.mem_cons] at he
        rcases he with he | he
        · rw [he]
          intro heq
          exact hnd.1 (List.mem_map.mpr ⟨q, hq, heq.symm⟩)
        · exact hfresh q (List.mem_cons_of_mem _ hq) e he
      obtain ⟨ih1, ih2⟩ := ih (processMcParticle ext table st n p).1
        (n + (processMcParticle ext table st n p).2.rows.length) hnd.2 hfresh'
      rw [hr] at ih1 ih2 ⊢
      simp only [List.length_singleton] at ih1 ih2 ⊢
      refine ⟨by rw [ih1]; simp [hrec], ?_⟩
      rw [ih2, hm]
      simp [List.filter_cons, hrec, mapEntries_cons]

/-! ### Well-formed tables and the loop over the daughters -/

theorem WellFormedTable.globalIndex_eq {table : List McParticle} (h : WellFormedTable table)
    (i : Nat) (p : McParticle) (hp : table.get? i = some p) : p.globalIndex = (i : Int) := by
  have hlt : i < table.length := by
    by_contra hge
    rw [List.get?_eq_none.mpr (Nat.le_of_not_lt hge)] at hp
    exact Option.noConfusion hp
  have h1 := congrArg (fun l => l.get? i) h
  simp only [List.get?_eq_getElem?, List.getElem?_map] at h1 hp
  rw [hp, List.getElem?_range hlt] at h1
  simpa using h1

theorem WellFormedTable.nodup {table : List McParticle} (h : WellFormedTable table) :
    (table.map (fun p => p.globalIndex)).Nodup := by
  rw [h]
  exact (List.nodup_range _).map (fun a b hab => Int.ofNat.inj hab)

theorem mcAt_eq_some {table : List McParticle} (h : WellFormedTable table) (i : Int)
    (d : McParticle) (hd : mcAt table i = some d) : d.globalIndex = i ∧ 0 ≤ i := by
  unfold mcAt at hd
  by_cases hi : i < 0
  · simp [hi] at hd
  · simp only [hi, if_false] at hd
    have := h.globalIndex_eq i.toNat d hd
    rw [this]
    omega

theorem daughtersOf_mem {table : List McParticle} (h : WellFormedTable table) (p d : McParticle)
    (hd : d ∈ daughtersOf table p) : 0 ≤ d.globalIndex ∧ mcAt table d.globalIndex = some d := by
  unfold daughtersOf at hd
  rw [List.mem_filterMap] at hd
  obtain ⟨i, _, hi⟩ := hd
  obtain ⟨h1, h2⟩ := mcAt_eq_some h i d hi
  rw [h1]
  exact ⟨h2, hi⟩

theorem firstIdx_of_nonneg (P : McParticle → Prop) [DecidablePred P] (a : Int)
    (ds : List McParticle) (ha : 0 ≤ a) : firstIdx P a ds = a := by
  induction ds with
  | nil => rfl
  | cons d ds ih =>
    have : ¬ a < 0 := by omega
    simp [firstIdx, this, ih]

/-- A search that starts negative over daughters with non-negative indices ends
non-negative exactly when a daughter satisfies the test, and then holds the
index of such a daughter. -/
theorem firstIdx_of_neg (P : McParticle → Prop) [DecidablePred P] (a : Int)
    (ds : List McParticle) (ha : a < 0) (hds : ∀ d ∈ ds, 0 ≤ d.globalIndex) :
    (0 ≤ firstIdx P a ds ↔ ∃ d ∈ ds, P d) ∧
    (0 ≤ firstIdx P a ds → ∃ d ∈ ds, firstIdx P a ds = d.globalIndex) := by
  induction ds with
  | nil =>
    simp only [firstIdx, List.not_mem_nil, false_and, exists_false, iff_false, not_le]
    exact ⟨ha, fun h => absurd h (by omega)⟩
  | cons d ds ih =>
    have hd0 : 0 ≤ d.globalIndex := hds d (List.mem_cons_self _ _)
    have hds' : ∀ e ∈ ds, 0 ≤ e.globalIndex := fun e he => hds e (List.mem_cons_of_mem _ he)
    by_cases hP : P d
    · have : firstIdx P a (d :: ds) = d.globalIndex := by
        simp only [firstIdx, ha, hP, and_self, if_true]
        exact firstIdx_of_nonneg P _ ds hd0
      rw [this]
      exact ⟨⟨fun _ => ⟨d, List.mem_cons_self _ _, hP⟩, fun _ => hd0⟩,
        fun _ => ⟨d, List.mem_cons_self _ _, rfl⟩⟩
    · have : firstIdx P a (d :: ds) = firstIdx P a ds := by
        simp [firstIdx, hP]
      rw [this]
      obtain ⟨ih1, ih2⟩ := ih hds'
      refine ⟨⟨fun h => ?_, fun h => ?_⟩, fun h => ?_⟩
      · obtain ⟨e, he, hPe⟩ := ih1.mp h
        exact ⟨e, List.mem_cons_of_mem _ he, hPe⟩
      · obtain ⟨e, he, hPe⟩ := h
        rw [List.mem_cons] at he
        rcases he with he | he
        · rw [he] at hPe
          exact absurd hPe hP
        · exact ih1.mpr ⟨e, he, hPe⟩
      · obtain ⟨e, he, hPe⟩ := ih2 h
        exact ⟨e, List.mem_cons_of_mem _ he, hPe⟩

theorem scanDaughter_fields (b : Bool) (acc : DaughterIdx) (d : McParticle) :
    (scanDaughter b acc d).idxCascDaughter =
      (if acc.idxCascDaughter < 0 ∧ |d.pdgCode| = (if b then kOmegaMinus else kXiMinus)
        then d.globalIndex else acc.idxCascDaughter) ∧
    (scanDaughter b acc d).idxPionDaughter =
      (if acc.idxPionDaughter < 0 ∧ |d.pdgCode| = kPiPlus
        then d.globalIndex else acc.idxPionDaughter) ∧
    (scanDaughter b acc d).idxKaonDaughter =
      (if acc.idxKaonDaughter < 0 ∧ |d.pdgCode| = kKPlus
        then d.globalIndex else acc.idxKaonDaughter) := by
  unfold scanDaughter
  simp only
  refine ⟨?_, ?_, ?_⟩ <;> split_ifs <;> simp_all

/-- The three indices of the loop over the daughters are three independent
searches. -/
theorem foldl_scanDaughter (b : Bool) (ds : List McParticle) :
    ∀ acc : DaughterIdx,
      (ds.foldl (scanDaughter b) acc).idxCascDaughter =
        firstIdx (fun d => |d.pdgCode| = (if b then kOmegaMinus else kXiMinus))
          acc.idxCascDaughter ds ∧
      (ds.foldl (scanDaughter b) acc).idxPionDaughter =
        firstIdx (fun d => |d.pdgCode| = kPiPlus) acc.idxPionDaughter ds ∧
      (ds.foldl (scanDaughter b) acc).idxKaonDaughter =
        firstIdx (fun d => |d.pdgCode| = kKPlus) acc.idxKaonDaughter ds := by
  induction ds with
  | nil => intro acc; exact ⟨rfl, rfl, rfl⟩
  | cons d ds ih =>
    intro acc
    obtain ⟨h1, h2, h3⟩ := scanDaughter_fields b acc d
    obtain ⟨i1, i2, i3⟩ := ih (scanDaughter b acc d)
    simp only [List.foldl_cons, firstIdx]
    rw [i1, i2, i3, h1, h2, h3]
    exact ⟨rfl, rfl, rfl⟩

theorem decayChannelOf_ne (d : DaughterIdx) :
    decayChannelOf d ≠ -1 ↔
      (0 ≤ d.idxCascDaughter ∧ (0 ≤ d.idxPionDaughter ∨ 0 ≤ d.idxKaonDaughter)) := by
  unfold decayChannelOf OmegaczeroToOmegaPi OmegaczeroToOmegaK
  by_cases hc : 0 ≤ d.idxCascDaughter <;> by_cases hp : 0 ≤ d.idxPionDaughter <;>
    by_cases hk : 0 ≤ d.idxKaonDaughter <;> simp [hc, hp, hk]

/-- On a well-formed table `processMc` writes a record for a generated
particle exactly when it has the decay topology of the claim. -/
theorem recordOf_isSome_iff (ext : Ext) {table : List McParticle} (hwf : WellFormedTable table)
    (p : McParticle) :
    (recordOf ext table p).isSome = true ↔ IsCascadePiOrKDecay table p := by
  have hds : ∀ d ∈ daughtersOf table p, 0 ≤ d.globalIndex :=
    fun d hd => (daughtersOf_mem hwf p d hd).1
  obtain ⟨s1, s2, s3⟩ := foldl_scanDaughter (decide (|p.pdgCode| = kOmegaC0))
    (daughtersOf table p) ⟨-1, -1, -1⟩
  have e1 : (scanOf table p).idxCascDaughter =
      firstIdx (fun d => |d.pdgCode| =
        (if decide (|p.pdgCode| = kOmegaC0) = true then kOmegaMinus else kXiMinus)) (-1)
        (daughtersOf table p) := s1
  have e2 : (scanOf table p).idxPionDaughter =
      firstIdx (fun d => |d.pdgCode| = kPiPlus) (-1) (daughtersOf table p) := s2
  have e3 : (scanOf table p).idxKaonDaughter =
      firstIdx (fun d => |d.pdgCode| = kKPlus) (-1) (daughtersOf table p) := s3
  obtain ⟨c1, c2⟩ := firstIdx_of_neg (fun d => |d.pdgCode| =
    (if decide (|p.pdgCode| = kOmegaC0) = true then kOmegaMinus else kXiMinus)) (-1)
    (daughtersOf table p) (by omega) hds
  obtain ⟨p1, _⟩ := firstIdx_of_neg (fun d => |d.pdgCode| = kPiPlus) (-1)
    (daughtersOf table p) (by omega) hds
  obtain ⟨k1, _⟩ := firstIdx_of_neg (fun d => |d.pdgCode| = kKPlus) (-1)
    (daughtersOf table p) (by omega) hds
  rw [← e1] at c1 c2
  rw [← e2] at p1
  rw [← e3] at k1
  simp only [decide_eq_true_eq] at c1
  unfold IsCascadePiOrKDecay
  constructor
  · intro h
    unfold recordOf at h
    by_cases hc : (|p.pdgCode| = kOmegaC0 ∨ |p.pdgCode| = kXiC0) ∧ p.daughtersIds.length = 2 ∧
        decayChannelOf (scanOf table p) ≠ -1
    · obtain ⟨h1, h2, h3⟩ := hc
      rw [decayChannelOf_ne] at h3
      refine ⟨h1, h2, c1.mp h3.1, ?_⟩
      rcases h3.2 with h4 | h4
      · obtain ⟨b, hb, hP⟩ := p1.mp h4
        exact ⟨b, hb, Or.inl hP⟩
      · obtain ⟨b, hb, hP⟩ := k1.mp h4
        exact ⟨b, hb, Or.inr hP⟩
    · simp [hc] at h
  · rintro ⟨h1, h2, hcasc, b, hb, hP⟩
    have hc0 : 0 ≤ (scanOf table p).idxCascDaughter := c1.mpr hcasc
    have h3 : decayChannelOf (scanOf table p) ≠ -1 := by
      rw [decayChannelOf_ne]
      refine ⟨hc0, ?_⟩
      rcases hP with hP | hP
      · exact Or.inl (p1.mpr ⟨b, hb, hP⟩)
      · exact Or.inr (k1.mpr ⟨b, hb, hP⟩)
    obtain ⟨d, hd, hdi⟩ := c2 hc0
    have hm : mcAt table (scanOf table p).idxCascDaughter = some d := by
      rw [hdi]
      exact (daughtersOf_mem hwf p d hd).2
    unfold recordOf
    simp [h1, h2, h3, hm]

theorem recordOf_baryon (ext : Ext) (table : List McParticle) (p : McParticle) (r : GenRow)
    (h : recordOf ext table p = some r) :
    (r.pxCharmedBaryon, r.pyCharmedBaryon, r.pzCharmedBaryon, r.pdgCodeCharmedBaryon)
      = (p.px, p.py, p.pz, p.pdgCode) := by
  unfold recordOf at h
  split_ifs at h
  all_goals
    cases hm : mcAt table (scanOf table p).idxCascDaughter with
    | none => simp [hm] at h
    | some cd =>
      simp only [hm, Option.some.injEq] at h
      rw [← h]
      rfl

theorem filterMap_map_eq {α β γ : Type} (φ : α → Option β) (f : β → γ) (g : α → γ)
    (h : ∀ a b, φ a = some b → f b = g a) (l : List α) :
    (l.filterMap φ).map f = (l.filter (fun a => (φ a).isSome)).map g := by
  induction l with
  | nil => rfl
  | cons a l ih =>
    cases ha : φ a with
    | none => simp [List.filterMap_cons, List.filter_cons, ha, ih]
    | some b => simp [List.filterMap_cons, List.filter_cons, ha, ih, h a b ha]

/-- On a well-formed table `processMc` appends, in order, the records of the
particles with the decay topology of the claim, and leaves a map with exactly
the entries of these particles, whatever the members held before. -/
theorem processMc_eq (ext : Ext) (st : TaskState) {table : List McParticle}
    (hwf : WellFormedTable table) :
    (processMc ext st table).2.rows = table.filterMap (recordOf ext table) ∧
    (processMc ext st table).1.mapMcPartToGenTable =
      (mapEntries 0 (table.filter (fun p => decide (IsCascadePiOrKDecay table p)))).reverse := by
  have hfun : (fun p => (recordOf ext table p).isSome) =
      (fun p => decide (IsCascadePiOrKDecay table p)) := by
    funext p
    by_cases h : IsCascadePiOrKDecay table p
    · simp [h, (recordOf_isSome_iff ext hwf p).mpr h]
    · have : ¬ (recordOf ext table p).isSome = true :=
        fun hs => h ((recordOf_isSome_iff ext hwf p).mp hs)
      simp [h, this]
  obtain ⟨h1, h2⟩ := processMcLoop_eq ext table table { st with mapMcPartToGenTable := [] } 0
    hwf.nodup (fun _ _ e he => by simp at he)
  unfold processMc
  rw [h1, h2, hfun]
  simp

/-- Claim C19. On a table whose particles carry their row number as global
index, `processMc` appends a record for a generated particle exactly when its
|PDG code| is Omega_c0 or Xi_c0, it has exactly two direct daughters, one
daughter is the expected cascade (Omega- for an Omega_c0, Xi- for a Xi_c0) and
one is a charged pion or a charged kaon: the step of the loop for such a
particle appends exactly one record, the step for any other particle (one with
three daughters, say) appends none, and the whole call appends as many records
as the table has such particles, in the order of the table. -/
theorem generated_record_iff_cascade_pi_or_k_decay (ext : Ext) (st : TaskState)
    (table : List McParticle) (hwf : WellFormedTable table) :
    (∀ (st1 : TaskState) (n : Nat) (p : McParticle),
      (IsCascadePiOrKDecay table p → ∃ r, (processMcParticle ext table st1 n p).2.rows = [r]) ∧
      (¬ IsCascadePiOrKDecay table p → (processMcParticle ext table st1 n p).2.rows = []) ∧
      (p.daughtersIds.length ≠ 2 → (processMcParticle ext table st1 n p).2.rows = [])) ∧
    (processMc ext st table).2.rows.length =
      (table.filter (fun p => decide (IsCascadePiOrKDecay table p))).length ∧
    (processMc ext st table).2.rows.map (fun r => (r.pxCharmedBaryon, r.pyCharmedBaryon,
        r.pzCharmedBaryon, r.pdgCodeCharmedBaryon)) =
      (table.filter (fun p => decide (IsCascadePiOrKDecay table p))).map
        (fun p => (p.px, p.py, p.pz, p.pdgCode)) := by
  have hfun : (fun p => (recordOf ext table p).isSome) =
      (fun p => decide (IsCascadePiOrKDecay table p)) := by
    funext p
    by_cases h : IsCascadePiOrKDecay table p
    · simp [h, (recordOf_isSome_iff ext hwf p).mpr h]
    · have : ¬ (recordOf ext table p).isSome = true :=
        fun hs => h ((recordOf_isSome_iff ext hwf p).mp hs)
      simp [h, this]
  have hmap := filterMap_map_eq (recordOf ext table)
    (fun r => (r.pxCharmedBaryon, r.pyCharmedBaryon, r.pzCharmedBaryon, r.pdgCodeCharmedBaryon))
    (fun p => (p.px, p.py, p.pz, p.pdgCode)) (recordOf_baryon ext table) table
  rw [hfun] at hmap
  have hno : ∀ (st1 : TaskState) (n : Nat) (p : McParticle), ¬ IsCascadePiOrKDecay table p →
      (processMcParticle ext table st1 n p).2.rows = [] := by
    intro st1 n p hp
    rw [(processMcParticle_eq ext table st1 n p).1]
    have hs : ¬ (recordOf ext table p).isSome = true :=
      fun hs => hp ((recordOf_isSome_iff ext hwf p).mp hs)
    cases hr : recordOf ext table p with
    | none => rfl
    | some r => simp [hr] at hs
  refine ⟨fun st1 n p => ⟨?_, hno st1 n p, fun h3 => hno st1 n p (fun hp => h3 hp.2.1)⟩, ?_, ?_⟩
  · intro hp
    rw [(processMcParticle_eq ext table st1 n p).1]
    have hs := (recordOf_isSome_iff ext hwf p).mpr hp
    cases hr : recordOf ext table p with
    | none => simp [hr] at hs
    | some r => exact ⟨r, rfl⟩
  · have := congrArg List.length hmap
    simpa [(processMc_eq ext st hwf).1] using this
  · rw [(processMc_eq ext st hwf).1]
    exact hmap

/-- Claim C19 at `demoMcTable`: the table is well formed, and the call appends
one record, for the Omega_c0 at index 0. -/
theorem generated_record_iff_cascade_pi_or_k_decay_witness :
    WellFormedTable demoMcTable ∧
    (processMc demoExtMc (demoState 1) demoMcTable).2.rows.length =
      (demoMcTable.filter (fun p => decide (IsCascadePiOrKDecay demoMcTable p))).length ∧
    (demoMcTable.filter (fun p => decide (IsCascadePiOrKDecay demoMcTable p))).length = 1 :=
  ⟨by decide,
    (generated_record_iff_cascade_pi_or_k_decay demoExtMc (demoState 1) demoMcTable
      (by decide)).2.1,
    by decide⟩

theorem mapEntries_keys (l : List McParticle) :
    ∀ n : Nat, (mapEntries n l).map (fun e => e.1) = l.map (fun p => p.globalIndex) := by
  induction l with
  | nil => intro n; rfl
  | cons p l ih =>
    intro n
    rw [mapEntries_cons, List.map_cons, List.map_cons, ih]

theorem mapEntries_length (n : Nat) (l : List McParticle) : (mapEntries n l).length = l.length := by
  simp [mapEntries]

theorem filterMap_filter_isSome {α β : Type} (φ : α → Option β) (l : List α) :
    (l.filter (fun a => (φ a).isSome)).filterMap φ = l.filterMap φ := by
  induction l with
  | nil => rfl
  | cons a l ih =>
    cases ha : φ a with
    | none => simp [List.filterMap_cons, List.filter_cons, ha, ih]
    | some b => simp [List.filterMap_cons, List.filter_cons, ha, ih]

theorem recordOf_isSome_eq (ext : Ext) {table : List McParticle} (hwf : WellFormedTable table) :
    (fun p => (recordOf ext table p).isSome) =
      (fun p => decide (IsCascadePiOrKDecay table p)) := by
  funext p
  by_cases h : IsCascadePiOrKDecay table p
  · simp [h, (recordOf_isSome_iff ext hwf p).mpr h]
  · have : ¬ (recordOf ext table p).isSome = true :=
      fun hs => h ((recordOf_isSome_iff ext hwf p).mp hs)
    simp [h, this]

/-- Claim C20. On a table whose particles carry their row number as global
index, the map `mapMcPartToGenTable` left by a call of `processMc` holds
exactly one entry per particle for which the call appended a record, from the
global index of the particle to the position of its record among the records
of the call, and nothing of what the map held before the call. -/
theorem map_to_gen_table_is_rebuilt (ext : Ext) (st : TaskState) (table : List McParticle)
    (hwf : WellFormedTable table) :
    (processMc ext st table).1.mapMcPartToGenTable =
      (mapEntries 0 (table.filter (fun p => decide (IsCascadePiOrKDecay table p)))).reverse ∧
    (processMc ext st table).2.rows =
      (table.filter (fun p => decide (IsCascadePiOrKDecay table p))).filterMap
        (recordOf ext table) ∧
    (processMc ext st table).1.mapMcPartToGenTable.length = (processMc ext st table).2.rows.length ∧
    ((processMc ext st table).1.mapMcPartToGenTable.map (fun e => e.1)).Nodup := by
  obtain ⟨h1, h2⟩ := processMc_eq ext st hwf
  have hlen : (table.filterMap (recordOf ext table)).length =
      (table.filter (fun p => decide (IsCascadePiOrKDecay table p))).length := by
    have := congrArg List.length (filterMap_map_eq (recordOf ext table) (fun _ => ())
      (fun _ => ()) (fun _ _ _ => rfl) table)
    rw [recordOf_isSome_eq ext hwf] at this
    simpa using this
  refine ⟨h2, ?_, ?_, ?_⟩
  · rw [h1, ← recordOf_isSome_eq ext hwf, filterMap_filter_isSome]
  · rw [h1, h2, List.length_reverse, mapEntries_length, hlen]
  · rw [h2, List.map_reverse, List.nodup_reverse, mapEntries_keys]
    exact (hwf.nodup).sublist ((List.filter_sublist table).map _)

/-- Claim C20 at `demoMcTable`: called with a map that still holds the entry
`(5, 9)` of an earlier call, `processMc` leaves the single entry `(0, 0)` of the
Omega_c0 at index 0. -/
theorem map_to_gen_table_is_rebuilt_witness :
    WellFormedTable demoMcTable ∧
    (processMc demoExtMc { demoState 1 with mapMcPartToGenTable := [(5, 9)] }
      demoMcTable).1.mapMcPartToGenTable =
      (mapEntries 0 (demoMcTable.filter
        (fun p => decide (IsCascadePiOrKDecay demoMcTable p)))).reverse ∧
    (mapEntries 0 (demoMcTable.filter
      (fun p => decide (IsCascadePiOrKDecay demoMcTable p)))).reverse = [(0, 0)] :=
  ⟨by decide,
    (map_to_gen_table_is_rebuilt demoExtMc
      { demoState 1 with mapMcPartToGenTable := [(5, 9)] } demoMcTable (by decide)).1,
    by decide⟩

/-! ### C11 -/

/-- Claim C11 at a concrete input. The propagator of `demoExtProp` moves the
cascade track of `demoCascade demoXCasc demoXPos` to the reference coordinate
77, on which every fit of `demoProcess` throws; the impact parameter 3 it
reports reaches the row, yet `fillTable` emits a row with the `FitOk` entry,
and the cascade momentum of the row is that of the cascade track before the
propagation: the tracked fit ran on `getTrackParCov(trackCasc)` as declared
anew inside the loop over the tracks (line 623), not on the propagated state
of lines 488-493. -/
theorem tracked_fit_ignores_propagated_cascade_track :
    (propagate demoExtProp Config.default (demoState 1) (0, 0, 0)
      (getTrackParCov (demoCascade demoXCasc demoXPos).track)).1 = parOf 77 ∧
    (getTrackParCov (demoCascade demoXCasc demoXPos).track).x = demoXCasc ∧
    (∀ (bz : ℚ) (b : TrackParCov),
      demoExtProp.process bz (parOf 77) b = FitOutcome.runtimeError) ∧
    (fillTable demoExtProp Config.default false none [demoCascade demoXCasc demoXPos]
      [demoPion 20 (-1)] TaskState.init [demoCollision 0 1]).out.rows.map
        (fun r => (r.pxCasc, r.dcaXYCasc)) = [(demoXCasc, 3)] ∧
    (fillTable demoExtProp Config.default false none [demoCascade demoXCasc demoXPos]
      [demoPion 20 (-1)] TaskState.init [demoCollision 0 1]).out.fills =
      [(Site.PrPi, SVFitting.BeforeFit), (Site.PrPi, SVFitting.FitOk),
        (Site.V0Pi, SVFitting.BeforeFit), (Site.V0Pi, SVFitting.FitOk),
        (Site.CascPiOrK, SVFitting.BeforeFit), (Site.CascPiOrK, SVFitting.FitOk)] := by
  refine ⟨?_, ?_, ?_, ?_, ?_⟩
  · norm_num [propagate, demoExtProp, demoExt, Config.default, demoState, getTrackParCov,
      demoCascade, goodTrack, parOf, demoXCasc]
  · norm_num [getTrackParCov, demoCascade, goodTrack, parOf]
  · intro bz b
    simp [demoExtProp, demoExt, demoProcess, parOf]
  · norm_num [fillTable, processCollision, updateRun, demoExtProp, demoExt, demoCollision,
      TaskState.init,
      groupedTrackIdsOf, groupedTrackedCascadesOf, demoCascade, demoPion, forEach, processCascade,
      lacksClusters, goodTrack, Config.default, v0TrackPrOf, v0TrackPiOf, demoProcess,
      getTrackParCov,
      parOf, demoXPos, demoXCasc, cascadeFit, pairWithTracks, mkCascCtx, inCascadeWindow,
      cascadePidOk,
      processTrack, isCascadeDaughter, trackSelected, trackedFit, inBaryonWindow, propagate,
      getPrimaryVertex, motherGenIndex, Out.append, Out.ofFills, Out.nil, itsNClsMin, mkRow,
      tpcNclsFindableFraction, tpcChi2NclMax, itsChi2NclMax, MassLambda0, MassKPlus, MassPiPlus,
      MassOmegaMinus, MassXiMinus, MassOmegaC0, MassXiC0, MassProton, MassPiMinus, abs_lt]
  · norm_num [fillTable, processCollision, updateRun, demoExtProp, demoExt, demoCollision,
      TaskState.init,
      groupedTrackIdsOf, groupedTrackedCascadesOf, demoCascade, demoPion, forEach, processCascade,
      lacksClusters, goodTrack, Config.default, v0TrackPrOf, v0TrackPiOf, demoProcess,
      getTrackParCov,
      parOf, demoXPos, demoXCasc, cascadeFit, pairWithTracks, mkCascCtx, inCascadeWindow,
      cascadePidOk,
      processTrack, isCascadeDaughter, trackSelected, trackedFit, inBaryonWindow, propagate,
      getPrimaryVertex, motherGenIndex, Out.append, Out.ofFills, Out.nil, itsNClsMin, mkRow,
      tpcNclsFindableFraction, tpcChi2NclMax, itsChi2NclMax, MassLambda0, MassKPlus, MassPiPlus,
      MassOmegaMinus, MassXiMinus, MassOmegaC0, MassXiC0, MassProton, MassPiMinus, abs_lt]

/-! ### C21 -/

theorem Out.sameReco_refl (a : Out) : Out.sameReco a a := ⟨rfl, rfl, rfl⟩

theorem Out.sameReco_append {a b c d : Out} (h1 : Out.sameReco a b) (h2 : Out.sameReco c d) :
    Out.sameReco (a.append c) (b.append d) := by
  obtain ⟨r1, f1, q1⟩ := h1
  obtain ⟨r2, f2, q2⟩ := h2
  refine ⟨?_, ?_, ?_⟩
  · simp only [Out.rows_append, List.map_append, r1, r2]
  · simp only [Out.fills_append, f1, f2]
  · simp only [Out.queries_append, q1, q2]

/-- Two loops whose bodies append the same but for the truth columns, when
started from members with the same environment, do so as a whole. -/
theorem forEach_sameReco {α : Type} (body1 body2 : TaskState → α → TaskState × Out)
    (henv1 : ∀ st a, (body1 st a).1.env = st.env) (henv2 : ∀ st a, (body2 st a).1.env = st.env)
    (hb : ∀ st st' a, st'.env = st.env → Out.sameReco (body2 st' a).2 (body1 st a).2)
    (xs : List α) :
    ∀ st st', st'.env = st.env → Out.sameReco (forEach body2 st' xs).2 (forEach body1 st xs).2 := by
  induction xs with
  | nil => intro st st' _; exact Out.sameReco_refl _
  | cons a as ih =>
    intro st st' h
    rw [forEach_cons, forEach_cons]
    exact Out.sameReco_append (hb st st' a h)
      (ih _ _ ((henv2 st' a).trans (h.trans (henv1 st a).symm)))

theorem processTrack_sameReco (ext : Ext) (cfg : Config) (m1 m2 : Bool)
    (p1 p2 : Option (List McParticle)) (ctx : CascCtx) (k : Int) (st st' : TaskState)
    (trackId : TrackAssoc) (h : st'.env = st.env) :
    Out.sameReco (processTrack ext cfg m2 p2 { ctx with trackCascMotherId := k } st' trackId).2
      (processTrack ext cfg m1 p1 ctx st trackId).2 := by
  have hu' : untrackedOutcome ext cfg { ctx with trackCascMotherId := k } st' trackId =
      untrackedOutcome ext cfg ctx st trackId :=
    (untrackedOutcome_congr ext cfg { ctx with trackCascMotherId := k } st st' trackId h).trans rfl
  have ht' : trackedOutcome ext cfg { ctx with trackCascMotherId := k } st' trackId =
      trackedOutcome ext cfg ctx st trackId :=
    (trackedOutcome_congr ext cfg { ctx with trackCascMotherId := k } st st' trackId h).trans rfl
  by_cases hd : isCascadeDaughter ctx trackId.track
  · have hd' : isCascadeDaughter { ctx with trackCascMotherId := k } trackId.track := hd
    rw [processTrack_of_daughter _ _ _ _ _ _ _ hd, processTrack_of_daughter _ _ _ _ _ _ _ hd']
    exact Out.sameReco_refl _
  · have hd' : ¬ isCascadeDaughter { ctx with trackCascMotherId := k } trackId.track := hd
    by_cases hs : trackSelected cfg trackId.track
    · by_cases hu : untrackedOutcome ext cfg ctx st trackId = FitOutcome.runtimeError
      · rw [processTrack_of_untracked_error _ _ _ _ _ _ _ hd hs hu,
          processTrack_of_untracked_error _ _ _ _ _ _ _ hd' hs (hu'.trans hu)]
        exact Out.sameReco_refl _
      · have hu2 : untrackedOutcome ext cfg { ctx with trackCascMotherId := k } st' trackId ≠
            FitOutcome.runtimeError := fun e => hu (hu'.symm.trans e)
        cases ht : trackedOutcome ext cfg ctx st trackId with
        | ok r =>
          rw [processTrack_of_tracked_ok _ _ _ _ _ _ _ r hd hs hu ht,
            processTrack_of_tracked_ok _ _ _ _ _ _ _ r hd' hs hu2 (ht'.trans ht)]
          refine ⟨?_, rfl, rfl⟩
          by_cases hw : fitInWindow ext cfg r
          · simp only [hw, if_true, List.map_cons, List.map_nil, List.cons.injEq, and_true]
            simp only [rowOf, hu', propagate_congr ext cfg st st' _ _ h]
            rfl
          · simp only [hw, if_false, List.map_nil]
        | noCandidate =>
          rw [processTrack_of_tracked_noCandidate _ _ _ _ _ _ _ hd hs hu ht,
            processTrack_of_tracked_noCandidate _ _ _ _ _ _ _ hd' hs hu2 (ht'.trans ht)]
          exact Out.sameReco_refl _
        | runtimeError =>
          rw [processTrack_of_tracked_error _ _ _ _ _ _ _ hd hs hu ht,
            processTrack_of_tracked_error _ _ _ _ _ _ _ hd' hs hu2 (ht'.trans ht)]
          exact Out.sameReco_refl _
    · rw [processTrack_of_unselected _ _ _ _ _ _ _ hs, processTrack_of_unselected _ _ _ _ _ _ _ hs]
      exact Out.sameReco_refl _

theorem pairWithTracks_sameReco (ext : Ext) (cfg : Config) (m1 m2 : Bool)
    (p1 p2 : Option (List McParticle)) (grouped : List TrackAssoc) (ctx : CascCtx) (k : Int)
    (st st' : TaskState) (h : st'.env = st.env) :
    Out.sameReco (pairWithTracks ext cfg m2 p2 grouped st' { ctx with trackCascMotherId := k }).2
      (pairWithTracks ext cfg m1 p1 grouped st ctx).2 := by
  unfold pairWithTracks
  by_cases hw : inCascadeWindow cfg ctx.massOmega ctx.massXi
  · by_cases hp : cascadePidOk cfg ctx.trackedCascade.cascade.bachelor ctx.v0TrackPr ctx.v0TrackPi
    · simp only [hw, hp, if_true]
      exact forEach_sameReco _ _ (processTrack_env ext cfg m1 p1 ctx)
        (processTrack_env ext cfg m2 p2 { ctx with trackCascMotherId := k })
        (fun s s' a hs => processTrack_sameReco ext cfg m1 m2 p1 p2 ctx k s s' a hs)
        grouped st st' h
    · simp only [hw, hp, if_true, if_false]
      exact Out.sameReco_refl _
  · simp only [hw, if_false]
    exact Out.sameReco_refl _

theorem cascCtxOf_congr (ext : Ext) (cfg : Config) (m1 m2 : Bool)
    (p1 p2 : Option (List McParticle)) (pv : Vec3) (st st' : TaskState) (tc : TrackedCascade)
    (r1 r2 : FitResult) (h : st'.env = st.env) :
    cascCtxOf ext cfg m2 p2 pv st' tc r1 r2 =
      { cascCtxOf ext cfg m1 p1 pv st tc r1 r2 with
        trackCascMotherId := motherGenIndex m2 (p2.getD []) st'.mapMcPartToGenTable tc.track } := by
  simp only [cascCtxOf, mkCascCtx, propagate_congr ext cfg st st' _ _ h]

theorem processCascade_sameReco (ext : Ext) (cfg : Config) (m1 m2 : Bool)
    (p1 p2 : Option (List McParticle)) (pv : Vec3) (grouped : List TrackAssoc)
    (st st' : TaskState) (tc : TrackedCascade) (h : st'.env = st.env) :
    Out.sameReco (processCascade ext cfg m2 p2 pv grouped st' tc).2
      (processCascade ext cfg m1 p1 pv grouped st tc).2 := by
  by_cases hc : lacksClusters cfg tc.cascade.v0.posTrack tc.cascade.v0.negTrack
      tc.cascade.bachelor
  · rw [processCascade_of_lacksClusters _ _ _ _ _ _ _ _ hc,
      processCascade_of_lacksClusters _ _ _ _ _ _ _ _ hc]
    exact Out.sameReco_refl _
  · have e1 := prPiOutcome_congr ext st st' tc h
    cases h1 : prPiOutcome ext st tc with
    | noCandidate =>
      rw [processCascade_of_prPi_noCandidate _ _ _ _ _ _ _ _ hc h1,
        processCascade_of_prPi_noCandidate _ _ _ _ _ _ _ _ hc (e1.trans h1)]
      exact Out.sameReco_refl _
    | runtimeError =>
      rw [processCascade_of_prPi_error _ _ _ _ _ _ _ _ hc h1,
        processCascade_of_prPi_error _ _ _ _ _ _ _ _ hc (e1.trans h1)]
      exact Out.sameReco_refl _
    | ok r1 =>
      have e2 := v0PiOutcome_congr ext st st' tc r1 h
      cases h2 : v0PiOutcome ext st tc r1 with
      | noCandidate =>
        rw [processCascade_of_v0Pi_noCandidate _ _ _ _ _ _ _ _ r1 hc h1 h2,
          processCascade_of_v0Pi_noCandidate _ _ _ _ _ _ _ _ r1 hc (e1.trans h1) (e2.trans h2)]
        exact Out.sameReco_refl _
      | runtimeError =>
        rw [processCascade_of_v0Pi_error _ _ _ _ _ _ _ _ r1 hc h1 h2,
          processCascade_of_v0Pi_error _ _ _ _ _ _ _ _ r1 hc (e1.trans h1) (e2.trans h2)]
        exact Out.sameReco_refl _
      | ok r2 =>
        rw [processCascade_of_fits_ok _ _ _ _ _ _ _ _ r1 r2 hc h1 h2,
          processCascade_of_fits_ok _ _ _ _ _ _ _ _ r1 r2 hc (e1.trans h1) (e2.trans h2),
          cascCtxOf_congr ext cfg m1 m2 p1 p2 pv st st' tc r1 r2 h]
        exact Out.sameReco_append (Out.sameReco_refl _)
          (pairWithTracks_sameReco ext cfg m1 m2 p1 p2 grouped _ _ st st' h)

theorem updateRun_congr (ext : Ext) (cfg : Config) (st st' : TaskState) (bc : BC)
    (h : st'.env = st.env) :
    (updateRun ext cfg st' bc).1.env = (updateRun ext cfg st bc).1.env ∧
    (updateRun ext cfg st' bc).2 = (updateRun ext cfg st bc).2 := by
  simp only [TaskState.env, Prod.mk.injEq] at h
  obtain ⟨hr, hb, hd, hf, hm⟩ := h
  unfold updateRun
  rw [hr]
  by_cases hrun : st.runNumber = bc.runNumber
  · simp [hrun, TaskState.env, hr, hb, hd, hf, hm]
  · cases ext.getGRPObject bc.timestamp with
    | some g => simp [hrun, TaskState.env, hm]
    | none =>
      cases ext.getGRPMagField bc.timestamp with
      | some g => simp [hrun, TaskState.env, hm]
      | none => simp [hrun, TaskState.env, hm, hb, hd, hf]

theorem processCollision_sameReco (ext : Ext) (cfg : Config) (m1 m2 : Bool)
    (p1 p2 : Option (List McParticle)) (tcs : List TrackedCascade) (tis : List TrackAssoc)
    (st st' : TaskState) (c : Collision) (h : st'.env = st.env) :
    (processCollision ext cfg m2 p2 tcs tis st' c).st.env =
      (processCollision ext cfg m1 p1 tcs tis st c).st.env ∧
    Out.sameReco (processCollision ext cfg m2 p2 tcs tis st' c).out
      (processCollision ext cfg m1 p1 tcs tis st c).out ∧
    (processCollision ext cfg m2 p2 tcs tis st' c).fatal =
      (processCollision ext cfg m1 p1 tcs tis st c).fatal := by
  obtain ⟨he, h2⟩ := updateRun_congr ext cfg st st' c.bc h
  cases hf : (updateRun ext cfg st c.bc).2.2 with
  | true =>
    have hf' : (updateRun ext cfg st' c.bc).2.2 = true := by rw [h2]; exact hf
    rw [processCollision_of_fatal _ _ _ _ _ _ _ _ hf, processCollision_of_fatal _ _ _ _ _ _ _ _ hf']
    refine ⟨he, ⟨rfl, rfl, ?_⟩, rfl⟩
    simp only [h2]
  | false =>
    have hf' : (updateRun ext cfg st' c.bc).2.2 = false := by rw [h2]; exact hf
    rw [processCollision_of_not_fatal _ _ _ _ _ _ _ _ hf,
      processCollision_of_not_fatal _ _ _ _ _ _ _ _ hf']
    refine ⟨?_, ?_, rfl⟩
    · simp only
      rw [forEach_preserves TaskState.env _ (processCascade_env ext cfg m2 p2 _ _),
        forEach_preserves TaskState.env _ (processCascade_env ext cfg m1 p1 _ _)]
      exact he
    · simp only
      refine Out.sameReco_append ⟨rfl, rfl, ?_⟩ ?_
      · simp only [h2]
      · exact forEach_sameReco _ _ (processCascade_env ext cfg m1 p1 _ _)
          (processCascade_env ext cfg m2 p2 _ _)
          (fun s s' a hs => processCascade_sameReco ext cfg m1 m2 p1 p2 _ _ s s' a hs) _ _ _ he

theorem fillTable_sameReco (ext : Ext) (cfg : Config) (m1 m2 : Bool)
    (p1 p2 : Option (List McParticle)) (tcs : List TrackedCascade) (tis : List TrackAssoc)
    (cs : List Collision) :
    ∀ st st' : TaskState, st'.env = st.env →
      (fillTable ext cfg m2 p2 tcs tis st' cs).st.env =
        (fillTable ext cfg m1 p1 tcs tis st cs).st.env ∧
      Out.sameReco (fillTable ext cfg m2 p2 tcs tis st' cs).out
        (fillTable ext cfg m1 p1 tcs tis st cs).out ∧
      (fillTable ext cfg m2 p2 tcs tis st' cs).fatal =
        (fillTable ext cfg m1 p1 tcs tis st cs).fatal := by
  induction cs with
  | nil =>
    intro st st' h
    rw [fillTable_nil, fillTable_nil]
    exact ⟨h, Out.sameReco_refl _, rfl⟩
  | cons c cs ih =>
    intro st st' h
    obtain ⟨he, ho, hf⟩ := processCollision_sameReco ext cfg m1 m2 p1 p2 tcs tis st st' c h
    cases hfat : (processCollision ext cfg m1 p1 tcs tis st c).fatal with
    | true =>
      rw [fillTable_cons_of_fatal _ _ _ _ _ _ _ _ _ hfat,
        fillTable_cons_of_fatal _ _ _ _ _ _ _ _ _ (hf.trans hfat)]
      exact ⟨he, ho, hf⟩
    | false =>
      rw [fillTable_cons_of_not_fatal _ _ _ _ _ _ _ _ _ hfat,
        fillTable_cons_of_not_fatal _ _ _ _ _ _ _ _ _ (hf.trans hfat)]
      obtain ⟨he2, ho2, hf2⟩ := ih _ _ he
      exact ⟨he2, Out.sameReco_append ho ho2, hf2⟩

/-- Claim C21. For the same members, collisions, tracked cascades and track
associations, `processMcRec` (with any table of generated particles) and
`processData` emit the same number of rows, in the same order, and the rows
agree in every column except `motherCasc`, `motherPionOrKaon` and
`originMcRec`; the two runs also fill the candidate counters alike and end by
`LOG(fatal)` alike: the truth match decides nothing about emission. -/
theorem truth_information_only_annotates (ext : Ext) (cfg : Config) (st : TaskState)
    (collisions : List Collision) (trackedCascades : List TrackedCascade)
    (trackIndices : List TrackAssoc) (mcParticles : List McParticle) :
    (processMcRec ext cfg st collisions trackedCascades trackIndices mcParticles).out.rows.length =
      (processData ext cfg st collisions trackedCascades trackIndices).out.rows.length ∧
    (processMcRec ext cfg st collisions trackedCascades trackIndices mcParticles).out.rows.map
        Row.withoutTruth =
      (processData ext cfg st collisions trackedCascades trackIndices).out.rows.map
        Row.withoutTruth ∧
    (processMcRec ext cfg st collisions trackedCascades trackIndices mcParticles).out.fills =
      (processData ext cfg st collisions trackedCascades trackIndices).out.fills ∧
    (processMcRec ext cfg st collisions trackedCascades trackIndices mcParticles).fatal =
      (processData ext cfg st collisions trackedCascades trackIndices).fatal := by
  obtain ⟨_, ⟨hr, hfl, _⟩, hf⟩ := fillTable_sameReco ext cfg false true none (some mcParticles)
    trackedCascades trackIndices (collisions.filter (collisionFilter cfg)) st st rfl
  refine ⟨?_, hr, hfl, hf⟩
  have := congrArg List.length hr
  simpa [processMcRec, processData] using this

/-! ### C22 -/

theorem demo_processMc_xic :
    (processMc demoExtXic TaskState.init demoMcTableXic).1 =
      { TaskState.init with decayChannel := 1, mapMcPartToGenTable := [(0, 0)] } :=
  rfl

theorem demo_mcAt_xic_1 : mcAt demoMcTableXic 1 = some (demoParticle 1 3312 [0] [3, 4]) := rfl

theorem demo_mcAt_xic_2 : mcAt demoMcTableXic 2 = some (demoParticle 2 211 [0] []) := rfl

/-- C22, as stated, fails: in the data frame `demoXicRun` the generated chain is
Xi_c0 -> Xi- pi+, Xi- -> Lambda pi-, Lambda -> p pi-; `processMc` recognises
the decay and leaves the pion channel in `decayChannel`, the matcher finds the
common mother 0 of the candidate when asked for a Xi_c0, and the candidate is
emitted; but the match of `fillTable` asks for an Omega_c0, gets -1, and the
candidate is not matched: `isMatched` stays false and its row carries no
origin. -/
theorem xic_chain_is_not_matched :
    IsCascadePiOrKDecay demoMcTableXic (demoParticle 0 4132 [] [1, 2]) ∧
    (processMc demoExtXic TaskState.init demoMcTableXic).1.decayChannel = OmegaczeroToOmegaPi ∧
    demoExtXic.getMatchedMCRec demoMcTableXic
      [(demoPion 20 2).track, (demoCascadeMc 1 4 5 6).cascade.bachelor,
        (demoCascadeMc 1 4 5 6).cascade.v0.posTrack, (demoCascadeMc 1 4 5 6).cascade.v0.negTrack]
      kXiC0 [kPiPlus, kPiMinus, kProton, kPiMinus] 3 [false, true, false, true, false] = 0 ∧
    demoExtXic.getCharmHadronOrigin demoMcTableXic 0 = 1 ∧
    demoXicRun.out.rows.length = 1 ∧
    demoXicRun.st.indexRecCharmBaryon = -1 ∧
    demoXicRun.st.isMatched = false ∧
    demoXicRun.out.rows.map (fun r => r.originMcRec) = [0] := by
  refine ⟨by decide, by decide, by decide, by decide, ?_, ?_, ?_, ?_⟩
  all_goals
    simp only [demoXicRun, demo_processMc_xic]
    norm_num [processMcRec, demo_mcAt_xic_1, demo_mcAt_xic_2,
      fillTable, processCollision, updateRun, demoExt, demoExtXic, demoCollision, TaskState.init,
      groupedTrackIdsOf, groupedTrackedCascadesOf, demoCascadeMc, demoPion, forEach,
      processCascade, lacksClusters, goodTrack, Config.default, v0TrackPrOf, v0TrackPiOf,
      demoProcess, getTrackParCov, parOf, demoXPos, demoXCasc, cascadeFit, pairWithTracks,
      mkCascCtx, inCascadeWindow, cascadePidOk, processTrack, isCascadeDaughter, trackSelected,
      trackedFit, inBaryonWindow, propagate, getPrimaryVertex, motherGenIndex, Out.append,
      Out.ofFills, Out.nil, itsNClsMin, tpcNclsFindableFraction, tpcChi2NclMax, itsChi2NclMax,
      MassLambda0, MassKPlus, MassPiPlus, MassOmegaMinus, MassXiMinus, MassOmegaC0, MassXiC0,
      MassProton, MassPiMinus, abs_lt, collisionFilter, mcRecMatch, mcRecMatchLayers, matchChain,
      demoMatchXic, mkRow, demoParticle, kOmegaC0, kXiC0, kOmegaMinus, kXiMinus, kPiPlus, kKPlus,
      OmegaczeroToOmegaPi, OmegaczeroToOmegaK, kKMinus, kProton, kPiMinus, kLambda0, List.lookup]

theorem matchChain_indexRecCharmBaryon (ext : Ext) (mcp : List McParticle) (casc : Cascade)
    (track : Track) (pdgPartner : Int) (st : TaskState) :
    (matchChain ext mcp casc track pdgPartner st).indexRecCharmBaryon =
      ext.getMatchedMCRec mcp [track, casc.bachelor, casc.v0.posTrack, casc.v0.negTrack]
        kOmegaC0 [pdgPartner, kKMinus, kProton, kPiMinus] 3 [false, true, false, true, false] := by
  unfold matchChain
  simp only
  split_ifs <;> rfl

theorem mcRecMatch_isMatched (ext : Ext) (mcp : List McParticle) (casc : Cascade)
    (track : Track) (st : TaskState) :
    (mcRecMatch ext mcp casc track st).isMatched =
      (mcRecMatchLayers ext mcp casc track st).isMatched ∧
    (mcRecMatch ext mcp casc track st).indexRecCharmBaryon =
      (mcRecMatchLayers ext mcp casc track st).indexRecCharmBaryon := by
  unfold mcRecMatch
  simp only
  split_ifs <;> exact ⟨rfl, rfl⟩

/-- C22, amended: the truth match of a candidate asks the matcher for an
Omega_c0 at the baryon layer, an Omega- at the cascade layer and a Lambda at the
V0 layer, in both decay channels, and for nothing else: a matcher that answers
these requests alike leaves the members alike, whatever it answers for a Xi_c0
or a Xi-; and a candidate that was not flagged before is flagged as matched by
its own match only if the three requests (Omega_c0 with a pi+ or a K+ as
partner, Omega-, Lambda) each returned an index, the first of which is what
`indexRecCharmBaryon` holds. -/
theorem truth_match_asks_for_omegac_only (ext : Ext) (mcp : List McParticle) (casc : Cascade)
    (track : Track) (st : TaskState) (h0 : st.isMatched = false) :
    (∀ ext2 : Ext, ext2.getCharmHadronOrigin = ext.getCharmHadronOrigin →
      (∀ ds pdgMother pdgDaughters depth flags,
        pdgMother = kOmegaC0 ∨ pdgMother = kOmegaMinus ∨ pdgMother = kLambda0 →
        ext2.getMatchedMCRec mcp ds pdgMother pdgDaughters depth flags =
          ext.getMatchedMCRec mcp ds pdgMother pdgDaughters depth flags) →
      mcRecMatch ext2 mcp casc track st = mcRecMatch ext mcp casc track st) ∧
    ((mcRecMatch ext mcp casc track st).isMatched = true →
      ∃ pdgPartner, (pdgPartner = kPiPlus ∨ pdgPartner = kKPlus) ∧
        (mcRecMatch ext mcp casc track st).indexRecCharmBaryon =
          ext.getMatchedMCRec mcp [track, casc.bachelor, casc.v0.posTrack, casc.v0.negTrack]
            kOmegaC0 [pdgPartner, kKMinus, kProton, kPiMinus] 3
            [false, true, false, true, false] ∧
        ext.getMatchedMCRec mcp [track, casc.bachelor, casc.v0.posTrack, casc.v0.negTrack]
          kOmegaC0 [pdgPartner, kKMinus, kProton, kPiMinus] 3
          [false, true, false, true, false] > -1 ∧
        ext.getMatchedMCRec mcp [casc.bachelor, casc.v0.posTrack, casc.v0.negTrack]
          kOmegaMinus [kKMinus, kProton, kPiMinus] 2 [false, true, false, true, true] > -1 ∧
        ext.getMatchedMCRec mcp [casc.v0.posTrack, casc.v0.negTrack]
          kLambda0 [kProton, kPiMinus] 1 [false, true, false, true, true] > -1) := by
  constructor
  · intro ext2 horigin hmatch
    have a1 := fun pd => hmatch [track, casc.bachelor, casc.v0.posTrack, casc.v0.negTrack]
      kOmegaC0 [pd, kKMinus, kProton, kPiMinus] 3 [false, true, false, true, false] (Or.inl rfl)
    have a2 := hmatch [casc.bachelor, casc.v0.posTrack, casc.v0.negTrack]
      kOmegaMinus [kKMinus, kProton, kPiMinus] 2 [false, true, false, true, true]
      (Or.inr (Or.inl rfl))
    have a3 := hmatch [casc.v0.posTrack, casc.v0.negTrack]
      kLambda0 [kProton, kPiMinus] 1 [false, true, false, true, true] (Or.inr (Or.inr rfl))
    simp only [mcRecMatch, mcRecMatchLayers, matchChain, a1, a2, a3, horigin]
  · intro hm
    obtain ⟨e1, e2⟩ := mcRecMatch_isMatched ext mcp casc track st
    rw [e1] at hm
    rw [e2]
    unfold mcRecMatchLayers at hm ⊢
    by_cases hpi : st.decayChannel = OmegaczeroToOmegaPi
    · simp only [hpi, if_true] at hm ⊢
      rcases (matchChain_isMatched ext mcp casc track kPiPlus st).mp hm with hst | hall
      · rw [h0] at hst; cases hst
      · exact ⟨kPiPlus, Or.inl rfl, matchChain_indexRecCharmBaryon _ _ _ _ _ _, hall⟩
    · by_cases hk : st.decayChannel = OmegaczeroToOmegaK
      · simp only [hpi, hk, if_true, if_false] at hm ⊢
        rcases (matchChain_isMatched ext mcp casc track kKPlus st).mp hm with hst | hall
        · rw [h0] at hst; cases hst
        · exact ⟨kKPlus, Or.inr rfl, matchChain_indexRecCharmBaryon _ _ _ _ _ _, hall⟩
      · simp only [hpi, hk, if_false] at hm
        rw [h0] at hm; cases hm

/-- C22, amended, on the candidate of `demoMcRun` that comes from the Omega_c0:
its match flags it, and all three requests returned an index. -/
theorem truth_match_asks_for_omegac_only_witness :
    (mcRecMatch demoExtMc demoMcTable (demoCascadeMc 1 4 5 6).cascade (demoPion 20 2).track
      (processMc demoExtMc TaskState.init demoMcTable).1).isMatched = true ∧
    ∃ pdgPartner, (pdgPartner = kPiPlus ∨ pdgPartner = kKPlus) ∧
      (mcRecMatch demoExtMc demoMcTable (demoCascadeMc 1 4 5 6).cascade (demoPion 20 2).track
        (processMc demoExtMc TaskState.init demoMcTable).1).indexRecCharmBaryon =
        demoExtMc.getMatchedMCRec demoMcTable
          [(demoPion 20 2).track, (demoCascadeMc 1 4 5 6).cascade.bachelor,
            (demoCascadeMc 1 4 5 6).cascade.v0.posTrack,
            (demoCascadeMc 1 4 5 6).cascade.v0.negTrack]
          kOmegaC0 [pdgPartner, kKMinus, kProton, kPiMinus] 3
          [false, true, false, true, false] ∧
      demoExtMc.getMatchedMCRec demoMcTable
        [(demoPion 20 2).track, (demoCascadeMc 1 4 5 6).cascade.bachelor,
          (demoCascadeMc 1 4 5 6).cascade.v0.posTrack,
          (demoCascadeMc 1 4 5 6).cascade.v0.negTrack]
        kOmegaC0 [pdgPartner, kKMinus, kProton, kPiMinus] 3
        [false, true, false, true, false] > -1 ∧
      demoExtMc.getMatchedMCRec demoMcTable
        [(demoCascadeMc 1 4 5 6).cascade.bachelor, (demoCascadeMc 1 4 5 6).cascade.v0.posTrack,
          (demoCascadeMc 1 4 5 6).cascade.v0.negTrack]
        kOmegaMinus [kKMinus, kProton, kPiMinus] 2 [false, true, false, true, true] > -1 ∧
      demoExtMc.getMatchedMCRec demoMcTable
        [(demoCascadeMc 1 4 5 6).cascade.v0.posTrack, (demoCascadeMc 1 4 5 6).cascade.v0.negTrack]
        kLambda0 [kProton, kPiMinus] 1 [false, true, false, true, true] > -1 :=
  ⟨by decide,
    (truth_match_asks_for_omegac_only demoExtMc demoMcTable (demoCascadeMc 1 4 5 6).cascade
      (demoPion 20 2).track (processMc demoExtMc TaskState.init demoMcTable).1 (by decide)).2
      (by decide)⟩

/-! ### C23 and C24: the two table schemas -/

/-- C23, as stated, fails: `HfStChBars` is declared with 53 columns, not 44,
and the row emitted by the concrete run `demo_fillTable_rows_length` carries 53
values. -/
theorem output_row_does_not_have_44_columns :
    hfStChBarsColumns.length = 53 ∧ hfStChBarsColumns.length ≠ 44 ∧
    (fillTable demoExt Config.default false none [demoCascade demoXCasc demoXPos]
      [demoPion 20 (-1)] TaskState.init [demoCollision 0 1]).out.rows.map
        (fun r => r.cells.length) = [53] := by
  refine ⟨by decide, by decide, ?_⟩
  obtain ⟨row, hrow⟩ := List.length_eq_one.mp demo_fillTable_rows_length
  rw [hrow]
  rfl

/-- C23, amended: `HfStChBars` has exactly 53 columns; the call `outputTable` of
`fillTable` is written with exactly 53 arguments, the type of each argument is
the type of the column at its position, and the row appended holds them in
the declared column order. -/
theorem output_row_has_53_columns (ext : Ext) (ctx : CascCtx) (track : Track) (r : FitResult)
    (impactParameterPion : DCA) (decayLengthUntracked decayLengthXYUntracked : ℚ)
    (trackMotherId : Int) (origin : Int) :
    hfStChBarsColumns.length = 53 ∧
    (mkRow ext ctx track r impactParameterPion decayLengthUntracked decayLengthXYUntracked
      trackMotherId origin).cells.length = 53 ∧
    (mkRow ext ctx track r impactParameterPion decayLengthUntracked decayLengthXYUntracked
      trackMotherId origin).cells =
      outputTableArgs ext ctx.massOmega ctx.massXi ctx.massV0 track ctx.v0TrackPr ctx.v0TrackPi
        ctx.trackedCascade.cascade.bachelor ctx.trackedCascade.track
        (ext.getPxPyPzGlo r.trackParamAtPCA0) (ext.getPxPyPzGlo r.trackParamAtPCA1)
        (ext.cpa ctx.primaryVertex r.pcaCandidate (ext.getPxPyPzGlo r.parentTrackParCov))
        (ext.cpaXY ctx.primaryVertex r.pcaCandidate (ext.getPxPyPzGlo r.parentTrackParCov))
        ctx.cpaCasc ctx.cpaXYCasc ctx.impactParameterCasc impactParameterPion
        ctx.impactParameterPr ctx.impactParameterKa ctx.impactParameterPi
        r.chi2AtPCACandidate ctx.trackedCascade.topologyChi2
        (ext.distance r.pcaCandidate ctx.primaryVertex)
        (ext.distanceXY r.pcaCandidate ctx.primaryVertex)
        decayLengthUntracked decayLengthXYUntracked ctx.decayLengthCasc ctx.decayLengthCascXY
        ctx.trackCascMotherId trackMotherId origin ∧
    (mkRow ext ctx track r impactParameterPion decayLengthUntracked decayLengthXYUntracked
      trackMotherId origin).cells.map Cell.type = hfStChBarsColumns.map (fun c => c.2) := by
  refine ⟨by decide, rfl, ?_, rfl⟩
  simp [mkRow, Row.cells, outputTableArgs]

/-- Claim C24. `HfStChBarGens` has exactly 14 columns; the call `outputTableGen`
of `processMc` is written with exactly 14 arguments, in the declared column
order: the momentum and PDG code of the baryon, the momentum and PDG code of
the cascade, the decay length and transverse decay length of the baryon, those
of the cascade, the origin and the decay channel; the type of each argument is
the type of the column at its position. -/
theorem generated_row_has_14_columns (ext : Ext) (table : List McParticle)
    (mcParticle cascDaughter : McParticle) (origin decayChannel : Int) :
    hfStChBarGensColumns.length = 14 ∧
    (genRecord ext table mcParticle cascDaughter origin decayChannel).1.cells.length = 14 ∧
    (genRecord ext table mcParticle cascDaughter origin decayChannel).1.cells =
      outputTableGenArgs mcParticle cascDaughter
        (ext.distance (cascDaughter.vx, cascDaughter.vy, cascDaughter.vz)
          mcParticle.mcCollisionPos)
        (ext.distanceXY (cascDaughter.vx, cascDaughter.vy, cascDaughter.vz)
          mcParticle.mcCollisionPos)
        (match daughtersOf table cascDaughter with
          | d :: _ => ext.distance (d.vx, d.vy, d.vz) mcParticle.mcCollisionPos
          | [] => -1)
        (match daughtersOf table cascDaughter with
          | d :: _ => ext.distanceXY (d.vx, d.vy, d.vz) mcParticle.mcCollisionPos
          | [] => -1)
        origin decayChannel ∧
    (genRecord ext table mcParticle cascDaughter origin decayChannel).1.cells.map Cell.type =
      hfStChBarGensColumns.map (fun c => c.2) ∧
    hfStChBarGensColumns.map (fun c => c.1) =
      ["PxCharmedBaryon", "PyCharmedBaryon", "PzCharmedBaryon", "PdgCodeCharmedBaryon",
        "PxCasc", "PyCasc", "PzCasc", "PdgCodeCasc", "DecayLengthCharmedBaryon",
        "DecayLengthXYCharmedBaryon", "DecayLengthCasc", "DecayLengthXYCasc", "OriginMcGen",
        "DecayChannel"] := by
  refine ⟨by decide, rfl, ?_, rfl, by decide⟩
  cases h : daughtersOf table cascDaughter <;>
    simp [genRecord, GenRow.cells, outputTableGenArgs, h]

/-! ### C25 -/

/-- Claim C25. Every row emitted by `fillTable` comes from a combination whose
tracked fit succeeded and left the fitter state `r`, and whose untracked fit,
run before it, did not throw; the decay length, the transverse decay length,
the chi2, the two pointing angles of the baryon and the momenta of the cascade
and of the pion/kaon in the row are read from `r`; the two untracked decay
lengths are the distances of the vertex of the untracked fit when it
succeeded and -1 when it returned no candidate. -/
theorem baryon_vertex_is_read_from_tracked_fit (ext : Ext) (cfg : Config) (tracksExtMc : Bool)
    (mcParticles : Option (List McParticle)) (trackedCascades : List TrackedCascade)
    (trackIndices : List TrackAssoc) (st : TaskState) (collisions : List Collision) (row : Row)
    (h : row ∈ (fillTable ext cfg tracksExtMc mcParticles trackedCascades trackIndices st
      collisions).out.rows) :
    ∃ c, c ∈ collisions ∧
    ∃ (ctx : CascCtx) (st1 : TaskState) (trackId : TrackAssoc) (r : FitResult),
      ctx.primaryVertex = getPrimaryVertex c ∧
      trackedOutcome ext cfg ctx st1 trackId = FitOutcome.ok r ∧
      row.decayLengthCharmedBaryon = ext.distance r.pcaCandidate (getPrimaryVertex c) ∧
      row.decayLengthXYCharmedBaryon = ext.distanceXY r.pcaCandidate (getPrimaryVertex c) ∧
      row.chi2TopologicalCharmedBaryon = r.chi2AtPCACandidate ∧
      row.cpaCharmedBaryon = ext.cpa (getPrimaryVertex c) r.pcaCandidate
        (ext.getPxPyPzGlo r.parentTrackParCov) ∧
      row.cpaXYCharmedBaryon = ext.cpaXY (getPrimaryVertex c) r.pcaCandidate
        (ext.getPxPyPzGlo r.parentTrackParCov) ∧
      (row.pxCasc, row.pyCasc, row.pzCasc) = ext.getPxPyPzGlo r.trackParamAtPCA0 ∧
      (row.pxPionOrKaon, row.pyPionOrKaon, row.pzPionOrKaon) =
        ext.getPxPyPzGlo r.trackParamAtPCA1 ∧
      untrackedOutcome ext cfg ctx st1 trackId ≠ FitOutcome.runtimeError ∧
      (∀ ru, untrackedOutcome ext cfg ctx st1 trackId = FitOutcome.ok ru →
        row.decayLengthCharmedBaryonUntracked =
          ext.distance ru.pcaCandidate (getPrimaryVertex c) ∧
        row.decayLengthXYCharmedBaryonUntracked =
          ext.distanceXY ru.pcaCandidate (getPrimaryVertex c)) ∧
      (untrackedOutcome ext cfg ctx st1 trackId = FitOutcome.noCandidate →
        row.decayLengthCharmedBaryonUntracked = -1 ∧
        row.decayLengthXYCharmedBaryonUntracked = -1) := by
  obtain ⟨c, hc, tc, _, trackId, _, st0, st', r1, r2, r, _, _, _, _, _, _, _, hu, htr, _, hrow⟩ :=
    fillTable_row_origin _ _ _ _ _ _ _ _ _ h
  refine ⟨c, hc, _, st', trackId, r, rfl, htr, by rw [hrow]; rfl, by rw [hrow]; rfl,
    by rw [hrow]; rfl, by rw [hrow]; rfl, by rw [hrow]; rfl, by rw [hrow]; rfl,
    by rw [hrow]; rfl, hu, ?_, ?_⟩
  · intro ru hru
    constructor
    · rw [hrow]
      show (untrackedLengths ext _ (untrackedOutcome ext cfg _ st' trackId)).1 = _
      rw [hru]
      rfl
    · rw [hrow]
      show (untrackedLengths ext _ (untrackedOutcome ext cfg _ st' trackId)).2 = _
      rw [hru]
      rfl
  · intro hno
    constructor
    · rw [hrow]
      show (untrackedLengths ext _ (untrackedOutcome ext cfg _ st' trackId)).1 = _
      rw [hno]
      rfl
    · rw [hrow]
      show (untrackedLengths ext _ (untrackedOutcome ext cfg _ st' trackId)).2 = _
      rw [hno]
      rfl

/-- Claim C25 on the concrete run with one emitted row. -/
theorem baryon_vertex_is_read_from_tracked_fit_witness :
    ∃ row, row ∈ (fillTable demoExt Config.default false none [demoCascade demoXCasc demoXPos]
        [demoPion 20 (-1)] TaskState.init [demoCollision 0 1]).out.rows ∧
      ∃ c, c ∈ [demoCollision 0 1] ∧
      ∃ (ctx : CascCtx) (st1 : TaskState) (trackId : TrackAssoc) (r : FitResult),
        ctx.primaryVertex = getPrimaryVertex c ∧
        trackedOutcome demoExt Config.default ctx st1 trackId = FitOutcome.ok r ∧
        row.decayLengthCharmedBaryon = demoExt.distance r.pcaCandidate (getPrimaryVertex c) := by
  obtain ⟨row, hmem⟩ := demo_fillTable_has_row
  obtain ⟨c, hc, ctx, st1, trackId, r, h1, h2, h3, _⟩ :=
    baryon_vertex_is_read_from_tracked_fit demoExt Config.default false none
      [demoCascade demoXCasc demoXPos] [demoPion 20 (-1)] TaskState.init [demoCollision 0 1]
      row hmem
  exact ⟨row, hmem, c, hc, ctx, st1, trackId, r, h1, h2, h3⟩

/-! ### C26 -/

/-- Claim C26 at a concrete input. Right after start-up `processMcGen` meets a
collision of run 2: it stores the run number and initialises the propagator
with the object found for the run (field -5), but leaves `bz` and the fitter's
field at their start value 0. `fillTable`, called next on the same collision,
finds the run number unchanged, makes no lookup and fits in the field 0: it
emits no row and leaves the fitter's field at 0, whereas called first it looks
the field up, fits in the field -5 and emits a row. -/
theorem processMcGen_leaves_field_of_new_run_unset :
    demoStateAfterMcGen.runNumber = 2 ∧
    demoStateAfterMcGen.field = FieldInit.fromGRPObject ⟨-5⟩ ∧
    demoStateAfterMcGen.bz = 0 ∧
    demoStateAfterMcGen.dfBz = 0 ∧
    (fillTable demoExtField Config.default false none [demoCascade demoXCasc demoXPos]
      [demoPion 20 (-1)] demoStateAfterMcGen [demoCollision 0 2]).out.queries = [] ∧
    (fillTable demoExtField Config.default false none [demoCascade demoXCasc demoXPos]
      [demoPion 20 (-1)] demoStateAfterMcGen [demoCollision 0 2]).st.dfBz = 0 ∧
    (fillTable demoExtField Config.default false none [demoCascade demoXCasc demoXPos]
      [demoPion 20 (-1)] demoStateAfterMcGen [demoCollision 0 2]).out.rows.length = 0 ∧
    (fillTable demoExtField Config.default false none [demoCascade demoXCasc demoXPos]
      [demoPion 20 (-1)] TaskState.init [demoCollision 0 2]).st.dfBz = -5 ∧
    (fillTable demoExtField Config.default false none [demoCascade demoXCasc demoXPos]
      [demoPion 20 (-1)] TaskState.init [demoCollision 0 2]).out.rows.length = 1 := by
  have hs : demoStateAfterMcGen =
      { TaskState.init with runNumber := 2, field := FieldInit.fromGRPObject ⟨-5⟩ } := by
    simp [demoStateAfterMcGen, processMcGen, updateRunMcGen, demoExtField, demoExt,
      demoCollision, TaskState.init, forEach, Out.append, Out.nil]
  refine ⟨by rw [hs], by rw [hs], by rw [hs]; rfl, by rw [hs]; rfl, ?_, ?_, ?_, ?_, ?_⟩
  all_goals
    try rw [hs]
    norm_num [fillTable, processCollision, updateRun, demoExtField, demoExt, demoCollision,
      TaskState.init,
      groupedTrackIdsOf, groupedTrackedCascadesOf, demoCascade, demoPion, forEach, processCascade,
      lacksClusters, goodTrack, Config.default, v0TrackPrOf, v0TrackPiOf, demoProcess,
      getTrackParCov,
      parOf, demoXPos, demoXCasc, cascadeFit, pairWithTracks, mkCascCtx, inCascadeWindow,
      cascadePidOk,
      processTrack, isCascadeDaughter, trackSelected, trackedFit, inBaryonWindow, propagate,
      getPrimaryVertex, motherGenIndex, Out.append, Out.ofFills, Out.nil, itsNClsMin, mkRow,
      tpcNclsFindableFraction, tpcChi2NclMax, itsChi2NclMax, MassLambda0, MassKPlus, MassPiPlus,
      MassOmegaMinus, MassXiMinus, MassOmegaC0, MassXiC0, MassProton, MassPiMinus, abs_lt]

/-! ### C27 -/

/-- Claim C27 at a concrete input. The Omega_c0 at index 0 of `demoMcTable` has
no mother and decays to Omega- pi+; `processMc` writes its record, and the
entry of `hDecayLengthScaledMc` filled for it reads the first mother of a
particle that has none. -/
theorem first_mother_is_read_without_guard :
    WellFormedTable demoMcTable ∧
    mcAt demoMcTable 0 = some (demoParticle 0 4332 [] [1, 2]) ∧
    (demoParticle 0 4332 [] [1, 2]).mothersIds = [] ∧
    IsCascadePiOrKDecay demoMcTable (demoParticle 0 4332 [] [1, 2]) ∧
    (processMc demoExtMc TaskState.init demoMcTable).2.rows.length = 1 ∧
    (processMc demoExtMc TaskState.init demoMcTable).2.hDecayLengthScaledMc = [none] := by
  refine ⟨by decide, rfl, rfl, by decide, rfl, rfl⟩

/-! ### C28 -/

theorem processCollision_unread_options (ext : Ext) (cfg : Config) (tracksExtMc : Bool)
    (mcParticles : Option (List McParticle)) (a b c : ℚ) (d : Bool) :
    processCollision ext (cfg.withUnreadOptions a b c d) tracksExtMc mcParticles =
      processCollision ext cfg tracksExtMc mcParticles := rfl

theorem fillTable_unread_options (ext : Ext) (cfg : Config) (tracksExtMc : Bool)
    (mcParticles : Option (List McParticle)) (tcs : List TrackedCascade) (tis : List TrackAssoc)
    (a b c : ℚ) (d : Bool) (cs : List Collision) :
    ∀ st : TaskState,
      fillTable ext (cfg.withUnreadOptions a b c d) tracksExtMc mcParticles tcs tis st cs =
        fillTable ext cfg tracksExtMc mcParticles tcs tis st cs := by
  induction cs with
  | nil => intro st; rfl
  | cons x xs ih =>
    intro st
    simp only [fillTable, processCollision_unread_options, ih]

/-- Claim C28. The four configurables `massWindowLambda`,
`massWindowXiExclTrackedOmega`, `maxMatchingChi2TrackedCascade` and
`recalculateMasses` are not read by `fillTable`: two runs on the same input
whose configurables differ in these four options only give the same result
(rows, counter entries, members), through `processData` as through
`processMcRec`. -/
theorem rows_ignore_unread_options (ext : Ext) (cfg : Config) (st : TaskState)
    (collisions : List Collision) (trackedCascades : List TrackedCascade)
    (trackIndices : List TrackAssoc) (mcParticles : List McParticle)
    (massWindowLambda massWindowXiExclTrackedOmega maxMatchingChi2TrackedCascade : ℚ)
    (recalculateMasses : Bool) :
    (∀ (tracksExtMc : Bool) (mcp : Option (List McParticle)),
      (fillTable ext (cfg.withUnreadOptions massWindowLambda massWindowXiExclTrackedOmega
          maxMatchingChi2TrackedCascade recalculateMasses) tracksExtMc mcp trackedCascades
          trackIndices st collisions).out.rows =
        (fillTable ext cfg tracksExtMc mcp trackedCascades trackIndices st collisions).out.rows) ∧
    processData ext (cfg.withUnreadOptions massWindowLambda massWindowXiExclTrackedOmega
        maxMatchingChi2TrackedCascade recalculateMasses) st collisions trackedCascades
        trackIndices =
      processData ext cfg st collisions trackedCascades trackIndices ∧
    processMcRec ext (cfg.withUnreadOptions massWindowLambda massWindowXiExclTrackedOmega
        maxMatchingChi2TrackedCascade recalculateMasses) st collisions trackedCascades
        trackIndices mcParticles =
      processMcRec ext cfg st collisions trackedCascades trackIndices mcParticles := by
  refine ⟨fun m p => by rw [fillTable_unread_options], ?_, ?_⟩
  · unfold processData
    rw [fillTable_unread_options]
    rfl
  · unfold processMcRec
    rw [fillTable_unread_options]
    rfl

/-! ### C29 -/

/-- On a well-formed table the three indices left by the scan of the daughters
are set exactly when a daughter of the kind exists. -/
theorem scanOf_idx_iff {table : List McParticle} (hwf : WellFormedTable table) (p : McParticle) :
    (0 ≤ (scanOf table p).idxCascDaughter ↔ ∃ c ∈ daughtersOf table p,
      |c.pdgCode| = (if |p.pdgCode| = kOmegaC0 then kOmegaMinus else kXiMinus)) ∧
    (0 ≤ (scanOf table p).idxPionDaughter ↔ ∃ b ∈ daughtersOf table p, |b.pdgCode| = kPiPlus) ∧
    (0 ≤ (scanOf table p).idxKaonDaughter ↔ ∃ b ∈ daughtersOf table p, |b.pdgCode| = kKPlus) := by
  have hds : ∀ d ∈ daughtersOf table p, 0 ≤ d.globalIndex :=
    fun d hd => (daughtersOf_mem hwf p d hd).1
  obtain ⟨s1, s2, s3⟩ := foldl_scanDaughter (decide (|p.pdgCode| = kOmegaC0))
    (daughtersOf table p) ⟨-1, -1, -1⟩
  have e1 : (scanOf table p).idxCascDaughter =
      firstIdx (fun d => |d.pdgCode| =
        (if decide (|p.pdgCode| = kOmegaC0) = true then kOmegaMinus else kXiMinus)) (-1)
        (daughtersOf table p) := s1
  have e2 : (scanOf table p).idxPionDaughter =
      firstIdx (fun d => |d.pdgCode| = kPiPlus) (-1) (daughtersOf table p) := s2
  have e3 : (scanOf table p).idxKaonDaughter =
      firstIdx (fun d => |d.pdgCode| = kKPlus) (-1) (daughtersOf table p) := s3
  obtain ⟨c1, _⟩ := firstIdx_of_neg (fun d => |d.pdgCode| =
    (if decide (|p.pdgCode| = kOmegaC0) = true then kOmegaMinus else kXiMinus)) (-1)
    (daughtersOf table p) (by omega) hds
  obtain ⟨p1, _⟩ := firstIdx_of_neg (fun d => |d.pdgCode| = kPiPlus) (-1)
    (daughtersOf table p) (by omega) hds
  obtain ⟨k1, _⟩ := firstIdx_of_neg (fun d => |d.pdgCode| = kKPlus) (-1)
    (daughtersOf table p) (by omega) hds
  rw [← e1] at c1
  rw [← e2] at p1
  rw [← e3] at k1
  simp only [decide_eq_true_eq] at c1
  exact ⟨c1, p1, k1⟩

theorem recordOf_decayChannel (ext : Ext) (table : List McParticle) (p : McParticle) (r : GenRow)
    (h : recordOf ext table p = some r) :
    r.decayChannel = decayChannelOf (scanOf table p) ∧ decayChannelOf (scanOf table p) ≠ -1 ∧
      p.daughtersIds.length = 2 := by
  unfold recordOf at h
  by_cases hc : (|p.pdgCode| = kOmegaC0 ∨ |p.pdgCode| = kXiC0) ∧ p.daughtersIds.length = 2 ∧
      decayChannelOf (scanOf table p) ≠ -1
  · rw [if_pos hc] at h
    refine ⟨?_, hc.2.2, hc.2.1⟩
    cases hm : mcAt table (scanOf table p).idxCascDaughter with
    | none => simp [hm] at h
    | some cd =>
      simp only [hm, Option.some.injEq] at h
      rw [← h]
      rfl
  · rw [if_neg hc] at h
    cases h

theorem decayChannelOf_eq (d : DaughterIdx) (hc : 0 ≤ d.idxCascDaughter) :
    (decayChannelOf d = OmegaczeroToOmegaPi ↔ 0 ≤ d.idxPionDaughter) ∧
    (decayChannelOf d = OmegaczeroToOmegaK ↔ ¬ 0 ≤ d.idxPionDaughter ∧ 0 ≤ d.idxKaonDaughter) := by
  unfold decayChannelOf OmegaczeroToOmegaPi OmegaczeroToOmegaK
  by_cases hp : 0 ≤ d.idxPionDaughter <;> by_cases hk : 0 ≤ d.idxKaonDaughter <;>
    simp [hc, hp, hk]

/-- Two resolved daughters cannot be a cascade, a charged pion and a charged
kaon at once. -/
theorem daughters_not_three_kinds (table : List McParticle) (p : McParticle)
    (h2 : p.daughtersIds.length = 2) (c b k : McParticle)
    (hc : c ∈ daughtersOf table p) (hb : b ∈ daughtersOf table p) (hk : k ∈ daughtersOf table p)
    (hcp : |c.pdgCode| = kOmegaMinus ∨ |c.pdgCode| = kXiMinus) (hbp : |b.pdgCode| = kPiPlus)
    (hkp : |k.pdgCode| = kKPlus) : False := by
  have hlen : (daughtersOf table p).length ≤ 2 := by
    unfold daughtersOf
    exact (List.length_filterMap_le _ _).trans (le_of_eq h2)
  have hcb : c ≠ b := by
    intro e; rw [e, hbp] at hcp; revert hcp; decide
  have hck : c ≠ k := by
    intro e; rw [e, hkp] at hcp; revert hcp; decide
  have hbk : b ≠ k := by
    intro e; rw [e, hkp] at hbp; revert hbp; decide
  match hds : daughtersOf table p, hlen with
  | [], _ => rw [hds] at hc; simp at hc
  | [x], _ =>
    rw [hds] at hc hb
    simp only [List.mem_singleton] at hc hb
    exact hcb (hc.trans hb.symm)
  | [x, y], _ =>
    rw [hds] at hc hb hk
    simp only [List.mem_cons, List.mem_singleton, List.not_mem_nil, or_false] at hc hb hk
    rcases hc with hc | hc <;> rcases hb with hb | hb <;> rcases hk with hk | hk <;>
      first
        | exact hcb (hc.trans hb.symm)
        | exact hck (hc.trans hk.symm)
        | exact hbk (hb.trans hk.symm)
  | _ :: _ :: _ :: _, h => simp at h

theorem processMcParticle_decayChannel (ext : Ext) (table : List McParticle) (st : TaskState)
    (n : Nat) (p : McParticle) :
    (processMcParticle ext table st n p).1.decayChannel =
      if (|p.pdgCode| = kOmegaC0 ∨ |p.pdgCode| = kXiC0) ∧ p.daughtersIds.length = 2 then
        decayChannelOf (scanOf table p)
      else st.decayChannel := by
  simp only [processMcParticle, scanOf]
  generalize List.foldl (scanDaughter (decide (|p.pdgCode| = kOmegaC0)))
    ⟨-1, -1, -1⟩ (daughtersOf table p) = d
  by_cases h1 : |p.pdgCode| = kOmegaC0 ∨ |p.pdgCode| = kXiC0
  · by_cases h2 : p.daughtersIds.length = 2
    · by_cases h3 : decayChannelOf d = -1
      · simp [h1, h2, h3]
      · cases hm : mcAt table d.idxCascDaughter <;> simp [h1, h2, h3, hm]
    · simp [h1, h2]
  · simp [h1]

theorem processMcLoop_decayChannel (ext : Ext) (table : List McParticle) (ps : List McParticle) :
    ∀ (st : TaskState) (n : Nat),
      (processMcLoop ext table st n ps).1.decayChannel =
        (((ps.filter (fun p => decide (IsTwoDaughterCharm p))).getLast?).map
          (fun p => decayChannelOf (scanOf table p))).getD st.decayChannel := by
  induction ps with
  | nil => intro st n; rfl
  | cons p ps ih =>
    intro st n
    rw [processMcLoop_cons]
    simp only
    rw [ih, processMcParticle_decayChannel]
    by_cases h : IsTwoDaughterCharm p
    · have h' : (|p.pdgCode| = kOmegaC0 ∨ |p.pdgCode| = kXiC0) ∧ p.daughtersIds.length = 2 := h
      rw [if_pos h', List.filter_cons_of_pos (by simpa using h), List.getLast?_cons]
      cases (List.filter (fun p => decide (IsTwoDaughterCharm p)) ps).getLast? <;> rfl
    · have h' : ¬ ((|p.pdgCode| = kOmegaC0 ∨ |p.pdgCode| = kXiC0) ∧
          p.daughtersIds.length = 2) := h
      rw [if_neg h', List.filter_cons_of_neg (by simpa using h)]

/-- Claim C29. On a table whose particles carry their row number as global
index, the decay-channel tag of a record written by `processMc` is
`OmegaczeroToOmegaPi` exactly when the recorded particle, Omega_c0 or Xi_c0
alike, has a charged pion among its daughters and `OmegaczeroToOmegaK` exactly
when it has a charged kaon, and it is one of the two; and when `processMc`
returns, the member `decayChannel` holds what the scan of the last Omega_c0 or
Xi_c0 with two daughters in the table left in it (its tag, or -1 when its
decay was not recognised), and its old value when the table has none. -/
theorem decay_channel_tag_follows_meson (ext : Ext) (st : TaskState) (table : List McParticle)
    (hwf : WellFormedTable table) :
    (∀ (st1 : TaskState) (n : Nat) (p : McParticle) (r : GenRow),
      r ∈ (processMcParticle ext table st1 n p).2.rows →
      (r.decayChannel = OmegaczeroToOmegaPi ↔
        ∃ b ∈ daughtersOf table p, |b.pdgCode| = kPiPlus) ∧
      (r.decayChannel = OmegaczeroToOmegaK ↔
        ∃ b ∈ daughtersOf table p, |b.pdgCode| = kKPlus) ∧
      (r.decayChannel = OmegaczeroToOmegaPi ∨ r.decayChannel = OmegaczeroToOmegaK)) ∧
    (processMc ext st table).1.decayChannel =
      (((table.filter (fun p => decide (IsTwoDaughterCharm p))).getLast?).map
        (fun p => decayChannelOf (scanOf table p))).getD st.decayChannel := by
  constructor
  · intro st1 n p r hr
    rw [(processMcParticle_eq ext table st1 n p).1, Option.mem_toList] at hr
    obtain ⟨e, hne, h2⟩ := recordOf_decayChannel ext table p r hr
    obtain ⟨ic, ip, ik⟩ := scanOf_idx_iff hwf p
    have hcasc : 0 ≤ (scanOf table p).idxCascDaughter := ((decayChannelOf_ne _).mp hne).1
    obtain ⟨ePi, eK⟩ := decayChannelOf_eq (scanOf table p) hcasc
    obtain ⟨c, hc, hcp⟩ := ic.mp hcasc
    have hcp' : |c.pdgCode| = kOmegaMinus ∨ |c.pdgCode| = kXiMinus := by
      by_cases ho : |p.pdgCode| = kOmegaC0
      · rw [if_pos ho] at hcp; exact Or.inl hcp
      · rw [if_neg ho] at hcp; exact Or.inr hcp
    rw [e]
    refine ⟨ePi.trans ip, ?_, ?_⟩
    · rw [eK]
      constructor
      · exact fun h => ik.mp h.2
      · intro hk
        refine ⟨fun hp => ?_, ik.mpr hk⟩
        obtain ⟨b, hb, hbp⟩ := ip.mp hp
        obtain ⟨k, hk1, hkp⟩ := hk
        exact daughters_not_three_kinds table p h2 c b k hc hb hk1 hcp' hbp hkp
    · by_cases hp : 0 ≤ (scanOf table p).idxPionDaughter
      · exact Or.inl (ePi.mpr hp)
      · exact Or.inr (eK.mpr ⟨hp, (((decayChannelOf_ne _).mp hne).2).resolve_left hp⟩)
  · unfold processMc
    rw [processMcLoop_decayChannel]

/-- Claim C29 at `demoMcTableXic`: the generated Xi_c0 -> Xi- pi+ is recorded
with the tag `OmegaczeroToOmegaPi`, and the tag stays in the member
`decayChannel`. -/
theorem decay_channel_tag_follows_meson_witness :
    WellFormedTable demoMcTableXic ∧
    (processMc demoExtXic TaskState.init demoMcTableXic).2.rows.map
      (fun r => (r.pdgCodeCharmedBaryon, r.pdgCodeCasc, r.decayChannel)) =
      [(kXiC0, kXiMinus, OmegaczeroToOmegaPi)] ∧
    (processMc demoExtXic TaskState.init demoMcTableXic).1.decayChannel =
      (((demoMcTableXic.filter (fun p => decide (IsTwoDaughterCharm p))).getLast?).map
        (fun p => decayChannelOf (scanOf demoMcTableXic p))).getD TaskState.init.decayChannel ∧
    (processMc demoExtXic TaskState.init demoMcTableXic).1.decayChannel = OmegaczeroToOmegaPi :=
  ⟨by decide, rfl,
    (decay_channel_tag_follows_meson demoExtXic TaskState.init demoMcTableXic (by decide)).2,
    rfl⟩

end HfTreeCreatorOmegacSt
